import Mathlib

/-!
A verification development for the GraphQL language core of `graphql-rs`:
lexer, recursive-descent parser, AST, printer and visitor.

The Rust sources embedded here are:
* `crates/graphql-language/src/ast.rs` (AST node types),
* `crates/graphql-language/src/parser.rs` (the parser; the copy in
  `src/language/parser.rs` is a near-identical earlier generation of the
  same code and is noted where it differs),
* `graphql_language/src/printer.rs` (the printer),
* `crates/graphql/src/language/visitor.rs` (the visitor),
* `crates/graphql/src/language/position.rs` (positions and locations).

The lexer module (`mod lexer`) is declared by the crates but its source
file is not part of the source snapshot, so the lexer here is modelled
from the specification (section 4.1) and is checked against the exact
error positions pinned down by the parser unit tests that do survive in
`parser.rs`.  Definitions modelled that way carry a doc comment starting
with `Modelled from the spec:`.

Feature flags: the embedding fixes the `type_system` and `subscriptions`
cargo features to *disabled* (the crate default), so `Definition` has no
type-system variant and `OperationType` has no subscription variant; the
parser branches guarded by `#[cfg(feature = ...)]` are embedded in their
`cfg(not(...))` form.

Rust `String` values are kept as Lean `String`; the printer's output
buffer and the parser's input character iterator are modelled as
`List Char`.  Machine integers: `usize` positions become `Nat`; the
`i32` payload of integer tokens is modelled as unbounded `Int` (the
numeric grammar, not overflow behaviour, is what the claims exercise);
the `f32` payload of float tokens is modelled as its source lexeme, the
float claims being settled without interpreting it.
-/

set_option maxHeartbeats 1000000
set_option maxRecDepth 10000

namespace Graphql

/-- The position of a single character in a source document
(`position.rs`): 0-indexed character `index`, 1-indexed `line` and
`column`. -/
structure Position where
  index : Nat
  line : Nat
  column : Nat
deriving Repr, DecidableEq

/-- A source range (`position.rs`).  The Rust field `end` is a reserved
word in Lean and is called `stop` here. -/
structure Location where
  start : Position
  stop : Position
deriving Repr, DecidableEq

/-- Modelled from the spec: the closed token-kind variant set of section 3.
`TokenKind::At` is called `atSign` (`at` is a Lean keyword) and
`TokenKind::String` is called `string`.  The `Float` payload keeps the
source lexeme instead of interpreting it as an `f32`. -/
inductive TokenKind where
  | name (value : String)
  | int (value : Int)
  | float (lexeme : String)
  | string (value : String)
  | leftBrace
  | rightBrace
  | leftParen
  | rightParen
  | leftBracket
  | rightBracket
  | colon
  | dollar
  | equals
  | atSign
  | bang
  | pipe
  | ellipsis
deriving Repr, DecidableEq

/-- Modelled from the spec: a token with its inclusive start and end
positions (the parser unit tests show `Token::new(kind, start, end)`
with `end` the position of the token's final character). -/
structure Token where
  kind : TokenKind
  start : Position
  stop : Position
deriving Repr, DecidableEq

/-- Modelled from the spec: the lexer error kinds of section 4.1
(invalid character, unterminated string, bad escape sequence, malformed
number), each carrying the offending position. -/
inductive LexErrorKind where
  | invalidCharacter
  | unterminatedString
  | badEscape
  | malformedNumber
deriving Repr, DecidableEq

/-- Modelled from the spec: a lexer-level failure. -/
structure LexError where
  kind : LexErrorKind
  pos : Position
deriving Repr, DecidableEq

/-- Advances a position over one consumed character: the index always
increments; a newline increments the line and resets the column to 1. -/
def advancePos (p : Position) (c : Char) : Position :=
  if c = '\n' then ⟨p.index + 1, p.line + 1, 1⟩
  else ⟨p.index + 1, p.line, p.column + 1⟩

/-- Advances a position over a list of consumed characters. -/
def advanceStr (p : Position) (cs : List Char) : Position :=
  cs.foldl advancePos p

/-- Modelled from the spec: the characters the lexer silently skips
between tokens (space, tab, newline, carriage return, comma,
byte-order mark); `#` comments are handled separately. -/
def isIgnoredChar (c : Char) : Bool :=
  c = ' ' || c = '\t' || c = '\n' || c = '\r' || c = ',' || c = '﻿'

/-- First character of a `Name` token: `[_A-Za-z]`. -/
def isNameStart (c : Char) : Bool :=
  c = '_' || ('A' ≤ c && c ≤ 'Z') || ('a' ≤ c && c ≤ 'z')

/-- Continuation character of a `Name` token: `[_0-9A-Za-z]`. -/
def isNameChar (c : Char) : Bool :=
  isNameStart c || ('0' ≤ c && c ≤ '9')

/-- Decimal digit test. -/
def isDigitChar (c : Char) : Bool :=
  '0' ≤ c && c ≤ '9'

/-- The lexer cursor: the unconsumed characters, the position `nextPos`
of the next unconsumed character, and the position `lastPos` of the most
recently consumed character.  `lastPos` is what the Rust `Lexer::pos`
returns; on a fresh lexer it is `{index 0, line 1, column 1}`, which is
what the parser unit tests observe for `parse("")`. -/
structure Cursor where
  remaining : List Char
  nextPos : Position
  lastPos : Position
deriving Repr, DecidableEq

/-- Modelled from the spec: skipping of insignificant characters before
a token (section 4.1), including `#` line comments.  The flag is true
while inside a `#` comment, which runs to (and consumes) the newline.
The recursion is structural on the character list so that the whole
lexer evaluates inside the kernel. -/
def skipAux : Bool → List Char → Position → Position → List Char × Position × Position
  | _, [], np, lp => ([], np, lp)
  | true, c :: cs, np, _ =>
    if c = '\n' then skipAux false cs (advancePos np c) np
    else skipAux true cs (advancePos np c) np
  | false, c :: cs, np, lp =>
    if isIgnoredChar c then skipAux false cs (advancePos np c) np
    else if c = '#' then skipAux true cs (advancePos np c) np
    else (c :: cs, np, lp)

/-- Skipping of insignificant characters, acting on a cursor. -/
def skipIgnored (s : Cursor) : Cursor :=
  let (cs, np, lp) := skipAux false s.remaining s.nextPos s.lastPos
  ⟨cs, np, lp⟩

/-- Accumulates the continuation characters of a name token, returning
the accumulated characters in reverse order, the rest of the input and
the two updated positions. -/
def lexNameBody : List Char → Position → Position → List Char →
    List Char × List Char × Position × Position
  | [], np, lp, acc => (acc, [], np, lp)
  | c :: cs, np, lp, acc =>
    if isNameChar c then lexNameBody cs (advancePos np c) np (c :: acc)
    else (acc, c :: cs, np, lp)

/-- Accumulates decimal digits in reverse order, together with the rest
of the input and the two updated positions. -/
def lexDigits : List Char → Position → Position → List Char →
    List Char × List Char × Position × Position
  | [], np, lp, acc => (acc, [], np, lp)
  | c :: cs, np, lp, acc =>
    if isDigitChar c then lexDigits cs (advancePos np c) np (c :: acc)
    else (acc, c :: cs, np, lp)

/-- Numeric value of a digit string (most significant digit first). -/
def natOfDigits (ds : List Char) : Nat :=
  ds.foldl (fun a c => 10 * a + (c.toNat - 48)) 0

/-- Value of a hexadecimal digit, if the character is one. -/
def hexVal (c : Char) : Option Nat :=
  if '0' ≤ c && c ≤ '9' then some (c.toNat - 48)
  else if 'a' ≤ c && c ≤ 'f' then some (c.toNat - 87)
  else if 'A' ≤ c && c ≤ 'F' then some (c.toNat - 55)
  else none

/-- Modelled from the spec: the body of a string literal after the
opening quote (section 4.1).  Escape sequences
`\" \\ \/ \b \f \n \r \t \uXXXX` are decoded; a raw control character
(code below 0x20) is an invalid-character error; end of input before
the closing quote is an unterminated-string error.  Characters are
accumulated in reverse; the result carries the decoded value, the rest
of the input and the updated positions. -/
def lexStringBody : List Char → Position → Position → List Char →
    Except LexError (String × List Char × Position × Position)
  | [], np, _, _ => .error ⟨.unterminatedString, np⟩
  | c :: cs, np, _, acc =>
    if c = '"' then .ok (String.mk acc.reverse, cs, advancePos np c, np)
    else if c = '\\' then
      match cs with
      | [] => .error ⟨.badEscape, np⟩
      | e :: cs2 =>
        let np2 := advancePos np c
        if e = 'u' then
          match cs2 with
          | h1 :: h2 :: h3 :: h4 :: cs3 =>
            match hexVal h1, hexVal h2, hexVal h3, hexVal h4 with
            | some v1, some v2, some v3, some v4 =>
              let n := ((v1 * 16 + v2) * 16 + v3) * 16 + v4
              if n.isValidChar then
                let q1 := advancePos np2 e
                let q2 := advancePos q1 h1
                let q3 := advancePos q2 h2
                let q4 := advancePos q3 h3
                lexStringBody cs3 (advancePos q4 h4) q4 (Char.ofNat n :: acc)
              else .error ⟨.badEscape, np2⟩
            | _, _, _, _ => .error ⟨.badEscape, np2⟩
          | _ => .error ⟨.badEscape, np2⟩
        else
          let esc : Option Char :=
            if e = '"' then some '"'
            else if e = '\\' then some '\\'
            else if e = '/' then some '/'
            else if e = 'b' then some (Char.ofNat 8)
            else if e = 'f' then some (Char.ofNat 12)
            else if e = 'n' then some '\n'
            else if e = 'r' then some '\r'
            else if e = 't' then some '\t'
            else none
          match esc with
          | some ch => lexStringBody cs2 (advancePos np2 e) np2 (ch :: acc)
          | none => .error ⟨.badEscape, np2⟩
    else if c.toNat < 32 then .error ⟨.invalidCharacter, np⟩
    else lexStringBody cs (advancePos np c) np (c :: acc)

/-- Modelled from the spec: the numeric literal grammar of section 4.1:
optional leading `-`, no leading zero unless the integer part is
exactly `0`, optional fraction requiring at least one digit, optional
exponent `(e|E)(+|-)?digits`.  The result is an `int` token kind
carrying the (unbounded) decimal value, or a `float` token kind
carrying the lexeme, together with the rest of the input and the
updated positions.  The first input character is `-` or a digit at
every call site. -/
def lexNumber (input : List Char) (np0 lp0 : Position) :
    Except LexError (TokenKind × List Char × Position × Position) := do
  -- optional sign
  let (neg, cs1, np1, lp1) :=
    match input with
    | '-' :: cs => (true, cs, advancePos np0 '-', np0)
    | cs => (false, cs, np0, lp0)
  -- integer part
  let (ids, cs3, np3, lp3) ←
    match cs1 with
    | [] => .error (⟨.malformedNumber, np1⟩ : LexError)
    | c :: cs2 =>
      if c = '0' then
        match cs2 with
        | d :: _ =>
          if isDigitChar d then .error (⟨.malformedNumber, advancePos np1 c⟩ : LexError)
          else .ok (['0'], cs2, advancePos np1 c, np1)
        | [] => .ok (['0'], cs2, advancePos np1 c, np1)
      else if isDigitChar c then
        let (accRev, rest, np, lp) := lexDigits cs2 (advancePos np1 c) np1 [c]
        .ok (accRev.reverse, rest, np, lp)
      else .error (⟨.malformedNumber, np1⟩ : LexError)
  -- fraction part
  let (isFloat1, fchars, cs5, np5, lp5) ←
    match cs3 with
    | '.' :: cs4 =>
      let npDot := advancePos np3 '.'
      match cs4 with
      | d :: cs4b =>
        if isDigitChar d then
          let (accRev, rest, np, lp) := lexDigits cs4b (advancePos npDot d) npDot [d]
          .ok (true, '.' :: accRev.reverse, rest, np, lp)
        else .error (⟨.malformedNumber, npDot⟩ : LexError)
      | [] => .error (⟨.malformedNumber, npDot⟩ : LexError)
    | _ => .ok (false, ([] : List Char), cs3, np3, lp3)
  -- exponent part
  let (isFloat2, echars, cs9, np9, lp9) ←
    match cs5 with
    | e :: cs6 =>
      if e = 'e' || e = 'E' then
        let npE := advancePos np5 e
        let (sgn, cs7, np7, lp7) :=
          match cs6 with
          | s :: cs6b =>
            if s = '+' || s = '-' then ([s], cs6b, advancePos npE s, npE)
            else (([] : List Char), s :: cs6b, npE, np5)
          | [] => (([] : List Char), ([] : List Char), npE, np5)
        match cs7 with
        | d :: cs8 =>
          if isDigitChar d then
            let (accRev, rest, np, lp) := lexDigits cs8 (advancePos np7 d) np7 [d]
            .ok (true, e :: (sgn ++ accRev.reverse), rest, np, lp)
          else .error (⟨.malformedNumber, np7⟩ : LexError)
        | [] => .error (⟨.malformedNumber, np7⟩ : LexError)
      else .ok (false, ([] : List Char), cs5, np5, lp5)
    | [] => .ok (false, ([] : List Char), cs5, np5, lp5)
  let kind : TokenKind :=
    if isFloat1 || isFloat2 then
      .float (String.mk ((if neg then ['-'] else []) ++ ids ++ fchars ++ echars))
    else
      .int ((if neg then -1 else 1) * (natOfDigits ids : Int))
  .ok (kind, cs9, np9, lp9)

/-- The classification of a significant character: which token class
it starts. -/
inductive CharClass where
  | punct (kind : TokenKind)
  | dot
  | quote
  | numeric
  | nameStart
  | bad
deriving Repr, DecidableEq

/-- Modelled from the spec: the classification order of section 4.1 —
punctuators, `...`, string literals, numeric literals, names; anything
else is an invalid character. -/
def classifyChar (c : Char) : CharClass :=
  if c = '{' then .punct .leftBrace
  else if c = '}' then .punct .rightBrace
  else if c = '(' then .punct .leftParen
  else if c = ')' then .punct .rightParen
  else if c = '[' then .punct .leftBracket
  else if c = ']' then .punct .rightBracket
  else if c = ':' then .punct .colon
  else if c = '$' then .punct .dollar
  else if c = '=' then .punct .equals
  else if c = '@' then .punct .atSign
  else if c = '!' then .punct .bang
  else if c = '|' then .punct .pipe
  else if c = '.' then .dot
  else if c = '"' then .quote
  else if c = '-' || isDigitChar c then .numeric
  else if isNameStart c then .nameStart
  else .bad

/-- Modelled from the spec: classification of the next significant
character into a token (section 4.1): punctuators, `...`, string
literals, numeric literals, names; anything else is an
invalid-character error.  Returns `none` at the end of the stream. -/
def lexToken (s : Cursor) : Option (Except LexError Token) × Cursor :=
  let s1 := skipIgnored s
  match s1.remaining with
  | [] => (none, s1)
  | c :: cs =>
    let start := s1.nextPos
    match classifyChar c with
    | .punct k =>
      (some (.ok ⟨k, start, start⟩), ⟨cs, advancePos s1.nextPos c, s1.nextPos⟩)
    | .dot =>
      match cs with
      | d2 :: d3 :: cs3 =>
        if d2 = '.' && d3 = '.' then
          let p2 := advancePos start c
          let p3 := advancePos p2 d2
          (some (.ok ⟨.ellipsis, start, p3⟩), ⟨cs3, advancePos p3 d3, p3⟩)
        else (some (.error ⟨.invalidCharacter, start⟩), s1)
      | _ => (some (.error ⟨.invalidCharacter, start⟩), s1)
    | .quote =>
      match lexStringBody cs (advancePos s1.nextPos c) s1.nextPos [] with
      | .ok (value, rest, np, lp) =>
        (some (.ok ⟨.string value, start, lp⟩), ⟨rest, np, lp⟩)
      | .error e => (some (.error e), s1)
    | .numeric =>
      match lexNumber (c :: cs) s1.nextPos s1.lastPos with
      | .ok (kind, rest, np, lp) =>
        (some (.ok ⟨kind, start, lp⟩), ⟨rest, np, lp⟩)
      | .error e => (some (.error e), s1)
    | .nameStart =>
      let (accRev, rest, np, lp) := lexNameBody cs (advancePos s1.nextPos c) s1.nextPos [c]
      (some (.ok ⟨.name (String.mk accRev.reverse), start, lp⟩), ⟨rest, np, lp⟩)
    | .bad => (some (.error ⟨.invalidCharacter, start⟩), s1)

/-- The lexer as seen by the parser: a cursor plus the one-token peek
cache (`peek` caches the next lexed result, `next` consumes it, `pos`
reports the position of the most recently consumed character). -/
structure LexerState where
  cursor : Cursor
  peeked : Option (Option (Except LexError Token))
deriving Repr

/-- A fresh lexer over an input character sequence. -/
def mkLexer (cs : List Char) : LexerState :=
  ⟨⟨cs, ⟨0, 1, 1⟩, ⟨0, 1, 1⟩⟩, none⟩

namespace Lexer

/-- `Lexer::peek`: looks at the next token without consuming it; the
lexed result is cached so repeated peeks are idempotent. -/
def peek (s : LexerState) : Option (Except LexError Token) × LexerState :=
  match s.peeked with
  | some r => (r, s)
  | none =>
    let (r, c2) := lexToken s.cursor
    (r, ⟨c2, some r⟩)

/-- `Lexer::next`: consumes and returns the next token, using the peek
cache when present. -/
def next (s : LexerState) : Option (Except LexError Token) × LexerState :=
  match s.peeked with
  | some r => (r, ⟨s.cursor, none⟩)
  | none =>
    let (r, c2) := lexToken s.cursor
    (r, ⟨c2, none⟩)

/-- `Lexer::pos`: the current cursor position. -/
def pos (s : LexerState) : Position := s.cursor.lastPos

end Lexer

/-!
The AST of `crates/graphql-language/src/ast.rs`.  Every struct node
carries `loc : Option Location` first, matching the `node_struct!`
macro; enum nodes are plain inductives.  Struct nodes that are members
of a mutually recursive family are single-constructor inductives
(Lean's `structure` cannot appear in a `mutual` block); their fields
keep the Rust names as constructor binder names.  `Type` is called
`Typ` (`Type` is a Lean sort) and `Value::Variable`'s constructor is
called `var` (`variable` is a Lean keyword).  The `type_system`
feature is disabled, so `Definition` has only the `Operation` and
`Fragment` variants, and the `subscriptions` feature is disabled, so
`OperationType` has only `Query` and `Mutation`. -/

/-- `ast::Name`. -/
structure Name where
  loc : Option Location
  value : String
deriving Repr

/-- `ast::IntValue` (`i32` modelled as unbounded `Int`). -/
structure IntValue where
  loc : Option Location
  value : Int
deriving Repr

/-- `ast::FloatValue`; the `f32` payload is modelled as the source
lexeme, which no theorem below interprets. -/
structure FloatValue where
  loc : Option Location
  value : String
deriving Repr

/-- `ast::StringValue`. -/
structure StringValue where
  loc : Option Location
  value : String
deriving Repr

/-- `ast::BooleanValue`. -/
structure BooleanValue where
  loc : Option Location
  value : Bool
deriving Repr

/-- `ast::NullValue`. -/
structure NullValue where
  loc : Option Location
deriving Repr

/-- `ast::EnumValue`. -/
structure EnumValue where
  loc : Option Location
  value : String
deriving Repr

/-- `ast::Variable`. -/
structure Variable where
  loc : Option Location
  name : Name
deriving Repr

mutual

/-- `ast::Value`. -/
inductive Value where
  | var (node : Variable)
  | int (node : IntValue)
  | float (node : FloatValue)
  | string (node : StringValue)
  | boolean (node : BooleanValue)
  | null (node : NullValue)
  | enum (node : EnumValue)
  | list (node : ListValue)
  | object (node : ObjectValue)

/-- `ast::ListValue`. -/
inductive ListValue where
  | mk (loc : Option Location) (values : List Value)

/-- `ast::ObjectValue`. -/
inductive ObjectValue where
  | mk (loc : Option Location) (fields : List ObjectField)

/-- `ast::ObjectField`. -/
inductive ObjectField where
  | mk (loc : Option Location) (name : Name) (value : Value)

end

/-- `ast::Argument`. -/
structure Argument where
  loc : Option Location
  name : Name
  value : Value

/-- `ast::Directive`. -/
structure Directive where
  loc : Option Location
  name : Name
  arguments : List Argument

/-- `ast::NamedType`. -/
structure NamedType where
  loc : Option Location
  name : Name
deriving Repr

mutual

/-- `ast::Type` (named `Typ`: `Type` is a Lean sort). -/
inductive Typ where
  | named (node : NamedType)
  | list (node : ListType)
  | nonNull (node : NonNullType)

/-- `ast::NullableType`: the inner type of a `NonNullType`, which by
construction can only be a named or a list type. -/
inductive NullableType where
  | named (node : NamedType)
  | list (node : ListType)

/-- `ast::ListType`. -/
inductive ListType where
  | mk (loc : Option Location) (typ : Typ)

/-- `ast::NonNullType`: its inner field has type `NullableType`, not
`Typ`. -/
inductive NonNullType where
  | mk (loc : Option Location) (typ : NullableType)

end

/-- `impl From<NullableType> for Type`. -/
def NullableType.toTyp : NullableType → Typ
  | .named node => .named node
  | .list node => .list node

/-- `ast::VariableDefinition` (field `variable` is called `var`:
`variable` is a Lean keyword). -/
structure VariableDefinition where
  loc : Option Location
  var : Variable
  typ : Typ
  default_value : Option Value

/-- `ast::FragmentSpread`. -/
structure FragmentSpread where
  loc : Option Location
  name : Name
  directives : List Directive

mutual

/-- `ast::SelectionSet`. -/
inductive SelectionSet where
  | mk (loc : Option Location) (selections : List Selection)

/-- `ast::Selection`. -/
inductive Selection where
  | field (node : Field)
  | fragmentSpread (node : FragmentSpread)
  | inlineFragment (node : InlineFragment)

/-- `ast::Field` (field `alias` is called `aliasName`: `alias` is a
Batteries command keyword). -/
inductive Field where
  | mk (loc : Option Location) (aliasName : Option Name) (name : Name)
      (arguments : List Argument) (directives : List Directive)
      (selection_set : Option SelectionSet)

/-- `ast::InlineFragment`. -/
inductive InlineFragment where
  | mk (loc : Option Location) (type_condition : Option NamedType)
      (directives : List Directive) (selection_set : SelectionSet)

end

/-- `ast::FragmentDefinition`. -/
structure FragmentDefinition where
  loc : Option Location
  name : Name
  type_condition : NamedType
  directives : List Directive
  selection_set : SelectionSet

/-- `ast::OperationType` (the `subscriptions` feature is disabled). -/
inductive OperationType where
  | query
  | mutation
deriving Repr, DecidableEq

/-- `ast::OperationDefinition`. -/
structure OperationDefinition where
  loc : Option Location
  operation : OperationType
  name : Option Name
  variable_definitions : List VariableDefinition
  directives : List Directive
  selection_set : SelectionSet

/-- `ast::Definition` (the `type_system` feature is disabled). -/
inductive Definition where
  | operation (node : OperationDefinition)
  | fragment (node : FragmentDefinition)

/-- `ast::Document`. -/
structure Document where
  loc : Option Location
  definitions : List Definition

/-!
The parser of `crates/graphql-language/src/parser.rs`.  The parser
context (`struct Parser`) is the lexer state plus the
`include_location` flag; the flag is threaded as the parameter `il` and
the lexer state is passed and returned explicitly.  Each Rust method
returning `Result<T, Error>` becomes a function
`LexerState → Except Error (T × LexerState)`.

The Rust functions terminate because the lexer consumes input; the
embedding makes termination syntactic with a fuel parameter that every
(mutually) recursive function decrements on every call.  Exhausted fuel
returns `Error.unreachable` — the `Error::Unreachable` variant that the
Rust parser declares but never constructs — so a run that returns
anything other than `unreachable` is a faithful image of the Rust run.
The top-level entry points supply `16 * length + 64` fuel, far more
than the recursion (bounded by the consumed input) can use.
-/

/-- `parser::Error`. -/
inductive Error where
  | unexpectedEnding (p : Position)
  | unexpectedToken (t : Token)
  | lexer (e : LexError)
  | unreachable
deriving Repr, DecidableEq

/-- `Parser::check`: peeks and compares the token kind; `false` on end
of input or a lexer error. -/
def check (kind : TokenKind) (s : LexerState) : Bool × LexerState :=
  let (r, s1) := Lexer.peek s
  match r with
  | some (.ok t) => (decide (t.kind = kind), s1)
  | _ => (false, s1)

/-- `Parser::check_name`: peeks and compares against a name token with
the given string. -/
def checkName (nm : String) (s : LexerState) : Bool × LexerState :=
  let (r, s1) := Lexer.peek s
  match r with
  | some (.ok t) =>
    match t.kind with
    | .name v => (decide (v = nm), s1)
    | _ => (false, s1)
  | _ => (false, s1)

/-- `Parser::next`: consumes the next token, wrapping lexer errors into
parser errors. -/
def nextTok (s : LexerState) : Option (Except Error Token) × LexerState :=
  let (r, s1) := Lexer.next s
  match r with
  | some (.ok t) => (some (.ok t), s1)
  | some (.error e) => (some (.error (Error.lexer e)), s1)
  | none => (none, s1)

/-- `Parser::next_if`: consumes the next token only when its kind
matches. -/
def nextIf (kind : TokenKind) (s : LexerState) :
    Option (Except Error Token) × LexerState :=
  let (b, s1) := check kind s
  if b then nextTok s1 else (none, s1)

/-- `Parser::next_if_any_name`: consumes the next token and returns its
name string only when it is a name token. -/
def nextIfAnyName (s : LexerState) : Option String × LexerState :=
  let (r, s1) := Lexer.peek s
  match r with
  | some (.ok t) =>
    match t.kind with
    | .name _ =>
      let (r2, s2) := Lexer.next s1
      match r2 with
      | some (.ok t2) =>
        match t2.kind with
        | .name v => (some v, s2)
        | _ => (none, s2)
      | _ => (none, s2)
    | _ => (none, s1)
  | _ => (none, s1)

/-- `Parser::next_if_name`: consumes the next token only when it is a
name token with exactly the given string. -/
def nextIfName (nm : String) (s : LexerState) : Bool × LexerState :=
  let (r, s1) := Lexer.peek s
  match r with
  | some (.ok t) =>
    match t.kind with
    | .name v =>
      if v = nm then
        let (r2, s2) := Lexer.next s1
        match r2 with
        | some (.ok t2) =>
          match t2.kind with
          | .name _ => (true, s2)
          | _ => (false, s2)
        | _ => (false, s2)
      else (false, s1)
    | _ => (false, s1)
  | _ => (false, s1)

/-- `Parser::unexpected`: consumes the next token and produces the
corresponding unexpected error. -/
def unexpected (s : LexerState) : Error × LexerState :=
  let (r, s1) := nextTok s
  match r with
  | some (.ok t) => (Error.unexpectedToken t, s1)
  | some (.error e) => (e, s1)
  | none => (Error.unexpectedEnding (Lexer.pos s1), s1)

/-- `Parser::expect`: consumes the next token, failing unless it has
the given kind. -/
def expect (kind : TokenKind) (s : LexerState) : Except Error LexerState :=
  let (r, s1) := nextTok s
  match r with
  | some (.ok t) => if t.kind = kind then .ok s1 else .error (.unexpectedToken t)
  | some (.error e) => .error e
  | none => .error (.unexpectedEnding (Lexer.pos s1))

/-- `Parser::expect_name`: consumes the next token, failing unless it
is a name token with the given string. -/
def expectName (nm : String) (s : LexerState) : Except Error LexerState :=
  let (r, s1) := nextTok s
  match r with
  | some (.ok t) =>
    match t.kind with
    | .name v => if v = nm then .ok s1 else .error (.unexpectedToken t)
    | _ => .error (.unexpectedToken t)
  | some (.error e) => .error e
  | none => .error (.unexpectedEnding (Lexer.pos s1))

/-- `Parser::loc`: the optional location from a saved start position to
the current position, controlled by `include_location`. -/
def mkLoc (il : Bool) (start : Position) (s : LexerState) : Option Location :=
  if il then some ⟨start, Lexer.pos s⟩ else none

/-- The loop of `Parser::many`: before each item the closing token is
tried; if it closes while no item has been parsed and none are allowed,
the error carries the closing token.  `empty` tracks
`items.len() == 0`.  The recursion is an explicit `Nat.rec` on the
fuel so that runs evaluate inside the kernel. -/
def manyLoop (parseFn : LexerState → Except Error (α × LexerState))
    (stop : TokenKind) (allowNone : Bool) (fuel : Nat) :
    Bool → LexerState → Except Error (List α × LexerState) :=
  Nat.rec (motive := fun _ => Bool → LexerState → Except Error (List α × LexerState))
    (fun _ _ => .error .unreachable)
    (fun _ ih empty s =>
      let (r, s1) := nextIf stop s
      match r with
      | some (.ok t) =>
        if !allowNone && empty then .error (.unexpectedToken t)
        else .ok ([], s1)
      | some (.error e) => .error e
      | none =>
        match parseFn s1 with
        | .ok (item, s2) =>
          match ih false s2 with
          | .ok (items, s3) => .ok (item :: items, s3)
          | .error e => .error e
        | .error e => .error e)
    fuel

/-- `Parser::many`: parses a delimited list between a start and a stop
token; when `allowNone` is false and the stop token immediately
follows the start token, the error is `unexpectedToken` carrying the
stop token. -/
def many (parseFn : LexerState → Except Error (α × LexerState))
    (start stop : TokenKind) (allowNone : Bool) (fuel : Nat) (s : LexerState) :
    Except Error (List α × LexerState) :=
  match expect start s with
  | .ok s1 => manyLoop parseFn stop allowNone fuel true s1
  | .error e => .error e

section ParserFns

variable (il : Bool)

/-- `Parser::parse_name`. -/
def parseName (s : LexerState) : Except Error (Name × LexerState) :=
  let start := Lexer.pos s
  let (r, s1) := nextIfAnyName s
  match r with
  | some nm => .ok (⟨mkLoc il start s1, nm⟩, s1)
  | none =>
    let (e, s2) := unexpected s1
    let _ := s2
    .error e

/-- `Parser::parse_operation_type` with the `subscriptions` feature
disabled: `subscription` (already consumed by `next_if_any_name`)
falls through to the unexpected-error arm. -/
def parseOperationType (s : LexerState) : Except Error (OperationType × LexerState) :=
  let (r, s1) := nextIfAnyName s
  match r with
  | some v =>
    if v = "query" then .ok (.query, s1)
    else if v = "mutation" then .ok (.mutation, s1)
    else
      let (e, s2) := unexpected s1
      let _ := s2
      .error e
  | none =>
    let (e, s2) := unexpected s1
    let _ := s2
    .error e

/-- `Parser::parse_variable`. -/
def parseVariable (s : LexerState) : Except Error (Variable × LexerState) :=
  let start := Lexer.pos s
  match expect .dollar s with
  | .error e => .error e
  | .ok s1 =>
    match parseName il s1 with
    | .error e => .error e
    | .ok (name, s2) => .ok (⟨mkLoc il start s2, name⟩, s2)

/-- `Parser::parse_named_type`. -/
def parseNamedType (s : LexerState) : Except Error (NamedType × LexerState) :=
  let start := Lexer.pos s
  match parseName il s with
  | .error e => .error e
  | .ok (name, s1) => .ok (⟨mkLoc il start s1, name⟩, s1)

/-- `Parser::parse_fragment_name`.  The source guards on the name
`"ok"` — not the GraphQL-reserved `"on"` its own grammar comment
names — and this embedding reproduces that behaviour exactly. -/
def parseFragmentName (s : LexerState) : Except Error (Name × LexerState) :=
  let (b, s1) := checkName "ok" s
  if b then
    let (e, s2) := unexpected s1
    let _ := s2
    .error e
  else parseName il s1

/-- The parser functions, gathered in a pack indexed by fuel.  The
mutually recursive Rust methods become non-recursive step functions
over the pack of one-less-fuel functions (the `...F` definitions
below); the pack at fuel `n + 1` is the step applied to the pack at
fuel `n`, tied with a plain `Nat.rec` so that parser runs evaluate
inside the kernel.  `lvl` is the pack's own fuel value, used for the
`many` loops. -/
structure ParserPack where
  lvl : Nat
  typeReference : LexerState → Except Error (Typ × LexerState)
  documentLoop : LexerState → Except Error (List Definition × LexerState)
  definition : LexerState → Except Error (Definition × LexerState)
  operationDefinition : LexerState → Except Error (OperationDefinition × LexerState)
  variableDefinitions : LexerState → Except Error (List VariableDefinition × LexerState)
  variableDefinition : LexerState → Except Error (VariableDefinition × LexerState)
  selectionSet : LexerState → Except Error (SelectionSet × LexerState)
  selection : LexerState → Except Error (Selection × LexerState)
  field : LexerState → Except Error (Field × LexerState)
  arguments : LexerState → Except Error (List Argument × LexerState)
  argument : LexerState → Except Error (Argument × LexerState)
  fragment : LexerState → Except Error (Selection × LexerState)
  fragmentTail : Position → LexerState → Except Error (Selection × LexerState)
  fragmentDefinition : LexerState → Except Error (FragmentDefinition × LexerState)
  valueLiteral : LexerState → Except Error (Value × LexerState)
  listValue : LexerState → Except Error (ListValue × LexerState)
  objectValue : LexerState → Except Error (ObjectValue × LexerState)
  objectField : LexerState → Except Error (ObjectField × LexerState)
  directives : LexerState → Except Error (List Directive × LexerState)
  directive : LexerState → Except Error (Directive × LexerState)

/-- `Parser::parse_type_reference`: an optional `[ Type ]` wrapper
producing the nullable type, then an optional trailing `!` turning it
into a non-null type. -/
def parseTypeReferenceF (rec : ParserPack) (s : LexerState) :
    Except Error (Typ × LexerState) :=
    let start := Lexer.pos s
    let afterNullable :
        Except Error (NullableType × LexerState) :=
      let (r, s1) := nextIf .leftBracket s
      match r with
      | some _ =>
        match rec.typeReference s1 with
        | .error e => .error e
        | .ok (typ, s2) =>
          match expect .rightBracket s2 with
          | .error e => .error e
          | .ok s3 => .ok (.list ⟨mkLoc il start s3, typ⟩, s3)
      | none =>
        match parseNamedType il s1 with
        | .error e => .error e
        | .ok (nt, s2) => .ok (.named nt, s2)
    match afterNullable with
    | .error e => .error e
    | .ok (nullable, s4) =>
      let (r2, s5) := nextIf .bang s4
      match r2 with
      | some _ => .ok (.nonNull ⟨mkLoc il start s5, nullable⟩, s5)
      | none => .ok (nullable.toTyp, s5)

/-- The `while self.lexer.peek() != None` loop of
`Parser::parse_document`. -/
def parseDocumentLoopF (rec : ParserPack) (s : LexerState) :
    Except Error (List Definition × LexerState) :=
    let (r, s1) := Lexer.peek s
    match r with
    | none => .ok ([], s1)
    | some _ =>
      match rec.definition s1 with
      | .error e => .error e
      | .ok (d, s2) =>
        match rec.documentLoop s2 with
        | .error e => .error e
        | .ok (ds, s3) => .ok (d :: ds, s3)

/-- `Parser::parse_definition` with the `type_system` feature disabled:
the nine type-system keywords take the `cfg(not(feature))` branch and
produce an unexpected error. -/
def parseDefinitionF (rec : ParserPack) (s : LexerState) :
    Except Error (Definition × LexerState) :=
    let (b1, s1) := check .leftBrace s
    if b1 then
      match rec.operationDefinition s1 with
      | .error e => .error e
      | .ok (od, s2) => .ok (.operation od, s2)
    else
      let (b2, s2) := checkName "query" s1
      let (b3, s3) := checkName "mutation" s2
      let (b4, s4) := checkName "subscription" s3
      if b2 || b3 || b4 then
        match rec.operationDefinition s4 with
        | .error e => .error e
        | .ok (od, s5) => .ok (.operation od, s5)
      else
        let (b5, s5) := checkName "fragment" s4
        if b5 then
          match rec.fragmentDefinition s5 with
          | .error e => .error e
          | .ok (fd, s6) => .ok (.fragment fd, s6)
        else
          let (c1, t1) := checkName "schema" s5
          let (c2, t2) := checkName "scalar" t1
          let (c3, t3) := checkName "type" t2
          let (c4, t4) := checkName "interface" t3
          let (c5, t5) := checkName "union" t4
          let (c6, t6) := checkName "enum" t5
          let (c7, t7) := checkName "input" t6
          let (c8, t8) := checkName "extend" t7
          let (c9, t9) := checkName "directive" t8
          let (e, t10) := unexpected t9
          let _ := t10
          let _ := c1 || c2 || c3 || c4 || c5 || c6 || c7 || c8 || c9
          .error e

/-- `Parser::parse_operation_definition`: a bare selection set is the
anonymous-query shorthand; otherwise operation type, optional name,
optional variable definitions, directives, then the selection set. -/
def parseOperationDefinitionF (rec : ParserPack) (s : LexerState) :
    Except Error (OperationDefinition × LexerState) :=
    let start := Lexer.pos s
    let (b, s1) := check .leftBrace s
    let header :
        Except Error ((OperationType × Option Name ×
          List VariableDefinition × List Directive) × LexerState) :=
      if b then .ok ((.query, none, [], []), s1)
      else
        match parseOperationType s1 with
        | .error e => .error e
        | .ok (op, s2) =>
          let start2 := Lexer.pos s2
          let (nmOpt, s3) := nextIfAnyName s2
          let name : Option Name := nmOpt.map (fun v => ⟨mkLoc il start2 s3, v⟩)
          let (bp, s4) := check .leftParen s3
          let vdsRes :=
            if bp then rec.variableDefinitions s4
            else .ok ([], s4)
          match vdsRes with
          | .error e => .error e
          | .ok (vds, s5) =>
            match rec.directives s5 with
            | .error e => .error e
            | .ok (ds, s6) => .ok ((op, name, vds, ds), s6)
    match header with
    | .error e => .error e
    | .ok ((op, name, vds, ds), s7) =>
      match rec.selectionSet s7 with
      | .error e => .error e
      | .ok (ss, s8) =>
        .ok (⟨mkLoc il start s8, op, name, vds, ds, ss⟩, s8)

/-- `Parser::parse_variable_definitions`:
`many(LeftParen, parse_variable_definition, RightParen, false)`. -/
def parseVariableDefinitionsF (rec : ParserPack) (s : LexerState) :
    Except Error (List VariableDefinition × LexerState) :=
    many (fun s => rec.variableDefinition s) .leftParen .rightParen false rec.lvl s

/-- `Parser::parse_variable_definition`: `$name : Type` with an
optional `= Value` default. -/
def parseVariableDefinitionF (rec : ParserPack) (s : LexerState) :
    Except Error (VariableDefinition × LexerState) :=
    let start := Lexer.pos s
    match parseVariable il s with
    | .error e => .error e
    | .ok (v, s1) =>
      match expect .colon s1 with
      | .error e => .error e
      | .ok s2 =>
        match rec.typeReference s2 with
        | .error e => .error e
        | .ok (t, s3) =>
          let (r, s4) := nextIf .equals s3
          let dvRes :
              Except Error (Option Value × LexerState) :=
            match r with
            | some _ =>
              match rec.valueLiteral s4 with
              | .error e => .error e
              | .ok (dv, s5) => .ok (some dv, s5)
            | none => .ok (none, s4)
          match dvRes with
          | .error e => .error e
          | .ok (dv, s6) => .ok (⟨mkLoc il start s6, v, t, dv⟩, s6)

/-- `Parser::parse_selection_set`:
`many(LeftBrace, parse_selection, RightBrace, false)`. -/
def parseSelectionSetF (rec : ParserPack) (s : LexerState) :
    Except Error (SelectionSet × LexerState) :=
    let start := Lexer.pos s
    match many (fun s => rec.selection s) .leftBrace .rightBrace false rec.lvl s with
    | .error e => .error e
    | .ok (sels, s1) => .ok (.mk (mkLoc il start s1) sels, s1)

/-- `Parser::parse_selection`: an ellipsis starts a fragment, anything
else is a field. -/
def parseSelectionF (rec : ParserPack) (s : LexerState) :
    Except Error (Selection × LexerState) :=
    let (b, s1) := check .ellipsis s
    if b then rec.fragment s1
    else
      match rec.field s1 with
      | .error e => .error e
      | .ok (f, s2) => .ok (.field f, s2)

/-- `Parser::parse_field`: optional alias (a name followed by a colon),
name, optional arguments, directives, optional selection set. -/
def parseFieldF (rec : ParserPack) (s : LexerState) :
    Except Error (Field × LexerState) :=
    let start := Lexer.pos s
    match parseName il s with
    | .error e => .error e
    | .ok (name0, s1) =>
      let (r, s2) := nextIf .colon s1
      let aliased :
          Except Error ((Option Name × Name) × LexerState) :=
        match r with
        | some _ =>
          match parseName il s2 with
          | .error e => .error e
          | .ok (name1, s3) => .ok ((some name0, name1), s3)
        | none => .ok ((none, name0), s2)
      match aliased with
      | .error e => .error e
      | .ok ((aliasName, name), s4) =>
        let (bp, s5) := check .leftParen s4
        let argsRes :=
          if bp then rec.arguments s5 else .ok ([], s5)
        match argsRes with
        | .error e => .error e
        | .ok (args, s6) =>
          match rec.directives s6 with
          | .error e => .error e
          | .ok (ds, s7) =>
            let (bb, s8) := check .leftBrace s7
            let ssRes :
                Except Error (Option SelectionSet × LexerState) :=
              if bb then
                match rec.selectionSet s8 with
                | .error e => .error e
                | .ok (ss, s9) => .ok (some ss, s9)
              else .ok (none, s8)
            match ssRes with
            | .error e => .error e
            | .ok (ssOpt, s10) =>
              .ok (.mk (mkLoc il start s10) aliasName name args ds ssOpt, s10)

/-- `Parser::parse_arguments`:
`many(LeftParen, parse_argument, RightParen, false)`. -/
def parseArgumentsF (rec : ParserPack) (s : LexerState) :
    Except Error (List Argument × LexerState) :=
    many (fun s => rec.argument s) .leftParen .rightParen false rec.lvl s

/-- `Parser::parse_argument`: `name : value`. -/
def parseArgumentF (rec : ParserPack) (s : LexerState) :
    Except Error (Argument × LexerState) :=
    let start := Lexer.pos s
    match parseName il s with
    | .error e => .error e
    | .ok (name, s1) =>
      match expect .colon s1 with
      | .error e => .error e
      | .ok s2 =>
        match rec.valueLiteral s2 with
        | .error e => .error e
        | .ok (v, s3) => .ok (⟨mkLoc il start s3, name, v⟩, s3)

/-- `Parser::parse_fragment`: after the ellipsis, a name other than
`on` makes a fragment spread; otherwise an inline fragment with an
optional `on` type condition. -/
def parseFragmentF (rec : ParserPack) (s : LexerState) :
    Except Error (Selection × LexerState) :=
    let start := Lexer.pos s
    match expect .ellipsis s with
    | .error e => .error e
    | .ok s1 =>
      let startAfterEllipsis := Lexer.pos s1
      let (bOn, s2) := checkName "on" s1
      if bOn then rec.fragmentTail start s2
      else
        let (r, s3) := nextIfAnyName s2
        match r with
        | some v =>
          let name : Name := ⟨mkLoc il startAfterEllipsis s3, v⟩
          match rec.directives s3 with
          | .error e => .error e
          | .ok (ds, s4) =>
            .ok (.fragmentSpread ⟨mkLoc il start s4, name, ds⟩, s4)
        | none => rec.fragmentTail start s3

/-- The shared tail of `Parser::parse_fragment` building an inline
fragment: optional `on NamedType`, directives, selection set. -/
def parseFragmentTailF (rec : ParserPack) (start : Position) (s : LexerState) :
    Except Error (Selection × LexerState) :=
    let (bOn, s1) := nextIfName "on" s
    let tcRes :
        Except Error (Option NamedType × LexerState) :=
      if bOn then
        match parseNamedType il s1 with
        | .error e => .error e
        | .ok (nt, s2) => .ok (some nt, s2)
      else .ok (none, s1)
    match tcRes with
    | .error e => .error e
    | .ok (tc, s3) =>
      match rec.directives s3 with
      | .error e => .error e
      | .ok (ds, s4) =>
        match rec.selectionSet s4 with
        | .error e => .error e
        | .ok (ss, s5) =>
          .ok (.inlineFragment ⟨mkLoc il start s5, tc, ds, ss⟩, s5)

/-- `Parser::parse_fragment_definition`:
`fragment FragmentName on NamedType Directives? SelectionSet`. -/
def parseFragmentDefinitionF (rec : ParserPack) (s : LexerState) :
    Except Error (FragmentDefinition × LexerState) :=
    let start := Lexer.pos s
    match expectName "fragment" s with
    | .error e => .error e
    | .ok s1 =>
      match parseFragmentName il s1 with
      | .error e => .error e
      | .ok (name, s2) =>
        match expectName "on" s2 with
        | .error e => .error e
        | .ok s3 =>
          match parseNamedType il s3 with
          | .error e => .error e
          | .ok (tc, s4) =>
            match rec.directives s4 with
            | .error e => .error e
            | .ok (ds, s5) =>
              match rec.selectionSet s5 with
              | .error e => .error e
              | .ok (ss, s6) =>
                .ok (⟨mkLoc il start s6, name, tc, ds, ss⟩, s6)

/-- `Parser::parse_value_literal`: dispatch on the leading token:
list, object, `null`, `true`, `false`, variable, then
int/float/string/enum from the consumed token. -/
def parseValueLiteralF (rec : ParserPack) (s : LexerState) :
    Except Error (Value × LexerState) :=
    let start := Lexer.pos s
    let (b1, s1) := check .leftBracket s
    if b1 then
      match rec.listValue s1 with
      | .error e => .error e
      | .ok (lv, s2) => .ok (.list lv, s2)
    else
      let (b2, s2) := check .leftBrace s1
      if b2 then
        match rec.objectValue s2 with
        | .error e => .error e
        | .ok (ov, s3) => .ok (.object ov, s3)
      else
        let (b3, s3) := checkName "null" s2
        if b3 then
          let (r, s4) := nextTok s3
          let _ := r
          .ok (.null ⟨mkLoc il start s4⟩, s4)
        else
          let (b4, s4) := checkName "true" s3
          if b4 then
            let (r, s5) := nextTok s4
            let _ := r
            .ok (.boolean ⟨mkLoc il start s5, true⟩, s5)
          else
            let (b5, s5) := checkName "false" s4
            if b5 then
              let (r, s6) := nextTok s5
              let _ := r
              .ok (.boolean ⟨mkLoc il start s6, false⟩, s6)
            else
              let (b6, s6) := check .dollar s5
              if b6 then
                match parseVariable il s6 with
                | .error e => .error e
                | .ok (v, s7) => .ok (.var v, s7)
              else
                let (r, s7) := nextTok s6
                match r with
                | some (.ok t) =>
                  match t.kind with
                  | .int v => .ok (.int ⟨mkLoc il start s7, v⟩, s7)
                  | .float lx => .ok (.float ⟨mkLoc il start s7, lx⟩, s7)
                  | .string v => .ok (.string ⟨mkLoc il start s7, v⟩, s7)
                  | .name v => .ok (.enum ⟨mkLoc il start s7, v⟩, s7)
                  | _ => .error (.unexpectedToken t)
                | some (.error e) => .error e
                | none => .error (.unexpectedEnding (Lexer.pos s7))

/-- `Parser::parse_list_value`:
`many(LeftBracket, parse_value_literal, RightBracket, true)`. -/
def parseListValueF (rec : ParserPack) (s : LexerState) :
    Except Error (ListValue × LexerState) :=
    let start := Lexer.pos s
    match many (fun s => rec.valueLiteral s) .leftBracket .rightBracket true rec.lvl s with
    | .error e => .error e
    | .ok (vs, s1) => .ok (.mk (mkLoc il start s1) vs, s1)

/-- `Parser::parse_object_value`:
`many(LeftBrace, parse_object_field, RightBrace, true)`. -/
def parseObjectValueF (rec : ParserPack) (s : LexerState) :
    Except Error (ObjectValue × LexerState) :=
    let start := Lexer.pos s
    match many (fun s => rec.objectField s) .leftBrace .rightBrace true rec.lvl s with
    | .error e => .error e
    | .ok (fs, s1) => .ok (.mk (mkLoc il start s1) fs, s1)

/-- `Parser::parse_object_field`: `name : value`. -/
def parseObjectFieldF (rec : ParserPack) (s : LexerState) :
    Except Error (ObjectField × LexerState) :=
    let start := Lexer.pos s
    match parseName il s with
    | .error e => .error e
    | .ok (name, s1) =>
      match expect .colon s1 with
      | .error e => .error e
      | .ok s2 =>
        match rec.valueLiteral s2 with
        | .error e => .error e
        | .ok (v, s3) => .ok (.mk (mkLoc il start s3) name v, s3)

/-- `Parser::parse_directives`: the `Directive*` loop — zero or more
`@`-led directives, never an error when the next token is not `@`. -/
def parseDirectivesF (rec : ParserPack) (s : LexerState) :
    Except Error (List Directive × LexerState) :=
    let (b, s1) := check .atSign s
    if b then
      match rec.directive s1 with
      | .error e => .error e
      | .ok (d, s2) =>
        match rec.directives s2 with
        | .error e => .error e
        | .ok (ds, s3) => .ok (d :: ds, s3)
    else .ok ([], s1)

/-- `Parser::parse_directive`: `@ Name Arguments?`. -/
def parseDirectiveF (rec : ParserPack) (s : LexerState) :
    Except Error (Directive × LexerState) :=
    let start := Lexer.pos s
    match expect .atSign s with
    | .error e => .error e
    | .ok s1 =>
      match parseName il s1 with
      | .error e => .error e
      | .ok (name, s2) =>
        let (bp, s3) := check .leftParen s2
        let argsRes :=
          if bp then rec.arguments s3 else .ok ([], s3)
        match argsRes with
        | .error e => .error e
        | .ok (args, s4) => .ok (⟨mkLoc il start s4, name, args⟩, s4)

/-- The all-unreachable pack at fuel zero. -/
def basePack : ParserPack where
  lvl := 0
  typeReference := fun _ => .error .unreachable
  documentLoop := fun _ => .error .unreachable
  definition := fun _ => .error .unreachable
  operationDefinition := fun _ => .error .unreachable
  variableDefinitions := fun _ => .error .unreachable
  variableDefinition := fun _ => .error .unreachable
  selectionSet := fun _ => .error .unreachable
  selection := fun _ => .error .unreachable
  field := fun _ => .error .unreachable
  arguments := fun _ => .error .unreachable
  argument := fun _ => .error .unreachable
  fragment := fun _ => .error .unreachable
  fragmentTail := fun _ _ => .error .unreachable
  fragmentDefinition := fun _ => .error .unreachable
  valueLiteral := fun _ => .error .unreachable
  listValue := fun _ => .error .unreachable
  objectValue := fun _ => .error .unreachable
  objectField := fun _ => .error .unreachable
  directives := fun _ => .error .unreachable
  directive := fun _ => .error .unreachable

/-- One step of the parser pack. -/
def parseStep (rec : ParserPack) : ParserPack where
  lvl := rec.lvl + 1
  typeReference := fun s => parseTypeReferenceF il rec s
  documentLoop := fun s => parseDocumentLoopF rec s
  definition := fun s => parseDefinitionF rec s
  operationDefinition := fun s => parseOperationDefinitionF il rec s
  variableDefinitions := fun s => parseVariableDefinitionsF rec s
  variableDefinition := fun s => parseVariableDefinitionF il rec s
  selectionSet := fun s => parseSelectionSetF il rec s
  selection := fun s => parseSelectionF rec s
  field := fun s => parseFieldF il rec s
  arguments := fun s => parseArgumentsF rec s
  argument := fun s => parseArgumentF il rec s
  fragment := fun s => parseFragmentF il rec s
  fragmentTail := fun start s => parseFragmentTailF il rec start s
  fragmentDefinition := fun s => parseFragmentDefinitionF il rec s
  valueLiteral := fun s => parseValueLiteralF il rec s
  listValue := fun s => parseListValueF il rec s
  objectValue := fun s => parseObjectValueF il rec s
  objectField := fun s => parseObjectFieldF il rec s
  directives := fun s => parseDirectivesF rec s
  directive := fun s => parseDirectiveF il rec s

/-- The parser pack at a given fuel. -/
def parsePack (fuel : Nat) : ParserPack :=
  Nat.rec basePack (fun _ ih => parseStep il ih) fuel

/-- The fuelled `parseTypeReference`: the pack projection at the given fuel. -/
def parseTypeReference (fuel : Nat) : LexerState → Except Error (Typ × LexerState) :=
  (parsePack il fuel).typeReference

/-- The fuelled `parseDocumentLoop`: the pack projection at the given fuel. -/
def parseDocumentLoop (fuel : Nat) : LexerState → Except Error (List Definition × LexerState) :=
  (parsePack il fuel).documentLoop

/-- The fuelled `parseDefinition`: the pack projection at the given fuel. -/
def parseDefinition (fuel : Nat) : LexerState → Except Error (Definition × LexerState) :=
  (parsePack il fuel).definition

/-- The fuelled `parseOperationDefinition`: the pack projection at the given fuel. -/
def parseOperationDefinition (fuel : Nat) : LexerState → Except Error (OperationDefinition × LexerState) :=
  (parsePack il fuel).operationDefinition

/-- The fuelled `parseVariableDefinitions`: the pack projection at the given fuel. -/
def parseVariableDefinitions (fuel : Nat) : LexerState → Except Error (List VariableDefinition × LexerState) :=
  (parsePack il fuel).variableDefinitions

/-- The fuelled `parseVariableDefinition`: the pack projection at the given fuel. -/
def parseVariableDefinition (fuel : Nat) : LexerState → Except Error (VariableDefinition × LexerState) :=
  (parsePack il fuel).variableDefinition

/-- The fuelled `parseSelectionSet`: the pack projection at the given fuel. -/
def parseSelectionSet (fuel : Nat) : LexerState → Except Error (SelectionSet × LexerState) :=
  (parsePack il fuel).selectionSet

/-- The fuelled `parseSelection`: the pack projection at the given fuel. -/
def parseSelection (fuel : Nat) : LexerState → Except Error (Selection × LexerState) :=
  (parsePack il fuel).selection

/-- The fuelled `parseField`: the pack projection at the given fuel. -/
def parseField (fuel : Nat) : LexerState → Except Error (Field × LexerState) :=
  (parsePack il fuel).field

/-- The fuelled `parseArguments`: the pack projection at the given fuel. -/
def parseArguments (fuel : Nat) : LexerState → Except Error (List Argument × LexerState) :=
  (parsePack il fuel).arguments

/-- The fuelled `parseArgument`: the pack projection at the given fuel. -/
def parseArgument (fuel : Nat) : LexerState → Except Error (Argument × LexerState) :=
  (parsePack il fuel).argument

/-- The fuelled `parseFragment`: the pack projection at the given fuel. -/
def parseFragment (fuel : Nat) : LexerState → Except Error (Selection × LexerState) :=
  (parsePack il fuel).fragment

/-- The fuelled `parseFragmentTail`: the pack projection at the given fuel. -/
def parseFragmentTail (fuel : Nat) : Position → LexerState → Except Error (Selection × LexerState) :=
  (parsePack il fuel).fragmentTail

/-- The fuelled `parseFragmentDefinition`: the pack projection at the given fuel. -/
def parseFragmentDefinition (fuel : Nat) : LexerState → Except Error (FragmentDefinition × LexerState) :=
  (parsePack il fuel).fragmentDefinition

/-- The fuelled `parseValueLiteral`: the pack projection at the given fuel. -/
def parseValueLiteral (fuel : Nat) : LexerState → Except Error (Value × LexerState) :=
  (parsePack il fuel).valueLiteral

/-- The fuelled `parseListValue`: the pack projection at the given fuel. -/
def parseListValue (fuel : Nat) : LexerState → Except Error (ListValue × LexerState) :=
  (parsePack il fuel).listValue

/-- The fuelled `parseObjectValue`: the pack projection at the given fuel. -/
def parseObjectValue (fuel : Nat) : LexerState → Except Error (ObjectValue × LexerState) :=
  (parsePack il fuel).objectValue

/-- The fuelled `parseObjectField`: the pack projection at the given fuel. -/
def parseObjectField (fuel : Nat) : LexerState → Except Error (ObjectField × LexerState) :=
  (parsePack il fuel).objectField

/-- The fuelled `parseDirectives`: the pack projection at the given fuel. -/
def parseDirectives (fuel : Nat) : LexerState → Except Error (List Directive × LexerState) :=
  (parsePack il fuel).directives

/-- The fuelled `parseDirective`: the pack projection at the given fuel. -/
def parseDirective (fuel : Nat) : LexerState → Except Error (Directive × LexerState) :=
  (parsePack il fuel).directive

/-- `Parser::parse_document`: one or more definitions; zero definitions
is an unexpected-ending error at the current position. -/
def parseDocument (fuel : Nat) (s : LexerState) :
    Except Error (Document × LexerState) :=
  let start := Lexer.pos s
  match parseDocumentLoop il fuel s with
  | .error e => .error e
  | .ok (defs, s1) =>
    if defs.length < 1 then .error (.unexpectedEnding (Lexer.pos s1))
    else .ok (⟨mkLoc il start s1, defs⟩, s1)

end ParserFns

/-- The fuel supplied by the entry points. -/
def fuelFor (cs : List Char) : Nat := 16 * cs.length + 64

/-- The entry point `parse`: parses characters into a document with
locations included. -/
def parse (cs : List Char) : Except Error Document :=
  (parseDocument true (fuelFor cs) (mkLexer cs)).map Prod.fst

/-- The entry point `parse_without_location`: identical except that no
node carries a location. -/
def parseWithoutLocation (cs : List Char) : Except Error Document :=
  (parseDocument false (fuelFor cs) (mkLexer cs)).map Prod.fst

/-!
The printer of `graphql_language/src/printer.rs`.  The Rust `Printer`
appends to a string buffer and tracks `indentation_level` (with
`indentation_size` fixed at 2 by the constructor); here every
`print_x` method becomes a pure function returning the characters it
appends, with the indentation level passed explicitly where the method
can reach a selection set.  `indent`/`deindent` become `lvl + 2` at
the one place they are called, and `line()` is a newline followed by
`indentation_level` spaces, exactly as in the source. -/

/-- `Printer::line`: a newline plus the current indentation. -/
def lineAt (lvl : Nat) : List Char :=
  '\n' :: List.replicate lvl ' '

/-- The tail of `Printer::many`: the remaining items, each preceded by
the separator. -/
def printManyTail (pf : α → List Char) (sep : List Char) : List α → List Char
  | [] => []
  | x :: xs => sep ++ pf x ++ printManyTail pf sep xs

/-- `Printer::many`: the items printed with the separator between
consecutive items. -/
def printMany (pf : α → List Char) (sep : List Char) : List α → List Char
  | [] => []
  | x :: xs => pf x ++ printManyTail pf sep xs

/-- `Printer::print_name`. -/
def printName (n : Name) : List Char := n.value.data

/-- `Printer::print_variable`: `$` followed by the name. -/
def printVariable (v : Variable) : List Char := '$' :: printName v.name

/-- One character of `Printer::print_string_value`: exactly `"`,
`\` and the newline are escaped; everything else passes through. -/
def escapeStringChar (c : Char) : List Char :=
  if c = '"' then ['\\', '"']
  else if c = '\\' then ['\\', '\\']
  else if c = '\n' then ['\\', 'n']
  else [c]

/-- The escaped body of a printed string value. -/
def escapeChars : List Char → List Char
  | [] => []
  | c :: cs => escapeStringChar c ++ escapeChars cs

/-- `Printer::print_string_value`: a quoted, minimally escaped string. -/
def printStringValue (sv : StringValue) : List Char :=
  '"' :: escapeChars sv.value.data ++ ['"']

/-- The character of a decimal digit. -/
def digitChar (d : Nat) : Char := Char.ofNat (48 + d)

/-- The decimal digits of a natural number (the fuel argument makes
the division recursion structural; callers pass `n + 1`, always
enough). -/
def natToDigits : Nat → Nat → List Char
  | 0, _ => []
  | fuel + 1, n =>
    if n < 10 then [digitChar n]
    else natToDigits fuel (n / 10) ++ [digitChar (n % 10)]

/-- The decimal rendering of an integer, modelling Rust's
`i32::to_string`. -/
def intToChars (i : Int) : List Char :=
  if i < 0 then '-' :: natToDigits (i.natAbs + 1) i.natAbs
  else natToDigits (i.natAbs + 1) i.natAbs

/-- `Printer::print_boolean_value`. -/
def printBooleanValue (bv : BooleanValue) : List Char :=
  if bv.value then "true".data else "false".data

mutual

/-- `Printer::print_value_literal`.  The float arm models
`f32::to_string` as the preserved lexeme (no claim interprets it). -/
def printValueLiteral : Value → List Char
  | .var node => printVariable node
  | .int node => intToChars node.value
  | .float node => node.value.data
  | .string node => printStringValue node
  | .boolean node => printBooleanValue node
  | .null _ => "null".data
  | .enum node => node.value.data
  | .list node => printListValue node
  | .object node => printObjectValue node

/-- `Printer::print_list_value`: `[` items `]` joined by `", "`. -/
def printListValue : ListValue → List Char
  | .mk _ values => '[' :: printValuesJoin values ++ [']']

/-- The `", "`-joined list items of a list value. -/
def printValuesJoin : List Value → List Char
  | [] => []
  | v :: vs => printValueLiteral v ++ printValuesTail vs

/-- The remaining `", "`-preceded items of a list value. -/
def printValuesTail : List Value → List Char
  | [] => []
  | v :: vs => ',' :: ' ' :: printValueLiteral v ++ printValuesTail vs

/-- `Printer::print_object_value`: `{` fields `}` joined by `", "`. -/
def printObjectValue : ObjectValue → List Char
  | .mk _ fields => '{' :: printObjectFieldsJoin fields ++ ['}']

/-- The `", "`-joined fields of an object value. -/
def printObjectFieldsJoin : List ObjectField → List Char
  | [] => []
  | f :: fs => printObjectField f ++ printObjectFieldsTail fs

/-- The remaining `", "`-preceded fields of an object value. -/
def printObjectFieldsTail : List ObjectField → List Char
  | [] => []
  | f :: fs => ',' :: ' ' :: printObjectField f ++ printObjectFieldsTail fs

/-- `Printer::print_object_field`: `name: value`. -/
def printObjectField : ObjectField → List Char
  | .mk _ name value => printName name ++ ':' :: ' ' :: printValueLiteral value

end

/-- `Printer::print_argument`: `name: value`. -/
def printArgument (a : Argument) : List Char :=
  printName a.name ++ ':' :: ' ' :: printValueLiteral a.value

/-- `Printer::print_directive`: `@name` plus parenthesised arguments
only when there are any. -/
def printDirective (d : Directive) : List Char :=
  '@' :: printName d.name ++
    (if d.arguments.isEmpty then []
     else '(' :: printMany printArgument (',' :: [' ']) d.arguments ++ [')'])

/-- `Printer::print_named_type`. -/
def printNamedType (nt : NamedType) : List Char := printName nt.name

mutual

/-- `Printer::print_type_reference`. -/
def printTypeReference : Typ → List Char
  | .named node => printNamedType node
  | .list node => printListType node
  | .nonNull node => printNonNullType node

/-- `Printer::print_list_type`: `[` inner `]`. -/
def printListType : ListType → List Char
  | .mk _ typ => '[' :: printTypeReference typ ++ [']']

/-- `Printer::print_non_null_type`: the nullable inner type followed
by `!`. -/
def printNonNullType : NonNullType → List Char
  | .mk _ (.named node) => printNamedType node ++ ['!']
  | .mk _ (.list node) => printListType node ++ ['!']

end

/-- `Printer::print_variable_definition`: `$name: Type` plus
`" = default"` when a default value is present. -/
def printVariableDefinition (vd : VariableDefinition) : List Char :=
  printVariable vd.var ++ ':' :: ' ' :: printTypeReference vd.typ ++
    (match vd.default_value with
     | some dv => ' ' :: '=' :: ' ' :: printValueLiteral dv
     | none => [])

/-- `Printer::print_operation_type` (the `subscriptions` feature is
disabled). -/
def printOperationType : OperationType → List Char
  | .query => "query".data
  | .mutation => "mutation".data

/-- `Printer::print_fragment_spread`: `...name` plus space-joined
directives only when there are any. -/
def printFragmentSpread (fs : FragmentSpread) : List Char :=
  '.' :: '.' :: '.' :: printName fs.name ++
    (if fs.directives.isEmpty then []
     else ' ' :: printMany printDirective [' '] fs.directives)

mutual

/-- `Printer::print_selection_set`: always multiline — `{`, each
selection on its own indented line, then the closing brace on a fresh
line at the outer level. -/
def printSelectionSet : SelectionSet → Nat → List Char
  | .mk _ selections, lvl =>
    '{' :: printSelectionLines selections (lvl + 2) ++ lineAt lvl ++ ['}']

/-- The `line(); print_selection()` loop of
`Printer::print_selection_set`. -/
def printSelectionLines : List Selection → Nat → List Char
  | [], _ => []
  | s :: ss, lvl => lineAt lvl ++ printSelection s lvl ++ printSelectionLines ss lvl

/-- `Printer::print_selection`. -/
def printSelection : Selection → Nat → List Char
  | .field node, lvl => printField node lvl
  | .fragmentSpread node, _ => printFragmentSpread node
  | .inlineFragment node, lvl => printInlineFragment node lvl

/-- `Printer::print_field`: optional `alias: `, name, parenthesised
arguments when non-empty, space-joined directives when non-empty,
optional selection set. -/
def printField : Field → Nat → List Char
  | .mk _ aliasName name arguments directives selection_set, lvl =>
    (match aliasName with
     | some a => printName a ++ [':', ' ']
     | none => []) ++
    printName name ++
    (if arguments.isEmpty then []
     else '(' :: printMany printArgument (',' :: [' ']) arguments ++ [')']) ++
    (if directives.isEmpty then []
     else ' ' :: printMany printDirective [' '] directives) ++
    (match selection_set with
     | some ss => ' ' :: printSelectionSet ss lvl
     | none => [])

/-- `Printer::print_inline_fragment`: `...`, optional ` on Type`,
optional directives, a space and the selection set. -/
def printInlineFragment : InlineFragment → Nat → List Char
  | .mk _ type_condition directives selection_set, lvl =>
    '.' :: '.' :: '.' ::
    (match type_condition with
     | some tc => ' ' :: 'o' :: 'n' :: ' ' :: printNamedType tc
     | none => []) ++
    (if directives.isEmpty then []
     else ' ' :: printMany printDirective [' '] directives) ++
    ' ' :: printSelectionSet selection_set lvl

end

/-- `Printer::print_fragment_definition`: `fragment name on Type`,
optional directives, a space and the selection set. -/
def printFragmentDefinition (fd : FragmentDefinition) (lvl : Nat) : List Char :=
  "fragment ".data ++ printName fd.name ++ ' ' :: 'o' :: 'n' :: ' ' ::
    printNamedType fd.type_condition ++
    (if fd.directives.isEmpty then []
     else ' ' :: printMany printDirective [' '] fd.directives) ++
    ' ' :: printSelectionSet fd.selection_set lvl

/-- `Printer::print_operation_definition`: an anonymous query with no
variable definitions and no directives prints as its bare selection
set (the shorthand form); otherwise the operation keyword, optional
name, optional parenthesised variable definitions, directives, and the
selection set, with the exact spacing of the source. -/
def printOperationDefinition (od : OperationDefinition) (lvl : Nat) : List Char :=
  if od.operation = .query && od.name.isNone &&
     od.variable_definitions.isEmpty && od.directives.isEmpty then
    printSelectionSet od.selection_set lvl
  else
    printOperationType od.operation ++ [' '] ++
    (match od.name with
     | some n =>
       printName n ++ (if od.variable_definitions.isEmpty then [' '] else [])
     | none => []) ++
    (if od.variable_definitions.isEmpty then []
     else '(' :: printMany printVariableDefinition (',' :: [' ']) od.variable_definitions
          ++ [')', ' ']) ++
    printMany printDirective [' '] od.directives ++
    (if od.directives.isEmpty then [] else [' ']) ++
    printSelectionSet od.selection_set lvl

/-- `Printer::print_definition`. -/
def printDefinition : Definition → List Char
  | .operation node => printOperationDefinition node 0
  | .fragment node => printFragmentDefinition node 0

/-- `Printer::print_document`: definitions joined by a blank line,
with a final newline. -/
def printDocument (doc : Document) : List Char :=
  printMany printDefinition ['\n', '\n'] doc.definitions ++ ['\n']

/-- The entry point `print`: the canonical text of a document. -/
def print (doc : Document) : List Char :=
  printDocument doc

/-!
Location erasure: the structural part of an AST, with every `loc`
field replaced by `none`.  Two documents are "structurally equal" ("equal
after erasing every loc field") exactly when their erasures are equal.
-/

/-- Erases the location of a name. -/
def eraseName (n : Name) : Name := ⟨none, n.value⟩

/-- Erases the location of a variable. -/
def eraseVariable (v : Variable) : Variable := ⟨none, eraseName v.name⟩

mutual

/-- Erases every location inside a value. -/
def eraseValue : Value → Value
  | .var node => .var (eraseVariable node)
  | .int node => .int ⟨none, node.value⟩
  | .float node => .float ⟨none, node.value⟩
  | .string node => .string ⟨none, node.value⟩
  | .boolean node => .boolean ⟨none, node.value⟩
  | .null _ => .null ⟨none⟩
  | .enum node => .enum ⟨none, node.value⟩
  | .list node => .list (eraseListValue node)
  | .object node => .object (eraseObjectValue node)

/-- Erases every location inside a list value. -/
def eraseListValue : ListValue → ListValue
  | .mk _ values => .mk none (eraseValues values)

/-- Erases every location inside the items of a list value. -/
def eraseValues : List Value → List Value
  | [] => []
  | v :: vs => eraseValue v :: eraseValues vs

/-- Erases every location inside an object value. -/
def eraseObjectValue : ObjectValue → ObjectValue
  | .mk _ fields => .mk none (eraseObjectFields fields)

/-- Erases every location inside the fields of an object value. -/
def eraseObjectFields : List ObjectField → List ObjectField
  | [] => []
  | f :: fs => eraseObjectField f :: eraseObjectFields fs

/-- Erases every location inside an object field. -/
def eraseObjectField : ObjectField → ObjectField
  | .mk _ name value => .mk none (eraseName name) (eraseValue value)

end

/-- Erases every location inside an argument. -/
def eraseArgument (a : Argument) : Argument :=
  ⟨none, eraseName a.name, eraseValue a.value⟩

/-- Erases every location inside a directive. -/
def eraseDirective (d : Directive) : Directive :=
  ⟨none, eraseName d.name, d.arguments.map eraseArgument⟩

/-- Erases the locations of a named type. -/
def eraseNamedType (nt : NamedType) : NamedType :=
  ⟨none, eraseName nt.name⟩

mutual

/-- Erases every location inside a type reference. -/
def eraseTyp : Typ → Typ
  | .named node => .named (eraseNamedType node)
  | .list node => .list (eraseListType node)
  | .nonNull node => .nonNull (eraseNonNullType node)

/-- Erases every location inside a nullable type. -/
def eraseNullableType : NullableType → NullableType
  | .named node => .named (eraseNamedType node)
  | .list node => .list (eraseListType node)

/-- Erases every location inside a list type. -/
def eraseListType : ListType → ListType
  | .mk _ typ => .mk none (eraseTyp typ)

/-- Erases every location inside a non-null type. -/
def eraseNonNullType : NonNullType → NonNullType
  | .mk _ typ => .mk none (eraseNullableType typ)

end

/-- Erases every location inside a variable definition. -/
def eraseVariableDefinition (vd : VariableDefinition) : VariableDefinition :=
  ⟨none, eraseVariable vd.var, eraseTyp vd.typ, vd.default_value.map eraseValue⟩

/-- Erases every location inside a fragment spread. -/
def eraseFragmentSpread (fs : FragmentSpread) : FragmentSpread :=
  ⟨none, eraseName fs.name, fs.directives.map eraseDirective⟩

mutual

/-- Erases every location inside a selection set. -/
def eraseSelectionSet : SelectionSet → SelectionSet
  | .mk _ selections => .mk none (eraseSelections selections)

/-- Erases every location inside a list of selections. -/
def eraseSelections : List Selection → List Selection
  | [] => []
  | s :: ss => eraseSelection s :: eraseSelections ss

/-- Erases every location inside a selection. -/
def eraseSelection : Selection → Selection
  | .field node => .field (eraseField node)
  | .fragmentSpread node => .fragmentSpread (eraseFragmentSpread node)
  | .inlineFragment node => .inlineFragment (eraseInlineFragment node)

/-- Erases every location inside a field. -/
def eraseField : Field → Field
  | .mk _ aliasName name arguments directives selection_set =>
    .mk none (aliasName.map eraseName) (eraseName name)
      (arguments.map eraseArgument) (directives.map eraseDirective)
      (match selection_set with
       | some ss => some (eraseSelectionSet ss)
       | none => none)

/-- Erases every location inside an inline fragment. -/
def eraseInlineFragment : InlineFragment → InlineFragment
  | .mk _ type_condition directives selection_set =>
    .mk none (type_condition.map eraseNamedType)
      (directives.map eraseDirective) (eraseSelectionSet selection_set)

end

/-- Erases every location inside a fragment definition. -/
def eraseFragmentDefinition (fd : FragmentDefinition) : FragmentDefinition :=
  ⟨none, eraseName fd.name, eraseNamedType fd.type_condition,
    fd.directives.map eraseDirective, eraseSelectionSet fd.selection_set⟩

/-- Erases every location inside an operation definition. -/
def eraseOperationDefinition (od : OperationDefinition) : OperationDefinition :=
  ⟨none, od.operation, od.name.map eraseName,
    od.variable_definitions.map eraseVariableDefinition,
    od.directives.map eraseDirective, eraseSelectionSet od.selection_set⟩

/-- Erases every location inside a definition. -/
def eraseDefinition : Definition → Definition
  | .operation node => .operation (eraseOperationDefinition node)
  | .fragment node => .fragment (eraseFragmentDefinition node)

/-- Erases every location inside a document.  Two documents are
structurally equal exactly when their erasures are equal. -/
def eraseDocument (doc : Document) : Document :=
  ⟨none, doc.definitions.map eraseDefinition⟩

/-!
Predicates on ASTs.

`locOk* f` holds when every `loc` field in the tree satisfies `f`;
with `Option.isSome` it says every node carries a location, with
`Option.isNone` that none does.

`tame*` holds when the tree contains no float value and every string
value consists of newline-or-printable characters (at or above space,
0x20); these are the value-level conditions the printer's minimal
string escaping and numeric reprinting need, and the parser does not
guarantee them (string escapes such as `\b` produce control
characters).

`wf*` holds for the structural invariants that the parser does
guarantee on every tree it produces: every name matches the `Name`
token grammar, enum values are not `null`/`true`/`false`, selection
sets and documents are non-empty, fragment spread names are not `on`,
and fragment definition names are not `ok` (the name the source's
`parse_fragment_name` actually rejects).
-/

/-- Whether a string is a valid `Name` lexeme: `[_A-Za-z][_0-9A-Za-z]*`. -/
def isValidName (s : String) : Bool :=
  match s.data with
  | [] => false
  | c :: cs => isNameStart c && cs.all isNameChar

/-- All characters a printed string value may contain so that the
printed text re-lexes: newline (which the printer escapes) or anything
at or above space. -/
def tameChar (c : Char) : Bool :=
  c = '\n' || decide (32 ≤ c.toNat)

section LocOk

variable (f : Option Location → Bool)

/-- Every location of a name satisfies `f`. -/
def locOkName (n : Name) : Bool := f n.loc

/-- Every location of a variable satisfies `f`. -/
def locOkVariable (v : Variable) : Bool := f v.loc && locOkName f v.name

mutual

/-- Every location inside a value satisfies `f`. -/
def locOkValue : Value → Bool
  | .var node => locOkVariable f node
  | .int node => f node.loc
  | .float node => f node.loc
  | .string node => f node.loc
  | .boolean node => f node.loc
  | .null node => f node.loc
  | .enum node => f node.loc
  | .list (.mk l values) => f l && locOkValues values
  | .object (.mk l fields) => f l && locOkObjectFields fields

/-- Every location inside a list of values satisfies `f`. -/
def locOkValues : List Value → Bool
  | [] => true
  | v :: vs => locOkValue v && locOkValues vs

/-- Every location inside a list of object fields satisfies `f`. -/
def locOkObjectFields : List ObjectField → Bool
  | [] => true
  | .mk l name value :: fs =>
    f l && locOkName f name && locOkValue value && locOkObjectFields fs

end

/-- Every location inside an argument satisfies `f`. -/
def locOkArgument (a : Argument) : Bool :=
  f a.loc && locOkName f a.name && locOkValue f a.value

/-- Every location inside a directive satisfies `f`. -/
def locOkDirective (d : Directive) : Bool :=
  f d.loc && locOkName f d.name && d.arguments.all (locOkArgument f)

/-- Every location inside a named type satisfies `f`. -/
def locOkNamedType (nt : NamedType) : Bool :=
  f nt.loc && locOkName f nt.name

mutual

/-- Every location inside a type reference satisfies `f`. -/
def locOkTyp : Typ → Bool
  | .named node => locOkNamedType f node
  | .list (.mk l typ) => f l && locOkTyp typ
  | .nonNull (.mk l typ) => f l && locOkNullableType typ

/-- Every location inside a nullable type satisfies `f`. -/
def locOkNullableType : NullableType → Bool
  | .named node => locOkNamedType f node
  | .list (.mk l typ) => f l && locOkTyp typ

end

/-- Every location inside a variable definition satisfies `f`. -/
def locOkVariableDefinition (vd : VariableDefinition) : Bool :=
  f vd.loc && locOkVariable f vd.var && locOkTyp f vd.typ &&
    (match vd.default_value with
     | some dv => locOkValue f dv
     | none => true)

/-- Every location inside a fragment spread satisfies `f`. -/
def locOkFragmentSpread (fs : FragmentSpread) : Bool :=
  f fs.loc && locOkName f fs.name && fs.directives.all (locOkDirective f)

mutual

/-- Every location inside a selection set satisfies `f`. -/
def locOkSelectionSet : SelectionSet → Bool
  | .mk l selections => f l && locOkSelections selections

/-- Every location inside a list of selections satisfies `f`. -/
def locOkSelections : List Selection → Bool
  | [] => true
  | s :: ss => locOkSelection s && locOkSelections ss

/-- Every location inside a selection satisfies `f`. -/
def locOkSelection : Selection → Bool
  | .field node => locOkField node
  | .fragmentSpread node => locOkFragmentSpread f node
  | .inlineFragment (.mk l tc ds ss) =>
    f l &&
    (match tc with
     | some nt => locOkNamedType f nt
     | none => true) &&
    ds.all (locOkDirective f) && locOkSelectionSet ss

/-- Every location inside a field satisfies `f`. -/
def locOkField : Field → Bool
  | .mk l aliasName name arguments directives selection_set =>
    f l &&
    (match aliasName with
     | some a => locOkName f a
     | none => true) &&
    locOkName f name && arguments.all (locOkArgument f) &&
    directives.all (locOkDirective f) &&
    (match selection_set with
     | some ss => locOkSelectionSet ss
     | none => true)

end

/-- Every location inside a fragment definition satisfies `f`. -/
def locOkFragmentDefinition (fd : FragmentDefinition) : Bool :=
  f fd.loc && locOkName f fd.name && locOkNamedType f fd.type_condition &&
    fd.directives.all (locOkDirective f) && locOkSelectionSet f fd.selection_set

/-- Every location inside an operation definition satisfies `f`. -/
def locOkOperationDefinition (od : OperationDefinition) : Bool :=
  f od.loc &&
    (match od.name with
     | some n => locOkName f n
     | none => true) &&
    od.variable_definitions.all (locOkVariableDefinition f) &&
    od.directives.all (locOkDirective f) && locOkSelectionSet f od.selection_set

/-- Every location inside a definition satisfies `f`. -/
def locOkDefinition : Definition → Bool
  | .operation node => locOkOperationDefinition f node
  | .fragment node => locOkFragmentDefinition f node

/-- Every location inside a document satisfies `f`. -/
def locOkDocument (doc : Document) : Bool :=
  f doc.loc && doc.definitions.all (locOkDefinition f)

end LocOk

mutual

/-- No float values, and only tame characters in string values. -/
def tameValue : Value → Bool
  | .var _ => true
  | .int _ => true
  | .float _ => false
  | .string node => node.value.data.all tameChar
  | .boolean _ => true
  | .null _ => true
  | .enum _ => true
  | .list (.mk _ values) => tameValues values
  | .object (.mk _ fields) => tameObjectFields fields

/-- `tameValue` over the items of a list value. -/
def tameValues : List Value → Bool
  | [] => true
  | v :: vs => tameValue v && tameValues vs

/-- `tameValue` over the fields of an object value. -/
def tameObjectFields : List ObjectField → Bool
  | [] => true
  | .mk _ _ value :: fs => tameValue value && tameObjectFields fs

end

/-- `tameValue` over an argument. -/
def tameArgument (a : Argument) : Bool := tameValue a.value

/-- `tameValue` over a directive's arguments. -/
def tameDirective (d : Directive) : Bool := d.arguments.all tameArgument

/-- `tameValue` over a variable definition's default value. -/
def tameVariableDefinition (vd : VariableDefinition) : Bool :=
  match vd.default_value with
  | some dv => tameValue dv
  | none => true

mutual

/-- Every value inside a selection set is tame. -/
def tameSelectionSet : SelectionSet → Bool
  | .mk _ selections => tameSelections selections

/-- Every value inside a list of selections is tame. -/
def tameSelections : List Selection → Bool
  | [] => true
  | s :: ss => tameSelection s && tameSelections ss

/-- Every value inside a selection is tame. -/
def tameSelection : Selection → Bool
  | .field node => tameField node
  | .fragmentSpread node => node.directives.all tameDirective
  | .inlineFragment (.mk _ _ ds ss) =>
    ds.all tameDirective && tameSelectionSet ss

/-- Every value inside a field is tame. -/
def tameField : Field → Bool
  | .mk _ _ _ arguments directives selection_set =>
    arguments.all tameArgument && directives.all tameDirective &&
    (match selection_set with
     | some ss => tameSelectionSet ss
     | none => true)

end

/-- Every value inside a fragment definition is tame. -/
def tameFragmentDefinition (fd : FragmentDefinition) : Bool :=
  fd.directives.all tameDirective && tameSelectionSet fd.selection_set

/-- Every value inside an operation definition is tame. -/
def tameOperationDefinition (od : OperationDefinition) : Bool :=
  od.variable_definitions.all tameVariableDefinition &&
    od.directives.all tameDirective && tameSelectionSet od.selection_set

/-- Every value inside a definition is tame. -/
def tameDefinition : Definition → Bool
  | .operation node => tameOperationDefinition node
  | .fragment node => tameFragmentDefinition node

/-- Every value inside a document is tame: no float values, and no
untame characters inside string values. -/
def tameDocument (doc : Document) : Bool :=
  doc.definitions.all tameDefinition

/-- The structural invariant the parser guarantees on a name. -/
def wfName (n : Name) : Bool := isValidName n.value

/-- The structural invariant on a variable. -/
def wfVariable (v : Variable) : Bool := wfName v.name

mutual

/-- The structural invariants the parser guarantees inside a value. -/
def wfValue : Value → Bool
  | .var node => wfVariable node
  | .int _ => true
  | .float _ => true
  | .string _ => true
  | .boolean _ => true
  | .null _ => true
  | .enum node =>
    isValidName node.value &&
    decide (node.value ≠ "null") && decide (node.value ≠ "true") &&
    decide (node.value ≠ "false")
  | .list (.mk _ values) => wfValues values
  | .object (.mk _ fields) => wfObjectFields fields

/-- `wfValue` over the items of a list value. -/
def wfValues : List Value → Bool
  | [] => true
  | v :: vs => wfValue v && wfValues vs

/-- `wfValue` over the fields of an object value. -/
def wfObjectFields : List ObjectField → Bool
  | [] => true
  | .mk _ name value :: fs => wfName name && wfValue value && wfObjectFields fs

end

/-- The structural invariants on an argument. -/
def wfArgument (a : Argument) : Bool := wfName a.name && wfValue a.value

/-- The structural invariants on a directive. -/
def wfDirective (d : Directive) : Bool :=
  wfName d.name && d.arguments.all wfArgument

/-- The structural invariants on a named type. -/
def wfNamedType (nt : NamedType) : Bool := wfName nt.name

mutual

/-- The structural invariants on a type reference. -/
def wfTyp : Typ → Bool
  | .named node => wfNamedType node
  | .list (.mk _ typ) => wfTyp typ
  | .nonNull (.mk _ typ) => wfNullableType typ

/-- The structural invariants on a nullable type. -/
def wfNullableType : NullableType → Bool
  | .named node => wfNamedType node
  | .list (.mk _ typ) => wfTyp typ

end

/-- The structural invariants on a variable definition. -/
def wfVariableDefinition (vd : VariableDefinition) : Bool :=
  wfVariable vd.var && wfTyp vd.typ &&
    (match vd.default_value with
     | some dv => wfValue dv
     | none => true)

/-- The structural invariants on a fragment spread: the parser only
builds one when the name after the ellipsis is not `on`. -/
def wfFragmentSpread (fs : FragmentSpread) : Bool :=
  wfName fs.name && decide (fs.name.value ≠ "on") &&
    fs.directives.all wfDirective

mutual

/-- The structural invariants on a selection set: built by
`many(.., false)`, so never empty. -/
def wfSelectionSet : SelectionSet → Bool
  | .mk _ selections => !selections.isEmpty && wfSelections selections

/-- `wfSelection` over a list of selections. -/
def wfSelections : List Selection → Bool
  | [] => true
  | s :: ss => wfSelection s && wfSelections ss

/-- The structural invariants on a selection. -/
def wfSelection : Selection → Bool
  | .field node => wfField node
  | .fragmentSpread node => wfFragmentSpread node
  | .inlineFragment (.mk _ tc ds ss) =>
    (match tc with
     | some nt => wfNamedType nt
     | none => true) &&
    ds.all wfDirective && wfSelectionSet ss

/-- The structural invariants on a field. -/
def wfField : Field → Bool
  | .mk _ aliasName name arguments directives selection_set =>
    (match aliasName with
     | some a => wfName a
     | none => true) &&
    wfName name && arguments.all wfArgument && directives.all wfDirective &&
    (match selection_set with
     | some ss => wfSelectionSet ss
     | none => true)

end

/-- The structural invariants on a fragment definition: the parser's
`parse_fragment_name` rejects exactly the name `ok`. -/
def wfFragmentDefinition (fd : FragmentDefinition) : Bool :=
  wfName fd.name && decide (fd.name.value ≠ "ok") &&
    wfNamedType fd.type_condition && fd.directives.all wfDirective &&
    wfSelectionSet fd.selection_set

/-- The structural invariants on an operation definition. -/
def wfOperationDefinition (od : OperationDefinition) : Bool :=
  (match od.name with
   | some n => wfName n
   | none => true) &&
  od.variable_definitions.all wfVariableDefinition &&
  od.directives.all wfDirective && wfSelectionSet od.selection_set

/-- The structural invariants on a definition. -/
def wfDefinition : Definition → Bool
  | .operation node => wfOperationDefinition node
  | .fragment node => wfFragmentDefinition node

/-- The structural invariants the parser guarantees on every document
it produces; `Document : Definition+` makes the definition list
non-empty. -/
def wfDocument (doc : Document) : Bool :=
  !doc.definitions.isEmpty && doc.definitions.all wfDefinition

/-!
The visitor of `crates/graphql/src/language/visitor.rs`.  Its AST
(`crates/graphql/src/language/ast.rs`) is not part of the source
snapshot; per the specification the three parser/AST generations in
the repository are near-identical, so the visitor is embedded over the
AST above.  The `Visitor` trait becomes a structure of hook functions,
one enter/leave pair per node type, each a no-op (`id`) by default;
`ParallelVisitor` wraps an ordered list of visitors and, exactly as
the `fn_visits_parallel!` macro, runs enter hooks left-to-right over
`visitors.iter_mut()` and leave hooks right-to-left over
`visitors.iter_mut().rev()`, threading the node through every call.
-/

/-- The `Visitor` trait: one enter/leave pair of node-rewriting hooks
per AST node type, each defaulting to a no-op. -/
structure Visitor where
  enter_name : Name → Name := id
  leave_name : Name → Name := id
  enter_document : Document → Document := id
  leave_document : Document → Document := id
  enter_definition : Definition → Definition := id
  leave_definition : Definition → Definition := id
  enter_operation_definition : OperationDefinition → OperationDefinition := id
  leave_operation_definition : OperationDefinition → OperationDefinition := id
  enter_variable_definition : VariableDefinition → VariableDefinition := id
  leave_variable_definition : VariableDefinition → VariableDefinition := id
  enter_variable : Variable → Variable := id
  leave_variable : Variable → Variable := id
  enter_selection_set : SelectionSet → SelectionSet := id
  leave_selection_set : SelectionSet → SelectionSet := id
  enter_selection : Selection → Selection := id
  leave_selection : Selection → Selection := id
  enter_field : Field → Field := id
  leave_field : Field → Field := id
  enter_argument : Argument → Argument := id
  leave_argument : Argument → Argument := id
  enter_fragment_spread : FragmentSpread → FragmentSpread := id
  leave_fragment_spread : FragmentSpread → FragmentSpread := id
  enter_inline_fragment : InlineFragment → InlineFragment := id
  leave_inline_fragment : InlineFragment → InlineFragment := id
  enter_fragment_definition : FragmentDefinition → FragmentDefinition := id
  leave_fragment_definition : FragmentDefinition → FragmentDefinition := id
  enter_value : Value → Value := id
  leave_value : Value → Value := id
  enter_int_value : IntValue → IntValue := id
  leave_int_value : IntValue → IntValue := id
  enter_float_value : FloatValue → FloatValue := id
  leave_float_value : FloatValue → FloatValue := id
  enter_string_value : StringValue → StringValue := id
  leave_string_value : StringValue → StringValue := id
  enter_boolean_value : BooleanValue → BooleanValue := id
  leave_boolean_value : BooleanValue → BooleanValue := id
  enter_null_value : NullValue → NullValue := id
  leave_null_value : NullValue → NullValue := id
  enter_enum_value : EnumValue → EnumValue := id
  leave_enum_value : EnumValue → EnumValue := id
  enter_list_value : ListValue → ListValue := id
  leave_list_value : ListValue → ListValue := id
  enter_object_value : ObjectValue → ObjectValue := id
  leave_object_value : ObjectValue → ObjectValue := id
  enter_object_field : ObjectField → ObjectField := id
  leave_object_field : ObjectField → ObjectField := id
  enter_directive : Directive → Directive := id
  leave_directive : Directive → Directive := id
  enter_type : Typ → Typ := id
  leave_type : Typ → Typ := id
  enter_nullable_type : NullableType → NullableType := id
  leave_nullable_type : NullableType → NullableType := id
  enter_named_type : NamedType → NamedType := id
  leave_named_type : NamedType → NamedType := id
  enter_list_type : ListType → ListType := id
  leave_list_type : ListType → ListType := id
  enter_non_null_type : NonNullType → NonNullType := id
  leave_non_null_type : NonNullType → NonNullType := id

/-- The enter loop of `fn_visits_parallel!`: the node threaded through
each visitor's hook, first to last. -/
def parallelEnter (hook : Visitor → α → α) (vs : List Visitor) (node : α) : α :=
  vs.foldl (fun n v => hook v n) node

/-- The leave loop of `fn_visits_parallel!`: the node threaded through
each visitor's hook in reverse order, last to first. -/
def parallelLeave (hook : Visitor → α → α) (vs : List Visitor) (node : α) : α :=
  vs.reverse.foldl (fun n v => hook v n) node

/-- `ParallelVisitor`, as a visitor: each enter hook threads the node
left-to-right through the sub-visitors, each leave hook right-to-left. -/
def parallelVisitor (vs : List Visitor) : Visitor where
  enter_name := parallelEnter (·.enter_name) vs
  leave_name := parallelLeave (·.leave_name) vs
  enter_document := parallelEnter (·.enter_document) vs
  leave_document := parallelLeave (·.leave_document) vs
  enter_definition := parallelEnter (·.enter_definition) vs
  leave_definition := parallelLeave (·.leave_definition) vs
  enter_operation_definition := parallelEnter (·.enter_operation_definition) vs
  leave_operation_definition := parallelLeave (·.leave_operation_definition) vs
  enter_variable_definition := parallelEnter (·.enter_variable_definition) vs
  leave_variable_definition := parallelLeave (·.leave_variable_definition) vs
  enter_variable := parallelEnter (·.enter_variable) vs
  leave_variable := parallelLeave (·.leave_variable) vs
  enter_selection_set := parallelEnter (·.enter_selection_set) vs
  leave_selection_set := parallelLeave (·.leave_selection_set) vs
  enter_selection := parallelEnter (·.enter_selection) vs
  leave_selection := parallelLeave (·.leave_selection) vs
  enter_field := parallelEnter (·.enter_field) vs
  leave_field := parallelLeave (·.leave_field) vs
  enter_argument := parallelEnter (·.enter_argument) vs
  leave_argument := parallelLeave (·.leave_argument) vs
  enter_fragment_spread := parallelEnter (·.enter_fragment_spread) vs
  leave_fragment_spread := parallelLeave (·.leave_fragment_spread) vs
  enter_inline_fragment := parallelEnter (·.enter_inline_fragment) vs
  leave_inline_fragment := parallelLeave (·.leave_inline_fragment) vs
  enter_fragment_definition := parallelEnter (·.enter_fragment_definition) vs
  leave_fragment_definition := parallelLeave (·.leave_fragment_definition) vs
  enter_value := parallelEnter (·.enter_value) vs
  leave_value := parallelLeave (·.leave_value) vs
  enter_int_value := parallelEnter (·.enter_int_value) vs
  leave_int_value := parallelLeave (·.leave_int_value) vs
  enter_float_value := parallelEnter (·.enter_float_value) vs
  leave_float_value := parallelLeave (·.leave_float_value) vs
  enter_string_value := parallelEnter (·.enter_string_value) vs
  leave_string_value := parallelLeave (·.leave_string_value) vs
  enter_boolean_value := parallelEnter (·.enter_boolean_value) vs
  leave_boolean_value := parallelLeave (·.leave_boolean_value) vs
  enter_null_value := parallelEnter (·.enter_null_value) vs
  leave_null_value := parallelLeave (·.leave_null_value) vs
  enter_enum_value := parallelEnter (·.enter_enum_value) vs
  leave_enum_value := parallelLeave (·.leave_enum_value) vs
  enter_list_value := parallelEnter (·.enter_list_value) vs
  leave_list_value := parallelLeave (·.leave_list_value) vs
  enter_object_value := parallelEnter (·.enter_object_value) vs
  leave_object_value := parallelLeave (·.leave_object_value) vs
  enter_object_field := parallelEnter (·.enter_object_field) vs
  leave_object_field := parallelLeave (·.leave_object_field) vs
  enter_directive := parallelEnter (·.enter_directive) vs
  leave_directive := parallelLeave (·.leave_directive) vs
  enter_type := parallelEnter (·.enter_type) vs
  leave_type := parallelLeave (·.leave_type) vs
  enter_nullable_type := parallelEnter (·.enter_nullable_type) vs
  leave_nullable_type := parallelLeave (·.leave_nullable_type) vs
  enter_named_type := parallelEnter (·.enter_named_type) vs
  leave_named_type := parallelLeave (·.leave_named_type) vs
  enter_list_type := parallelEnter (·.enter_list_type) vs
  leave_list_type := parallelLeave (·.leave_list_type) vs
  enter_non_null_type := parallelEnter (·.enter_non_null_type) vs
  leave_non_null_type := parallelLeave (·.leave_non_null_type) vs

/-!
Unfolding lemmas for the packed parser: the pack at fuel `n + 1` is the
step of the pack at fuel `n`, each projection is the corresponding
fuelled function, and the pack level equals the fuel.  All of them hold
by `rfl` except the level, which is a one-line induction.
-/

theorem parsePack_lvl (il : Bool) : (n : Nat) → (parsePack il n).lvl = n
  | 0 => rfl
  | n + 1 => congrArg (· + 1) (parsePack_lvl il n)

theorem parseTypeReference_proj (il : Bool) (n : Nat) : (parsePack il n).typeReference = parseTypeReference il n := rfl

theorem parseDocumentLoop_proj (il : Bool) (n : Nat) : (parsePack il n).documentLoop = parseDocumentLoop il n := rfl

theorem parseDefinition_proj (il : Bool) (n : Nat) : (parsePack il n).definition = parseDefinition il n := rfl

theorem parseOperationDefinition_proj (il : Bool) (n : Nat) : (parsePack il n).operationDefinition = parseOperationDefinition il n := rfl

theorem parseVariableDefinitions_proj (il : Bool) (n : Nat) : (parsePack il n).variableDefinitions = parseVariableDefinitions il n := rfl

theorem parseVariableDefinition_proj (il : Bool) (n : Nat) : (parsePack il n).variableDefinition = parseVariableDefinition il n := rfl

theorem parseSelectionSet_proj (il : Bool) (n : Nat) : (parsePack il n).selectionSet = parseSelectionSet il n := rfl

theorem parseSelection_proj (il : Bool) (n : Nat) : (parsePack il n).selection = parseSelection il n := rfl

theorem parseField_proj (il : Bool) (n : Nat) : (parsePack il n).field = parseField il n := rfl

theorem parseArguments_proj (il : Bool) (n : Nat) : (parsePack il n).arguments = parseArguments il n := rfl

theorem parseArgument_proj (il : Bool) (n : Nat) : (parsePack il n).argument = parseArgument il n := rfl

theorem parseFragment_proj (il : Bool) (n : Nat) : (parsePack il n).fragment = parseFragment il n := rfl

theorem parseFragmentTail_proj (il : Bool) (n : Nat) : (parsePack il n).fragmentTail = parseFragmentTail il n := rfl

theorem parseFragmentDefinition_proj (il : Bool) (n : Nat) : (parsePack il n).fragmentDefinition = parseFragmentDefinition il n := rfl

theorem parseValueLiteral_proj (il : Bool) (n : Nat) : (parsePack il n).valueLiteral = parseValueLiteral il n := rfl

theorem parseListValue_proj (il : Bool) (n : Nat) : (parsePack il n).listValue = parseListValue il n := rfl

theorem parseObjectValue_proj (il : Bool) (n : Nat) : (parsePack il n).objectValue = parseObjectValue il n := rfl

theorem parseObjectField_proj (il : Bool) (n : Nat) : (parsePack il n).objectField = parseObjectField il n := rfl

theorem parseDirectives_proj (il : Bool) (n : Nat) : (parsePack il n).directives = parseDirectives il n := rfl

theorem parseDirective_proj (il : Bool) (n : Nat) : (parsePack il n).directive = parseDirective il n := rfl

theorem parseTypeReference_zero (il : Bool) (s : LexerState) :
    parseTypeReference il 0 s = .error .unreachable := rfl

theorem parseTypeReference_succ (il : Bool) (n : Nat) :
    parseTypeReference il (n + 1) = parseTypeReferenceF il (parsePack il n) := rfl

theorem parseDocumentLoop_zero (il : Bool) (s : LexerState) :
    parseDocumentLoop il 0 s = .error .unreachable := rfl

theorem parseDocumentLoop_succ (il : Bool) (n : Nat) :
    parseDocumentLoop il (n + 1) = parseDocumentLoopF (parsePack il n) := rfl

theorem parseDefinition_zero (il : Bool) (s : LexerState) :
    parseDefinition il 0 s = .error .unreachable := rfl

theorem parseDefinition_succ (il : Bool) (n : Nat) :
    parseDefinition il (n + 1) = parseDefinitionF (parsePack il n) := rfl

theorem parseOperationDefinition_zero (il : Bool) (s : LexerState) :
    parseOperationDefinition il 0 s = .error .unreachable := rfl

theorem parseOperationDefinition_succ (il : Bool) (n : Nat) :
    parseOperationDefinition il (n + 1) = parseOperationDefinitionF il (parsePack il n) := rfl

theorem parseVariableDefinitions_zero (il : Bool) (s : LexerState) :
    parseVariableDefinitions il 0 s = .error .unreachable := rfl

theorem parseVariableDefinitions_succ (il : Bool) (n : Nat) :
    parseVariableDefinitions il (n + 1) = parseVariableDefinitionsF (parsePack il n) := rfl

theorem parseVariableDefinition_zero (il : Bool) (s : LexerState) :
    parseVariableDefinition il 0 s = .error .unreachable := rfl

theorem parseVariableDefinition_succ (il : Bool) (n : Nat) :
    parseVariableDefinition il (n + 1) = parseVariableDefinitionF il (parsePack il n) := rfl

theorem parseSelectionSet_zero (il : Bool) (s : LexerState) :
    parseSelectionSet il 0 s = .error .unreachable := rfl

theorem parseSelectionSet_succ (il : Bool) (n : Nat) :
    parseSelectionSet il (n + 1) = parseSelectionSetF il (parsePack il n) := rfl

theorem parseSelection_zero (il : Bool) (s : LexerState) :
    parseSelection il 0 s = .error .unreachable := rfl

theorem parseSelection_succ (il : Bool) (n : Nat) :
    parseSelection il (n + 1) = parseSelectionF (parsePack il n) := rfl

theorem parseField_zero (il : Bool) (s : LexerState) :
    parseField il 0 s = .error .unreachable := rfl

theorem parseField_succ (il : Bool) (n : Nat) :
    parseField il (n + 1) = parseFieldF il (parsePack il n) := rfl

theorem parseArguments_zero (il : Bool) (s : LexerState) :
    parseArguments il 0 s = .error .unreachable := rfl

theorem parseArguments_succ (il : Bool) (n : Nat) :
    parseArguments il (n + 1) = parseArgumentsF (parsePack il n) := rfl

theorem parseArgument_zero (il : Bool) (s : LexerState) :
    parseArgument il 0 s = .error .unreachable := rfl

theorem parseArgument_succ (il : Bool) (n : Nat) :
    parseArgument il (n + 1) = parseArgumentF il (parsePack il n) := rfl

theorem parseFragment_zero (il : Bool) (s : LexerState) :
    parseFragment il 0 s = .error .unreachable := rfl

theorem parseFragment_succ (il : Bool) (n : Nat) :
    parseFragment il (n + 1) = parseFragmentF il (parsePack il n) := rfl

theorem parseFragmentTail_zero (il : Bool) (start : Position) (s : LexerState) :
    parseFragmentTail il 0 start s = .error .unreachable := rfl

theorem parseFragmentTail_succ (il : Bool) (n : Nat) :
    parseFragmentTail il (n + 1) = parseFragmentTailF il (parsePack il n) := rfl

theorem parseFragmentDefinition_zero (il : Bool) (s : LexerState) :
    parseFragmentDefinition il 0 s = .error .unreachable := rfl

theorem parseFragmentDefinition_succ (il : Bool) (n : Nat) :
    parseFragmentDefinition il (n + 1) = parseFragmentDefinitionF il (parsePack il n) := rfl

theorem parseValueLiteral_zero (il : Bool) (s : LexerState) :
    parseValueLiteral il 0 s = .error .unreachable := rfl

theorem parseValueLiteral_succ (il : Bool) (n : Nat) :
    parseValueLiteral il (n + 1) = parseValueLiteralF il (parsePack il n) := rfl

theorem parseListValue_zero (il : Bool) (s : LexerState) :
    parseListValue il 0 s = .error .unreachable := rfl

theorem parseListValue_succ (il : Bool) (n : Nat) :
    parseListValue il (n + 1) = parseListValueF il (parsePack il n) := rfl

theorem parseObjectValue_zero (il : Bool) (s : LexerState) :
    parseObjectValue il 0 s = .error .unreachable := rfl

theorem parseObjectValue_succ (il : Bool) (n : Nat) :
    parseObjectValue il (n + 1) = parseObjectValueF il (parsePack il n) := rfl

theorem parseObjectField_zero (il : Bool) (s : LexerState) :
    parseObjectField il 0 s = .error .unreachable := rfl

theorem parseObjectField_succ (il : Bool) (n : Nat) :
    parseObjectField il (n + 1) = parseObjectFieldF il (parsePack il n) := rfl

theorem parseDirectives_zero (il : Bool) (s : LexerState) :
    parseDirectives il 0 s = .error .unreachable := rfl

theorem parseDirectives_succ (il : Bool) (n : Nat) :
    parseDirectives il (n + 1) = parseDirectivesF (parsePack il n) := rfl

theorem parseDirective_zero (il : Bool) (s : LexerState) :
    parseDirective il 0 s = .error .unreachable := rfl

theorem parseDirective_succ (il : Bool) (n : Nat) :
    parseDirective il (n + 1) = parseDirectiveF il (parsePack il n) := rfl

/-!
Lemmas about the lexer interface.  `peekSt c` is the lexer state whose
cache holds the token lexed from cursor `c`; a `peek` on an uncached
state produces it, and a `next` on it behaves exactly like a `next` on
the uncached state — peeking never changes the token stream.
-/

/-- The state after peeking from cursor `c`. -/
def peekSt (c : Cursor) : LexerState :=
  ⟨(lexToken c).2, some (lexToken c).1⟩

theorem peek_uncached (c : Cursor) :
    Lexer.peek ⟨c, none⟩ = ((lexToken c).1, peekSt c) := rfl

theorem peek_cached (c : Cursor) (r : Option (Except LexError Token)) :
    Lexer.peek ⟨c, some r⟩ = (r, ⟨c, some r⟩) := rfl

theorem next_uncached (c : Cursor) :
    Lexer.next ⟨c, none⟩ = ((lexToken c).1, ⟨(lexToken c).2, none⟩) := rfl

theorem next_cached (c : Cursor) (r : Option (Except LexError Token)) :
    Lexer.next ⟨c, some r⟩ = (r, ⟨c, none⟩) := rfl

/-- Peeking never consumes: a `next` after a fresh peek returns the
same token and reaches the same state as a `next` without the peek. -/
theorem next_peekSt (c : Cursor) :
    Lexer.next (peekSt c) = Lexer.next ⟨c, none⟩ := rfl

/-- A `peek` on any state leaves a state whose `next` behaves like the
original state's `next`: peeking is invisible to the token stream. -/
theorem next_after_peek (s : LexerState) :
    Lexer.next (Lexer.peek s).2 = Lexer.next s := by
  cases s with
  | mk c p =>
    cases p with
    | none => rfl
    | some r => rfl

/-- After a peek the peeked result is cached, so the following `next`
returns it and only clears the cache. -/
theorem next_of_peek (s : LexerState) :
    Lexer.next (Lexer.peek s).2 = ((Lexer.peek s).1, ⟨(Lexer.peek s).2.cursor, none⟩) := by
  cases s with
  | mk c p => cases p <;> rfl

/-- The loop of `Parser::many` with `allow_none = false`: when the next
token is the closing token and no item has been parsed yet, the error
carries the closing token. -/
theorem manyLoop_empty_stop {α : Type} (parseFn : LexerState → Except Error (α × LexerState))
    (stop : TokenKind) (fuel : Nat) (s : LexerState) (t : Token)
    (hpk : (Lexer.peek s).1 = some (.ok t)) (ht : t.kind = stop) :
    manyLoop parseFn stop false (fuel + 1) true s = .error (.unexpectedToken t) := by
  have h1 : manyLoop parseFn stop false (fuel + 1) true s =
      (let (r, s1) := nextIf stop s
       match r with
       | some (.ok t) => if !false && true then .error (.unexpectedToken t) else .ok ([], s1)
       | some (.error e) => .error e
       | none =>
         match parseFn s1 with
         | .ok (item, s2) =>
           match manyLoop parseFn stop false fuel false s2 with
           | .ok (items, s3) => .ok (item :: items, s3)
           | .error e => .error e
         | .error e => .error e) := rfl
  rw [h1]
  rcases hp2 : Lexer.peek s with ⟨r, s1⟩
  rw [hp2] at hpk
  simp only at hpk
  subst hpk
  have hnx : Lexer.next s1 = (some (.ok t), ⟨s1.cursor, none⟩) := by
    have h := next_of_peek s
    rw [hp2] at h
    exact h
  simp [nextIf, check, hp2, ht, nextTok, hnx]

/-- `Parser::many` with `allow_none = false`: a closing token
immediately after the opening token is an `unexpectedToken` error
carrying the closing token. -/
theorem many_empty_stop {α : Type} (parseFn : LexerState → Except Error (α × LexerState))
    (start stop : TokenKind) (fuel : Nat) (s s1 : LexerState) (t : Token)
    (hex : expect start s = .ok s1)
    (hpk : (Lexer.peek s1).1 = some (.ok t)) (ht : t.kind = stop) :
    many parseFn start stop false (fuel + 1) s = .error (.unexpectedToken t) := by
  rw [many, hex]
  exact manyLoop_empty_stop parseFn stop fuel s1 t hpk ht

/-!
Lemmas about the raw lexer.  The skipping of ignored characters
composes character by character, and each token class lexes from a
cursor whose remaining input starts with that token's characters.
-/

theorem skipAux_cons_ignored {c : Char} (h : isIgnoredChar c = true)
    (cs : List Char) (np lp : Position) :
    skipAux false (c :: cs) np lp = skipAux false cs (advancePos np c) np := by
  simp [skipAux, h]

theorem skipAux_nil (np lp : Position) :
    skipAux false [] np lp = ([], np, lp) := rfl

/-- Skipping an all-ignored input consumes everything. -/
theorem skipAux_all_ignored :
    ∀ (ws : List Char) (np lp : Position), (∀ c ∈ ws, isIgnoredChar c = true) →
    ∃ np2 lp2, skipAux false ws np lp = ([], np2, lp2)
  | [], np, lp, _ => ⟨np, lp, rfl⟩
  | c :: ws, np, lp, h => by
    rw [skipAux_cons_ignored (h c (by simp))]
    exact skipAux_all_ignored ws _ _ (fun x hx => h x (by simp [hx]))

/-- Skipping distributes over an all-ignored prefix. -/
theorem skipAux_ignored_append :
    ∀ (ws cs : List Char) (np lp : Position), (∀ c ∈ ws, isIgnoredChar c = true) →
    ∃ np2 lp2, skipAux false (ws ++ cs) np lp = skipAux false cs np2 lp2
  | [], cs, np, lp, _ => ⟨np, lp, rfl⟩
  | c :: ws, cs, np, lp, h => by
    rw [List.cons_append, skipAux_cons_ignored (h c (by simp))]
    exact skipAux_ignored_append ws cs _ _ (fun x hx => h x (by simp [hx]))

/-- A cursor over an all-ignored input lexes to the end of stream. -/
theorem lexToken_all_ignored (ws : List Char) (np lp : Position)
    (h : ∀ c ∈ ws, isIgnoredChar c = true) :
    ∃ np2 lp2, lexToken ⟨ws, np, lp⟩ = (none, ⟨[], np2, lp2⟩) := by
  obtain ⟨np2, lp2, hskip⟩ := skipAux_all_ignored ws np lp h
  refine ⟨np2, lp2, ?_⟩
  simp [lexToken, skipIgnored, hskip]

/-- The code-point characterisation of a name-start character. -/
theorem isNameStart_toNat (c : Char) (h : isNameStart c = true) :
    c.toNat = 95 ∨ (65 ≤ c.toNat ∧ c.toNat ≤ 90) ∨
      (97 ≤ c.toNat ∧ c.toNat ≤ 122) := by
  simp only [isNameStart, Bool.or_eq_true, decide_eq_true_eq,
    Bool.and_eq_true] at h
  rcases h with (h | h) | h
  · exact Or.inl (by rw [h]; rfl)
  · exact Or.inr (Or.inl h)
  · exact Or.inr (Or.inr h)

/-- The code-point characterisation of a name character. -/
theorem isNameChar_toNat (c : Char) (h : isNameChar c = true) :
    c.toNat = 95 ∨ (65 ≤ c.toNat ∧ c.toNat ≤ 90) ∨
      (97 ≤ c.toNat ∧ c.toNat ≤ 122) ∨ (48 ≤ c.toNat ∧ c.toNat ≤ 57) := by
  simp only [isNameChar, Bool.or_eq_true] at h
  cases h with
  | inl h =>
    rcases isNameStart_toNat c h with h | h | h
    · exact Or.inl h
    · exact Or.inr (Or.inl h)
    · exact Or.inr (Or.inr (Or.inl h))
  | inr h =>
    simp only [Bool.and_eq_true, decide_eq_true_eq] at h
    exact Or.inr (Or.inr (Or.inr h))

/-- The code-point characterisation of an ignored character. -/
theorem isIgnoredChar_toNat (c : Char) (h : isIgnoredChar c = true) :
    c.toNat = 32 ∨ c.toNat = 9 ∨ c.toNat = 10 ∨ c.toNat = 13 ∨
      c.toNat = 44 ∨ c.toNat = 65279 := by
  simp only [isIgnoredChar, Bool.or_eq_true, decide_eq_true_eq] at h
  rcases h with ((((h | h) | h) | h) | h) | h <;> rw [h] <;> decide

/-- A name character is not ignored, starts no other token class, and
is none of the punctuator characters. -/
theorem nameStart_facts (c : Char) (h : isNameStart c = true) :
    isIgnoredChar c = false ∧ c ≠ '#' ∧ c ≠ '{' ∧ c ≠ '}' ∧ c ≠ '(' ∧
    c ≠ ')' ∧ c ≠ '[' ∧ c ≠ ']' ∧ c ≠ ':' ∧ c ≠ '$' ∧ c ≠ '=' ∧
    c ≠ '@' ∧ c ≠ '!' ∧ c ≠ '|' ∧ c ≠ '.' ∧ c ≠ '"' ∧ c ≠ '-' ∧
    isDigitChar c = false := by
  have ht := isNameStart_toNat c h
  refine ⟨?_, ?_, ?_, ?_, ?_, ?_, ?_, ?_, ?_, ?_, ?_, ?_, ?_, ?_, ?_, ?_, ?_, ?_⟩
  · cases hi : isIgnoredChar c with
    | false => rfl
    | true =>
      have h2 := isIgnoredChar_toNat c hi
      rcases ht with a | a | a <;> rcases h2 with b | b | b | b | b | b <;> omega
  any_goals exact fun he => absurd (he ▸ ht) (by decide)
  · cases hd : isDigitChar c with
    | false => rfl
    | true =>
      simp only [isDigitChar, Bool.and_eq_true, decide_eq_true_eq] at hd
      have hd2 : 48 ≤ c.toNat ∧ c.toNat ≤ 57 := hd
      rcases ht with a | a | a <;> omega

/-- The cursor positions reached after consuming a list of characters:
the first component is the next position, the second the position of
the last consumed character. -/
def advPair (np lp : Position) : List Char → Position × Position
  | [] => (np, lp)
  | c :: cs => advPair (advancePos np c) np cs

/-- No-name-continuation condition on the first character of the rest
of the input: the lexed name stops exactly there. -/
def notNameCont : List Char → Prop
  | [] => True
  | c :: _ => isNameChar c = false

instance : (cs : List Char) → Decidable (notNameCont cs)
  | [] => isTrue trivial
  | c :: _ => inferInstanceAs (Decidable (isNameChar c = false))

/-- The name-body scan consumes exactly the name-character prefix. -/
theorem lexNameBody_spec : ∀ (body rest : List Char) (np lp : Position)
    (acc : List Char), (∀ x ∈ body, isNameChar x = true) → notNameCont rest →
    lexNameBody (body ++ rest) np lp acc =
      (body.reverse ++ acc, rest, (advPair np lp body).1, (advPair np lp body).2)
  | [], [], np, lp, acc, _, _ => rfl
  | [], c :: rest, np, lp, acc, _, hr => by
    simp only [notNameCont] at hr
    simp [lexNameBody, hr, advPair]
  | b :: body, rest, np, lp, acc, hb, hr => by
    have hbb : isNameChar b = true := hb b (by simp)
    show lexNameBody (b :: (body ++ rest)) np lp acc = _
    rw [lexNameBody, if_pos hbb,
      lexNameBody_spec body rest _ _ _ (fun x hx => hb x (by simp [hx])) hr]
    simp [advPair]

/-- Skipping stops at a non-ignored, non-comment character. -/
theorem skipAux_stop {c : Char} (h1 : isIgnoredChar c = false) (h2 : c ≠ '#')
    (cs : List Char) (np lp : Position) :
    skipAux false (c :: cs) np lp = (c :: cs, np, lp) := by
  simp [skipAux, h1, h2]

/-- A name-start character classifies as a name start. -/
theorem classifyChar_nameStart (c : Char) (hc : isNameStart c = true) :
    classifyChar c = .nameStart := by
  obtain ⟨hig, hhash, h1, h2, h3, h4, h5, h6, h7, h8, h9, h10, h11, h12,
    h13, h14, h15, hdig⟩ := nameStart_facts c hc
  simp only [classifyChar, if_neg h1, if_neg h2, if_neg h3, if_neg h4,
    if_neg h5, if_neg h6, if_neg h7, if_neg h8, if_neg h9, if_neg h10,
    if_neg h11, if_neg h12, if_neg h13, if_neg h14]
  rw [if_neg (by simp [h15, hdig]), if_pos hc]

/-- Lexing a name: a name-start character followed by the
name-character body produces one name token, stopping exactly at the
first non-name character. -/
theorem lexToken_name (c : Char) (body rest : List Char) (np lp : Position)
    (hc : isNameStart c = true) (hb : ∀ x ∈ body, isNameChar x = true)
    (hr : notNameCont rest) :
    lexToken ⟨c :: (body ++ rest), np, lp⟩ =
      (some (.ok ⟨.name (String.mk (c :: body)), np,
        (advPair (advancePos np c) np body).2⟩),
       ⟨rest, (advPair (advancePos np c) np body).1,
        (advPair (advancePos np c) np body).2⟩) := by
  obtain ⟨hig, hhash, _⟩ := nameStart_facts c hc
  have hskip : skipIgnored ⟨c :: (body ++ rest), np, lp⟩ =
      ⟨c :: (body ++ rest), np, lp⟩ := by
    simp [skipIgnored, skipAux_stop hig hhash]
  simp only [lexToken, hskip, classifyChar_nameStart c hc,
    lexNameBody_spec body rest _ _ _ hb hr]
  simp

/-- When the first definition's parse fails, `parse` surfaces exactly
that error. -/
theorem parse_error_step (cs : List Char) (e : Error)
    (hne : (Lexer.peek (mkLexer cs)).1 ≠ none)
    (hdef : parseDefinition true (16 * cs.length + 63)
      (Lexer.peek (mkLexer cs)).2 = .error e) :
    parse cs = .error e := by
  rw [parse, fuelFor, show 16 * cs.length + 64 = (16 * cs.length + 63) + 1 by omega]
  rw [parseDocument, parseDocumentLoop_succ, parseDocumentLoopF]
  rcases hp : Lexer.peek (mkLexer cs) with ⟨r, s1⟩
  rw [hp] at hne hdef
  cases r with
  | none => exact absurd rfl hne
  | some rr => simp [parseDefinition_proj, hdef, Except.map]

/-- With the `type_system` feature disabled, a definition led by one of
the nine type-system keywords fails with `UnexpectedToken` carrying the
keyword's token. -/
theorem parseDefinition_sdl_keyword (il : Bool) (m : Nat) (cur : Cursor)
    (tok : Token) (kw : String) (hkind : tok.kind = .name kw)
    (hkw : kw = "schema" ∨ kw = "scalar" ∨ kw = "type" ∨ kw = "interface" ∨
      kw = "union" ∨ kw = "enum" ∨ kw = "input" ∨ kw = "extend" ∨
      kw = "directive") :
    parseDefinition il (m + 1) ⟨cur, some (some (.ok tok))⟩ =
      .error (.unexpectedToken tok) := by
  rcases hkw with h | h | h | h | h | h | h | h | h <;> subst h <;>
    simp [parseDefinition_succ, parseDefinitionF, check, checkName,
      peek_cached, hkind, nextTok, next_cached, unexpected]

/-- The generic walk for claim C7: an input beginning with one of the
nine type-system keywords fails with `UnexpectedToken` carrying the
keyword's own token. -/
theorem parse_sdl_keyword_error (kw : String) (c : Char) (body rest : List Char)
    (hsplit : kw.data = c :: body) (hc : isNameStart c = true)
    (hb : ∀ x ∈ body, isNameChar x = true) (hrest : notNameCont rest)
    (hkw : kw = "schema" ∨ kw = "scalar" ∨ kw = "type" ∨ kw = "interface" ∨
      kw = "union" ∨ kw = "enum" ∨ kw = "input" ∨ kw = "extend" ∨
      kw = "directive") :
    parse (kw.data ++ rest) =
      .error (.unexpectedToken ⟨.name kw, ⟨0, 1, 1⟩,
        (advPair (advancePos ⟨0, 1, 1⟩ c) ⟨0, 1, 1⟩ body).2⟩) := by
  have hmk : String.mk (c :: body) = kw := by rw [← hsplit]
  have hlex := lexToken_name c body rest ⟨0, 1, 1⟩ ⟨0, 1, 1⟩ hc hb hrest
  rw [hmk] at hlex
  have hcur : (mkLexer (kw.data ++ rest)).cursor =
      ⟨c :: (body ++ rest), ⟨0, 1, 1⟩, ⟨0, 1, 1⟩⟩ := by
    simp [mkLexer, hsplit]
  apply parse_error_step
  · rcases hm : mkLexer (kw.data ++ rest) with ⟨cur, pk⟩
    have : pk = none := by rw [mkLexer] at hm; cases hm; rfl
    subst this
    have : cur = ⟨c :: (body ++ rest), ⟨0, 1, 1⟩, ⟨0, 1, 1⟩⟩ := by
      rw [← hcur, hm]
    subst this
    rw [peek_uncached, hlex]
    simp
  · rcases hm : mkLexer (kw.data ++ rest) with ⟨cur, pk⟩
    have hpk : pk = none := by rw [mkLexer] at hm; cases hm; rfl
    subst hpk
    have : cur = ⟨c :: (body ++ rest), ⟨0, 1, 1⟩, ⟨0, 1, 1⟩⟩ := by
      rw [← hcur, hm]
    subst this
    rw [peek_uncached]
    rw [show (16 * (kw.data ++ rest).length + 63) =
      (16 * (kw.data ++ rest).length + 62) + 1 by omega]
    simp only [peekSt, hlex]
    exact parseDefinition_sdl_keyword true _ _ _ kw rfl hkw

theorem next_eq_peek (s : LexerState) :
    Lexer.next s = ((Lexer.peek s).1, ⟨(Lexer.peek s).2.cursor, none⟩) := by
  cases s with
  | mk c p => cases p <;> rfl

theorem nextTok_ok (s : LexerState) (t : Token)
    (hpk : (Lexer.peek s).1 = some (.ok t)) :
    nextTok s = (some (.ok t), ⟨(Lexer.peek s).2.cursor, none⟩) := by
  rw [nextTok, next_eq_peek, hpk]

theorem check_ok (kind : TokenKind) (s : LexerState) (t : Token)
    (hpk : (Lexer.peek s).1 = some (.ok t)) :
    check kind s = (decide (t.kind = kind), (Lexer.peek s).2) := by
  rw [check]
  rcases hp : Lexer.peek s with ⟨r, s1⟩
  rw [hp] at hpk
  simp only at hpk
  subst hpk
  rfl

theorem nextIf_no (kind : TokenKind) (s : LexerState) (t : Token)
    (hpk : (Lexer.peek s).1 = some (.ok t)) (ht : t.kind ≠ kind) :
    nextIf kind s = (none, (Lexer.peek s).2) := by
  rw [nextIf, check_ok kind s t hpk]
  simp [ht]

theorem peek_idem (s : LexerState) :
    Lexer.peek (Lexer.peek s).2 = ((Lexer.peek s).1, (Lexer.peek s).2) := by
  cases s with
  | mk c p => cases p <;> rfl

theorem nextIf_yes (kind : TokenKind) (s : LexerState) (t : Token)
    (hpk : (Lexer.peek s).1 = some (.ok t)) (ht : t.kind = kind) :
    nextIf kind s = (some (.ok t), ⟨(Lexer.peek s).2.cursor, none⟩) := by
  rw [nextIf, check_ok kind s t hpk]
  simp only [ht, decide_True, if_true]
  rw [nextTok_ok _ t (by rw [peek_idem]; simpa using hpk), peek_idem]

theorem expect_tok (kind : TokenKind) (s : LexerState) (t : Token)
    (hpk : (Lexer.peek s).1 = some (.ok t)) :
    expect kind s = if t.kind = kind then .ok ⟨(Lexer.peek s).2.cursor, none⟩
      else .error (.unexpectedToken t) := by
  rw [expect, nextTok_ok s t hpk]

theorem expectName_tok (nm : String) (s : LexerState) (t : Token) (v : String)
    (hpk : (Lexer.peek s).1 = some (.ok t)) (hk : t.kind = .name v) :
    expectName nm s = if v = nm then .ok ⟨(Lexer.peek s).2.cursor, none⟩
      else .error (.unexpectedToken t) := by
  rw [expectName, nextTok_ok s t hpk]
  simp only [hk]

theorem nextIfAnyName_name (s : LexerState) (t : Token) (v : String)
    (hpk : (Lexer.peek s).1 = some (.ok t)) (hk : t.kind = .name v) :
    nextIfAnyName s = (some v, ⟨(Lexer.peek s).2.cursor, none⟩) := by
  rw [nextIfAnyName]
  rcases hs : Lexer.peek s with ⟨r, s1⟩
  rw [hs] at hpk
  simp only at hpk
  subst hpk
  have hnx : Lexer.next s1 = (some (.ok t), ⟨s1.cursor, none⟩) := by
    have h := next_of_peek s
    rw [hs] at h
    exact h
  simp only [hk, hnx]



theorem checkName_ok_name (nm : String) (s : LexerState) (t : Token) (v : String)
    (hpk : (Lexer.peek s).1 = some (.ok t)) (hk : t.kind = .name v) :
    checkName nm s = (decide (v = nm), (Lexer.peek s).2) := by
  rw [checkName]
  rcases hs : Lexer.peek s with ⟨r, s1⟩
  rw [hs] at hpk
  simp only at hpk
  subst hpk
  simp only [hk]

theorem checkName_ok_other (nm : String) (s : LexerState) (t : Token)
    (hpk : (Lexer.peek s).1 = some (.ok t)) (hk : ∀ v, t.kind ≠ .name v) :
    checkName nm s = (false, (Lexer.peek s).2) := by
  rw [checkName]
  rcases hs : Lexer.peek s with ⟨r, s1⟩
  rw [hs] at hpk
  simp only at hpk
  subst hpk
  rcases htk : t.kind <;> simp_all

theorem nextIfAnyName_notname (s : LexerState) (t : Token)
    (hpk : (Lexer.peek s).1 = some (.ok t)) (hk : ∀ v, t.kind ≠ .name v) :
    nextIfAnyName s = (none, (Lexer.peek s).2) := by
  rw [nextIfAnyName]
  rcases hs : Lexer.peek s with ⟨r, s1⟩
  rw [hs] at hpk
  simp only at hpk
  subst hpk
  rcases htk : t.kind <;> simp_all

theorem manyLoop_unfold {α : Type} (parseFn : LexerState → Except Error (α × LexerState))
    (stop : TokenKind) (allowNone : Bool) (fuel : Nat) (empty : Bool) (s : LexerState) :
    manyLoop parseFn stop allowNone (fuel + 1) empty s =
      (let (r, s1) := nextIf stop s
       match r with
       | some (.ok t) =>
         if !allowNone && empty then .error (.unexpectedToken t) else .ok ([], s1)
       | some (.error e) => .error e
       | none =>
         match parseFn s1 with
         | .ok (item, s2) =>
           match manyLoop parseFn stop allowNone fuel false s2 with
           | .ok (items, s3) => .ok (item :: items, s3)
           | .error e => .error e
         | .error e => .error e) := rfl

theorem manyLoop_item_error {α : Type} (parseFn : LexerState → Except Error (α × LexerState))
    (stop : TokenKind) (allowNone : Bool) (fuel : Nat) (empty : Bool) (s : LexerState)
    (t : Token) (e : Error)
    (hpk : (Lexer.peek s).1 = some (.ok t)) (ht : t.kind ≠ stop)
    (he : parseFn (Lexer.peek s).2 = .error e) :
    manyLoop parseFn stop allowNone (fuel + 1) empty s = .error e := by
  rw [manyLoop_unfold, nextIf_no stop s t hpk ht]
  simp only [he]

theorem manyLoop_item_ok {α : Type} (parseFn : LexerState → Except Error (α × LexerState))
    (stop : TokenKind) (allowNone : Bool) (fuel : Nat) (empty : Bool) (s : LexerState)
    (t : Token) (x : α) (s2 : LexerState)
    (hpk : (Lexer.peek s).1 = some (.ok t)) (ht : t.kind ≠ stop)
    (hok : parseFn (Lexer.peek s).2 = .ok (x, s2)) :
    manyLoop parseFn stop allowNone (fuel + 1) empty s =
      match manyLoop parseFn stop allowNone fuel false s2 with
      | .ok (items, s3) => .ok (x :: items, s3)
      | .error e => .error e := by
  rw [manyLoop_unfold, nextIf_no stop s t hpk ht]
  simp only [hok]



theorem parseVariableDefinition_bang_error (il : Bool) (k : Nat) (s : LexerState)
    (t : Token) (hpk : (Lexer.peek s).1 = some (.ok t)) (hk : t.kind = .bang) :
    parseVariableDefinition il (k + 1) s = .error (.unexpectedToken t) := by
  simp only [parseVariableDefinition_succ, parseVariableDefinitionF, parseVariable,
    expect_tok .dollar s t hpk, hk]
  simp

theorem parseTypeReference_name_bang (il : Bool) (k : Nat) (c3 c4 c5 : Cursor)
    (tokN tokB : Token) (nm : String)
    (hlexN : lexToken c3 = (some (.ok tokN), c4)) (hkN : tokN.kind = .name nm)
    (hlexB : lexToken c4 = (some (.ok tokB), c5)) (hkB : tokB.kind = .bang) :
    ∃ ty, parseTypeReference il (k + 1) ⟨c3, none⟩ = .ok (ty, ⟨c5, none⟩) := by
  have hpk3 : (Lexer.peek ⟨c3, none⟩).1 = some (.ok tokN) := by
    rw [peek_uncached, hlexN]
  have hs3 : (Lexer.peek ⟨c3, none⟩).2 = peekSt c3 := by rw [peek_uncached]
  have hpkSt : (Lexer.peek (peekSt c3)).1 = some (.ok tokN) := by
    simp [peekSt, Lexer.peek, hlexN]
  have hcurSt : (Lexer.peek (peekSt c3)).2.cursor = c4 := by
    simp [peekSt, Lexer.peek, hlexN]
  have hpk4 : (Lexer.peek ⟨c4, none⟩).1 = some (.ok tokB) := by
    rw [peek_uncached, hlexB]
  have hpos3 : Lexer.pos ⟨c3, none⟩ = c3.lastPos := rfl
  have hposSt : Lexer.pos (peekSt c3) = c4.lastPos := by
    simp [Lexer.pos, peekSt, hlexN]
  have hcur4 : (Lexer.peek ⟨c4, none⟩).2.cursor = c5 := by
    simp [peek_uncached, peekSt, hlexB]
  have heq : parseTypeReference il (k + 1) ⟨c3, none⟩ =
      .ok (.nonNull ⟨mkLoc il c3.lastPos ⟨c5, none⟩,
        .named ⟨mkLoc il c4.lastPos ⟨c4, none⟩,
          ⟨mkLoc il c4.lastPos ⟨c4, none⟩, nm⟩⟩⟩, ⟨c5, none⟩) := by
    simp [parseTypeReference_succ, parseTypeReferenceF,
      nextIf_no .leftBracket ⟨c3, none⟩ tokN hpk3 (by simp [hkN]),
      hs3, parseNamedType, parseName,
      nextIfAnyName_name (peekSt c3) tokN nm hpkSt hkN, hcurSt, hposSt, hpos3,
      nextIf_yes .bang ⟨c4, none⟩ tokB hpk4 hkB, hcur4]
  exact ⟨_, heq⟩



theorem parseVariableDefinition_dollar_walk (il : Bool) (k : Nat) (s : LexerState)
    (c1 c2 c3 c4 c5 : Cursor) (tokD tokA tokC tokN tokB tokB2 : Token) (v nm : String)
    (hpkD : (Lexer.peek s).1 = some (.ok tokD)) (hkD : tokD.kind = .dollar)
    (h1 : (Lexer.peek s).2.cursor = c1)
    (hlexA : lexToken c1 = (some (.ok tokA), c2)) (hkA : tokA.kind = .name v)
    (hlexC : lexToken c2 = (some (.ok tokC), c3)) (hkC : tokC.kind = .colon)
    (hlexN : lexToken c3 = (some (.ok tokN), c4)) (hkN : tokN.kind = .name nm)
    (hlexB : lexToken c4 = (some (.ok tokB), c5)) (hkB : tokB.kind = .bang)
    (hlexB2 : (lexToken c5).1 = some (.ok tokB2)) (hkB2 : tokB2.kind ≠ .equals) :
    ∃ vd, parseVariableDefinition il (k + 2) s = .ok (vd, peekSt c5) := by
  obtain ⟨ty, hty⟩ := parseTypeReference_name_bang il k c3 c4 c5 tokN tokB nm hlexN hkN hlexB hkB
  have hpkA : (Lexer.peek ⟨c1, none⟩).1 = some (.ok tokA) := by rw [peek_uncached, hlexA]
  have hcur1 : (Lexer.peek ⟨c1, none⟩).2.cursor = c2 := by
    simp [peek_uncached, peekSt, hlexA]
  have hpkC : (Lexer.peek ⟨c2, none⟩).1 = some (.ok tokC) := by rw [peek_uncached, hlexC]
  have hcur2 : (Lexer.peek ⟨c2, none⟩).2.cursor = c3 := by
    simp [peek_uncached, peekSt, hlexC]
  have hpkB2 : (Lexer.peek ⟨c5, none⟩).1 = some (.ok tokB2) := by
    rw [peek_uncached]; exact hlexB2
  have hs5 : (Lexer.peek ⟨c5, none⟩).2 = peekSt c5 := by rw [peek_uncached]
  have hposC1 : Lexer.pos ⟨c1, none⟩ = c1.lastPos := rfl
  have heq : parseVariableDefinition il (k + 2) s =
      .ok (⟨mkLoc il (Lexer.pos s) (peekSt c5),
        ⟨mkLoc il (Lexer.pos s) ⟨c2, none⟩, ⟨mkLoc il c1.lastPos ⟨c2, none⟩, v⟩⟩,
        ty, none⟩, peekSt c5) := by
    rw [show k + 2 = (k + 1) + 1 from rfl]
    simp [parseVariableDefinition_succ, parseVariableDefinitionF, parseVariable,
      expect_tok .dollar s tokD hpkD, hkD, h1, parseName,
      nextIfAnyName_name ⟨c1, none⟩ tokA v hpkA hkA, hcur1, hposC1,
      expect_tok .colon ⟨c2, none⟩ tokC hpkC, hkC, hcur2,
      parseTypeReference_proj, hty,
      nextIf_no .equals ⟨c5, none⟩ tokB2 hpkB2 hkB2, hs5]
  exact ⟨_, heq⟩



theorem parseVariableDefinitions_bangbang_error (il : Bool) (k : Nat)
    (cur cLP cD c2 c3 c4 c5 : Cursor)
    (tokLP tokD tokA tokC tokN tokB tokB2 : Token) (v nm : String)
    (hlexLP : lexToken cur = (some (.ok tokLP), cLP)) (hkLP : tokLP.kind = .leftParen)
    (hlexD : lexToken cLP = (some (.ok tokD), cD)) (hkD : tokD.kind = .dollar)
    (hlexA : lexToken cD = (some (.ok tokA), c2)) (hkA : tokA.kind = .name v)
    (hlexC : lexToken c2 = (some (.ok tokC), c3)) (hkC : tokC.kind = .colon)
    (hlexN : lexToken c3 = (some (.ok tokN), c4)) (hkN : tokN.kind = .name nm)
    (hlexB : lexToken c4 = (some (.ok tokB), c5)) (hkB : tokB.kind = .bang)
    (hlexB2 : (lexToken c5).1 = some (.ok tokB2)) (hkB2 : tokB2.kind = .bang) :
    parseVariableDefinitions il (k + 3) (peekSt cur) =
      .error (.unexpectedToken tokB2) := by
  have hpkSt : Lexer.peek (peekSt cur) = ((lexToken cur).1, peekSt cur) := rfl
  have hpkStLP : (Lexer.peek (peekSt cur)).1 = some (.ok tokLP) := by
    simp [hpkSt, hlexLP]
  have hcurStLP : (Lexer.peek (peekSt cur)).2.cursor = cLP := by
    simp [hpkSt, peekSt, hlexLP, peek_cached]
  have hpkD : (Lexer.peek ⟨cLP, none⟩).1 = some (.ok tokD) := by
    rw [peek_uncached, hlexD]
  have hsD : (Lexer.peek ⟨cLP, none⟩).2 = peekSt cLP := by rw [peek_uncached]
  have hpkStD : (Lexer.peek (peekSt cLP)).1 = some (.ok tokD) := by
    simp [show Lexer.peek (peekSt cLP) = ((lexToken cLP).1, peekSt cLP) from rfl, hlexD]
  have hcurStD : (Lexer.peek (peekSt cLP)).2.cursor = cD := by
    simp [show Lexer.peek (peekSt cLP) = ((lexToken cLP).1, peekSt cLP) from rfl,
      peekSt, hlexD, peek_cached]
  have hpkStB2 : (Lexer.peek (peekSt c5)).1 = some (.ok tokB2) := by
    simp [show Lexer.peek (peekSt c5) = ((lexToken c5).1, peekSt c5) from rfl, hlexB2]
  obtain ⟨vd, hvd⟩ := parseVariableDefinition_dollar_walk il k (peekSt cLP)
    cD c2 c3 c4 c5 tokD tokA tokC tokN tokB tokB2 v nm
    hpkStD hkD hcurStD hlexA hkA hlexC hkC hlexN hkN hlexB hkB hlexB2
    (by simp [hkB2])
  have herr : parseVariableDefinition il (k + 2) (peekSt c5) =
      .error (.unexpectedToken tokB2) :=
    parseVariableDefinition_bang_error il (k + 1) (peekSt c5) tokB2 hpkStB2 hkB2
  rw [show k + 3 = (k + 2) + 1 from rfl, parseVariableDefinitions_succ,
    parseVariableDefinitionsF]
  simp only [parseVariableDefinition_proj, parsePack_lvl]
  rw [many, expect_tok .leftParen (peekSt cur) tokLP hpkStLP]
  simp only [hkLP, if_true, hcurStLP]
  rw [show k + 2 = (k + 1) + 1 from rfl,
    manyLoop_item_ok (parseVariableDefinition il ((k + 1) + 1)) .rightParen false
      (k + 1) true ⟨cLP, none⟩ tokD vd (peekSt c5) hpkD (by simp [hkD])
      (by rw [hsD]; exact hvd)]
  rw [show k + 1 = k + 1 from rfl,
    manyLoop_item_error (parseVariableDefinition il ((k + 1) + 1)) .rightParen false
      k false (peekSt c5) tokB2 (.unexpectedToken tokB2) hpkStB2 (by simp [hkB2])
      (by rw [show (Lexer.peek (peekSt c5)).2 = peekSt c5 from rfl]; exact herr)]



theorem parseDefinition_query (il : Bool) (m : Nat) (cur : Cursor) (tok : Token)
    (hkind : tok.kind = .name "query") :
    parseDefinition il (m + 1) ⟨cur, some (some (.ok tok))⟩ =
      match parseOperationDefinition il m ⟨cur, some (some (.ok tok))⟩ with
      | .ok (od, s2) => .ok (.operation od, s2)
      | .error e => .error e := by
  rcases hod : parseOperationDefinition il m ⟨cur, some (some (.ok tok))⟩ with e | ⟨od, s2⟩ <;>
    simp [parseDefinition_succ, parseDefinitionF, check, checkName, peek_cached,
      hkind, parseOperationDefinition_proj, hod]

theorem parseOperationDefinition_query_vds_error (il : Bool) (m : Nat) (cur cLP : Cursor)
    (tokQ tokLP : Token) (e : Error)
    (hkQ : tokQ.kind = .name "query")
    (hlexLP : lexToken cur = (some (.ok tokLP), cLP)) (hkLP : tokLP.kind = .leftParen)
    (hvds : parseVariableDefinitions il m (peekSt cur) = .error e) :
    parseOperationDefinition il (m + 1) ⟨cur, some (some (.ok tokQ))⟩ = .error e := by
  have hpkQ : (Lexer.peek ⟨cur, some (some (.ok tokQ))⟩).1 = some (.ok tokQ) := rfl
  have hccQ : (Lexer.peek ⟨cur, some (some (.ok tokQ))⟩).2.cursor = cur := rfl
  have hpkLP : (Lexer.peek ⟨cur, none⟩).1 = some (.ok tokLP) := by
    rw [peek_uncached, hlexLP]
  have hsLP : (Lexer.peek ⟨cur, none⟩).2 = peekSt cur := by rw [peek_uncached]
  have hpkStLP : (Lexer.peek (peekSt cur)).1 = some (.ok tokLP) := by
    simp [show Lexer.peek (peekSt cur) = ((lexToken cur).1, peekSt cur) from rfl, hlexLP]
  have hsStLP : (Lexer.peek (peekSt cur)).2 = peekSt cur := rfl
  have hs0 : (Lexer.peek ⟨cur, some (some (.ok tokQ))⟩).2 =
      ⟨cur, some (some (.ok tokQ))⟩ := rfl
  simp [parseOperationDefinition_succ, parseOperationDefinitionF,
    check_ok .leftBrace ⟨cur, some (some (.ok tokQ))⟩ tokQ hpkQ, hs0,
    hkQ, parseOperationType,
    nextIfAnyName_name ⟨cur, some (some (.ok tokQ))⟩ tokQ "query" hpkQ hkQ, hccQ,
    nextIfAnyName_notname ⟨cur, none⟩ tokLP hpkLP (by simp [hkLP]), hsLP,
    check_ok .leftParen (peekSt cur) tokLP hpkStLP, hkLP, hsStLP,
    parseVariableDefinitions_proj, hvds]



theorem nameChar_ne_newline (x : Char) (hx : isNameChar x = true) : x ≠ '\n' := by
  intro hEq
  have h := isNameChar_toNat x hx
  rw [hEq] at h
  revert h
  decide

theorem advPair_fst : ∀ (body : List Char) (np lp : Position),
    (∀ x ∈ body, isNameChar x = true) →
    (advPair np lp body).1 = ⟨np.index + body.length, np.line, np.column + body.length⟩
  | [], np, lp, _ => by cases np; simp [advPair]
  | c :: body, np, lp, h => by
    have hne : c ≠ '\n' := nameChar_ne_newline c (h c (by simp))
    rw [advPair, advPair_fst body _ _ (fun x hx => h x (by simp [hx]))]
    simp [advancePos, hne, Position.mk.injEq]
    omega

theorem parse_double_bang_error (c : Char) (body tail : List Char)
    (hc : isNameStart c = true) (hb : ∀ x ∈ body, isNameChar x = true) :
    parse ("query($a:".data ++ (c :: body) ++ '!' :: '!' :: tail) =
      .error (.unexpectedToken ⟨.bang,
        ⟨11 + body.length, 1, 12 + body.length⟩,
        ⟨11 + body.length, 1, 12 + body.length⟩⟩) := by
  have hcne : c ≠ '\n' := by
    intro hEq
    have h := isNameStart_toNat c hc
    rw [hEq] at h
    revert h
    decide
  have hlex1 : lexToken ⟨"query($a:".data ++ (c :: body) ++ '!' :: '!' :: tail,
      ⟨0, 1, 1⟩, ⟨0, 1, 1⟩⟩ =
      (some (.ok ⟨.name "query", ⟨0, 1, 1⟩, ⟨4, 1, 5⟩⟩),
       ⟨'(' :: '$' :: 'a' :: ':' :: c :: (body ++ '!' :: '!' :: tail),
        ⟨5, 1, 6⟩, ⟨4, 1, 5⟩⟩) := rfl
  have hlex2 : lexToken ⟨'(' :: '$' :: 'a' :: ':' :: c :: (body ++ '!' :: '!' :: tail),
      ⟨5, 1, 6⟩, ⟨4, 1, 5⟩⟩ =
      (some (.ok ⟨.leftParen, ⟨5, 1, 6⟩, ⟨5, 1, 6⟩⟩),
       ⟨'$' :: 'a' :: ':' :: c :: (body ++ '!' :: '!' :: tail), ⟨6, 1, 7⟩, ⟨5, 1, 6⟩⟩) := rfl
  have hlex3 : lexToken ⟨'$' :: 'a' :: ':' :: c :: (body ++ '!' :: '!' :: tail),
      ⟨6, 1, 7⟩, ⟨5, 1, 6⟩⟩ =
      (some (.ok ⟨.dollar, ⟨6, 1, 7⟩, ⟨6, 1, 7⟩⟩),
       ⟨'a' :: ':' :: c :: (body ++ '!' :: '!' :: tail), ⟨7, 1, 8⟩, ⟨6, 1, 7⟩⟩) := rfl
  have hlex4 : lexToken ⟨'a' :: ':' :: c :: (body ++ '!' :: '!' :: tail),
      ⟨7, 1, 8⟩, ⟨6, 1, 7⟩⟩ =
      (some (.ok ⟨.name "a", ⟨7, 1, 8⟩, ⟨7, 1, 8⟩⟩),
       ⟨':' :: c :: (body ++ '!' :: '!' :: tail), ⟨8, 1, 9⟩, ⟨7, 1, 8⟩⟩) := rfl
  have hlex5 : lexToken ⟨':' :: c :: (body ++ '!' :: '!' :: tail),
      ⟨8, 1, 9⟩, ⟨7, 1, 8⟩⟩ =
      (some (.ok ⟨.colon, ⟨8, 1, 9⟩, ⟨8, 1, 9⟩⟩),
       ⟨c :: (body ++ '!' :: '!' :: tail), ⟨9, 1, 10⟩, ⟨8, 1, 9⟩⟩) := rfl
  have hlex6 : lexToken ⟨c :: (body ++ '!' :: '!' :: tail), ⟨9, 1, 10⟩, ⟨8, 1, 9⟩⟩ =
      (some (.ok ⟨.name (String.mk (c :: body)), ⟨9, 1, 10⟩,
        (advPair (advancePos ⟨9, 1, 10⟩ c) ⟨9, 1, 10⟩ body).2⟩),
       ⟨'!' :: '!' :: tail, (advPair (advancePos ⟨9, 1, 10⟩ c) ⟨9, 1, 10⟩ body).1,
        (advPair (advancePos ⟨9, 1, 10⟩ c) ⟨9, 1, 10⟩ body).2⟩) :=
    lexToken_name c body ('!' :: '!' :: tail) ⟨9, 1, 10⟩ ⟨8, 1, 9⟩ hc hb
      (by show isNameChar '!' = false; decide)
  have hlex7 : lexToken ⟨'!' :: '!' :: tail,
      (advPair (advancePos ⟨9, 1, 10⟩ c) ⟨9, 1, 10⟩ body).1,
      (advPair (advancePos ⟨9, 1, 10⟩ c) ⟨9, 1, 10⟩ body).2⟩ =
      (some (.ok ⟨.bang, (advPair (advancePos ⟨9, 1, 10⟩ c) ⟨9, 1, 10⟩ body).1,
        (advPair (advancePos ⟨9, 1, 10⟩ c) ⟨9, 1, 10⟩ body).1⟩),
       ⟨'!' :: tail,
        advancePos (advPair (advancePos ⟨9, 1, 10⟩ c) ⟨9, 1, 10⟩ body).1 '!',
        (advPair (advancePos ⟨9, 1, 10⟩ c) ⟨9, 1, 10⟩ body).1⟩) := rfl
  have hlex8 : (lexToken ⟨'!' :: tail,
      advancePos (advPair (advancePos ⟨9, 1, 10⟩ c) ⟨9, 1, 10⟩ body).1 '!',
      (advPair (advancePos ⟨9, 1, 10⟩ c) ⟨9, 1, 10⟩ body).1⟩).1 =
      some (.ok ⟨.bang,
        advancePos (advPair (advancePos ⟨9, 1, 10⟩ c) ⟨9, 1, 10⟩ body).1 '!',
        advancePos (advPair (advancePos ⟨9, 1, 10⟩ c) ⟨9, 1, 10⟩ body).1 '!'⟩) := rfl
  have hP : advancePos (advPair (advancePos ⟨9, 1, 10⟩ c) ⟨9, 1, 10⟩ body).1 '!' =
      (⟨11 + body.length, 1, 12 + body.length⟩ : Position) := by
    rw [show advancePos (⟨9, 1, 10⟩ : Position) c =
      (⟨10, 1, 11⟩ : Position) from by simp [advancePos, hcne]]
    rw [advPair_fst body ⟨10, 1, 11⟩ ⟨9, 1, 10⟩ hb]
    simp [advancePos, Position.mk.injEq]
    omega
  have hvds : parseVariableDefinitions true
      (16 * ("query($a:".data ++ (c :: body) ++ '!' :: '!' :: tail).length + 61)
      (peekSt ⟨'(' :: '$' :: 'a' :: ':' :: c :: (body ++ '!' :: '!' :: tail),
        ⟨5, 1, 6⟩, ⟨4, 1, 5⟩⟩) =
      .error (.unexpectedToken ⟨.bang,
        ⟨11 + body.length, 1, 12 + body.length⟩,
        ⟨11 + body.length, 1, 12 + body.length⟩⟩) := by
    rw [show 16 * ("query($a:".data ++ (c :: body) ++ '!' :: '!' :: tail).length + 61 =
      (16 * ("query($a:".data ++ (c :: body) ++ '!' :: '!' :: tail).length + 58) + 3
      by omega]
    rw [← hP]
    exact parseVariableDefinitions_bangbang_error true _ _ _ _ _ _ _ _
      _ _ _ _ _ _ _ "a" (String.mk (c :: body))
      hlex2 rfl hlex3 rfl hlex4 rfl hlex5 rfl hlex6 rfl hlex7 rfl hlex8 rfl
  apply parse_error_step
  · rw [show mkLexer ("query($a:".data ++ (c :: body) ++ '!' :: '!' :: tail) =
      ⟨⟨"query($a:".data ++ (c :: body) ++ '!' :: '!' :: tail, ⟨0, 1, 1⟩, ⟨0, 1, 1⟩⟩,
       none⟩ from rfl, peek_uncached, hlex1]
    simp
  · rw [show mkLexer ("query($a:".data ++ (c :: body) ++ '!' :: '!' :: tail) =
      ⟨⟨"query($a:".data ++ (c :: body) ++ '!' :: '!' :: tail, ⟨0, 1, 1⟩, ⟨0, 1, 1⟩⟩,
       none⟩ from rfl, peek_uncached]
    simp only [peekSt, hlex1]
    rw [show 16 * ("query($a:".data ++ (c :: body) ++ '!' :: '!' :: tail).length + 63 =
      (16 * ("query($a:".data ++ (c :: body) ++ '!' :: '!' :: tail).length + 62) + 1
      by omega]
    rw [parseDefinition_query true _ _ ⟨.name "query", ⟨0, 1, 1⟩, ⟨4, 1, 5⟩⟩ rfl]
    rw [show 16 * ("query($a:".data ++ (c :: body) ++ '!' :: '!' :: tail).length + 62 =
      (16 * ("query($a:".data ++ (c :: body) ++ '!' :: '!' :: tail).length + 61) + 1
      by omega]
    rw [parseOperationDefinition_query_vds_error true _ _ _ _
      ⟨.leftParen, ⟨5, 1, 6⟩, ⟨5, 1, 6⟩⟩ _ rfl hlex2 rfl hvds]

/-- Skipping one ignored character composes with the rest of the
skip. -/
theorem skipIgnored_cons {c : Char} (h : isIgnoredChar c = true) (cs : List Char)
    (np lp : Position) :
    skipIgnored ⟨c :: cs, np, lp⟩ = skipIgnored ⟨cs, advancePos np c, np⟩ := by
  simp [skipIgnored, skipAux_cons_ignored h]

/-- Lexing is invariant under dropping one leading ignored
character. -/
theorem lexToken_ignored_cons {c : Char} (h : isIgnoredChar c = true) (cs : List Char)
    (np lp : Position) :
    lexToken ⟨c :: cs, np, lp⟩ = lexToken ⟨cs, advancePos np c, np⟩ := by
  simp only [lexToken, skipIgnored_cons h]

/-- A definition led by the `fragment` keyword parses as a fragment
definition. -/
theorem parseDefinition_fragment (il : Bool) (m : Nat) (cur : Cursor) (tok : Token)
    (hkind : tok.kind = .name "fragment") :
    parseDefinition il (m + 1) ⟨cur, some (some (.ok tok))⟩ =
      match parseFragmentDefinition il m ⟨cur, some (some (.ok tok))⟩ with
      | .ok (fd, s2) => .ok (.fragment fd, s2)
      | .error e => .error e := by
  rcases hfd : parseFragmentDefinition il m ⟨cur, some (some (.ok tok))⟩ with e | ⟨fd, s2⟩ <;>
    simp [parseDefinition_succ, parseDefinitionF, check, checkName, peek_cached,
      hkind, parseFragmentDefinition_proj, hfd]

/-- `parse_fragment_definition` rejects the fragment name `ok`: the
guard in `parse_fragment_name` fires and the error carries the `ok`
name token. -/
theorem parseFragmentDefinition_ok_error (il : Bool) (m : Nat) (cur : Cursor)
    (tokF tokOk : Token)
    (hkF : tokF.kind = .name "fragment")
    (hlex : (lexToken cur).1 = some (.ok tokOk))
    (hkOk : tokOk.kind = .name "ok") :
    parseFragmentDefinition il (m + 1) ⟨cur, some (some (.ok tokF))⟩ =
      .error (.unexpectedToken tokOk) := by
  simp [parseFragmentDefinition_succ, parseFragmentDefinitionF, expectName,
    nextTok, next_cached, hkF, parseFragmentName, checkName, peek_uncached,
    peekSt, hlex, hkOk, unexpected]

/-- The generic walk for the first half of claim C8: a fragment
definition whose name is `ok` fails with `UnexpectedToken` carrying
the `ok` name token, whatever follows it. -/
theorem parse_fragment_ok_error (rest : List Char) (hrest : notNameCont rest) :
    parse ("fragment ok".data ++ rest) =
      .error (.unexpectedToken ⟨.name "ok", ⟨9, 1, 10⟩, ⟨10, 1, 11⟩⟩) := by
  have hlexF : lexToken ⟨"fragment ok".data ++ rest, ⟨0, 1, 1⟩, ⟨0, 1, 1⟩⟩ =
      (some (.ok ⟨.name "fragment", ⟨0, 1, 1⟩, ⟨7, 1, 8⟩⟩),
       ⟨' ' :: 'o' :: 'k' :: rest, ⟨8, 1, 9⟩, ⟨7, 1, 8⟩⟩) := rfl
  have hlexOk : (lexToken ⟨' ' :: 'o' :: 'k' :: rest, ⟨8, 1, 9⟩, ⟨7, 1, 8⟩⟩).1 =
      some (.ok ⟨.name "ok", ⟨9, 1, 10⟩, ⟨10, 1, 11⟩⟩) := by
    rw [lexToken_ignored_cons (by decide),
      show advancePos ⟨8, 1, 9⟩ ' ' = (⟨9, 1, 10⟩ : Position) from rfl]
    have h3 : lexToken ⟨'o' :: 'k' :: rest, ⟨9, 1, 10⟩, ⟨8, 1, 9⟩⟩ =
        (some (.ok ⟨.name "ok", ⟨9, 1, 10⟩, ⟨10, 1, 11⟩⟩),
         ⟨rest, ⟨11, 1, 12⟩, ⟨10, 1, 11⟩⟩) :=
      lexToken_name 'o' ['k'] rest ⟨9, 1, 10⟩ ⟨8, 1, 9⟩ (by decide) (by decide) hrest
    rw [h3]
  have hmk : mkLexer ("fragment ok".data ++ rest) =
      ⟨⟨"fragment ok".data ++ rest, ⟨0, 1, 1⟩, ⟨0, 1, 1⟩⟩, none⟩ := rfl
  apply parse_error_step
  · rw [hmk, peek_uncached, hlexF]
    simp
  · rw [hmk, peek_uncached]
    simp only [peekSt, hlexF]
    rw [show 16 * ("fragment ok".data ++ rest).length + 63 =
      (16 * ("fragment ok".data ++ rest).length + 62) + 1 by omega]
    rw [parseDefinition_fragment true _ _ ⟨.name "fragment", ⟨0, 1, 1⟩, ⟨7, 1, 8⟩⟩ rfl]
    rw [show 16 * ("fragment ok".data ++ rest).length + 62 =
      (16 * ("fragment ok".data ++ rest).length + 61) + 1 by omega]
    rw [parseFragmentDefinition_ok_error true _ _ _ _ rfl hlexOk rfl]

/-- Claim C7: with the `type_system` extension disabled, an input whose
first definition begins with one of the keywords `schema`, `scalar`,
`type`, `interface`, `union`, `enum`, `input`, `extend` or `directive`
fails with `UnexpectedToken` carrying that keyword's token (the parser
returns an error value; it never panics).  The keyword is followed by
arbitrary text whose first character does not extend the name. -/
theorem claim_C7_type_system_keywords_error :
    ∀ kw : String,
      (kw = "schema" ∨ kw = "scalar" ∨ kw = "type" ∨ kw = "interface" ∨
       kw = "union" ∨ kw = "enum" ∨ kw = "input" ∨ kw = "extend" ∨
       kw = "directive") →
      ∀ rest : List Char, notNameCont rest →
      parse (kw.data ++ rest) =
        .error (.unexpectedToken ⟨.name kw, ⟨0, 1, 1⟩,
          ⟨kw.length - 1, 1, kw.length⟩⟩) := by
  intro kw hkw rest hrest
  rcases hkw with h | h | h | h | h | h | h | h | h <;> subst h
  · rw [show (⟨"schema".length - 1, 1, "schema".length⟩ : Position) =
      (⟨5, 1, 6⟩ : Position) from by decide]
    have h := parse_sdl_keyword_error "schema" 's' "chema".data rest rfl
      (by decide) (by decide) hrest (by simp)
    rw [show (advPair (advancePos ⟨0, 1, 1⟩ 's') ⟨0, 1, 1⟩ "chema".data).2 =
      (⟨5, 1, 6⟩ : Position) from by decide] at h
    exact h
  · rw [show (⟨"scalar".length - 1, 1, "scalar".length⟩ : Position) =
      (⟨5, 1, 6⟩ : Position) from by decide]
    have h := parse_sdl_keyword_error "scalar" 's' "calar".data rest rfl
      (by decide) (by decide) hrest (by simp)
    rw [show (advPair (advancePos ⟨0, 1, 1⟩ 's') ⟨0, 1, 1⟩ "calar".data).2 =
      (⟨5, 1, 6⟩ : Position) from by decide] at h
    exact h
  · rw [show (⟨"type".length - 1, 1, "type".length⟩ : Position) =
      (⟨3, 1, 4⟩ : Position) from by decide]
    have h := parse_sdl_keyword_error "type" 't' "ype".data rest rfl
      (by decide) (by decide) hrest (by simp)
    rw [show (advPair (advancePos ⟨0, 1, 1⟩ 't') ⟨0, 1, 1⟩ "ype".data).2 =
      (⟨3, 1, 4⟩ : Position) from by decide] at h
    exact h
  · rw [show (⟨"interface".length - 1, 1, "interface".length⟩ : Position) =
      (⟨8, 1, 9⟩ : Position) from by decide]
    have h := parse_sdl_keyword_error "interface" 'i' "nterface".data rest rfl
      (by decide) (by decide) hrest (by simp)
    rw [show (advPair (advancePos ⟨0, 1, 1⟩ 'i') ⟨0, 1, 1⟩ "nterface".data).2 =
      (⟨8, 1, 9⟩ : Position) from by decide] at h
    exact h
  · rw [show (⟨"union".length - 1, 1, "union".length⟩ : Position) =
      (⟨4, 1, 5⟩ : Position) from by decide]
    have h := parse_sdl_keyword_error "union" 'u' "nion".data rest rfl
      (by decide) (by decide) hrest (by simp)
    rw [show (advPair (advancePos ⟨0, 1, 1⟩ 'u') ⟨0, 1, 1⟩ "nion".data).2 =
      (⟨4, 1, 5⟩ : Position) from by decide] at h
    exact h
  · rw [show (⟨"enum".length - 1, 1, "enum".length⟩ : Position) =
      (⟨3, 1, 4⟩ : Position) from by decide]
    have h := parse_sdl_keyword_error "enum" 'e' "num".data rest rfl
      (by decide) (by decide) hrest (by simp)
    rw [show (advPair (advancePos ⟨0, 1, 1⟩ 'e') ⟨0, 1, 1⟩ "num".data).2 =
      (⟨3, 1, 4⟩ : Position) from by decide] at h
    exact h
  · rw [show (⟨"input".length - 1, 1, "input".length⟩ : Position) =
      (⟨4, 1, 5⟩ : Position) from by decide]
    have h := parse_sdl_keyword_error "input" 'i' "nput".data rest rfl
      (by decide) (by decide) hrest (by simp)
    rw [show (advPair (advancePos ⟨0, 1, 1⟩ 'i') ⟨0, 1, 1⟩ "nput".data).2 =
      (⟨4, 1, 5⟩ : Position) from by decide] at h
    exact h
  · rw [show (⟨"extend".length - 1, 1, "extend".length⟩ : Position) =
      (⟨5, 1, 6⟩ : Position) from by decide]
    have h := parse_sdl_keyword_error "extend" 'e' "xtend".data rest rfl
      (by decide) (by decide) hrest (by simp)
    rw [show (advPair (advancePos ⟨0, 1, 1⟩ 'e') ⟨0, 1, 1⟩ "xtend".data).2 =
      (⟨5, 1, 6⟩ : Position) from by decide] at h
    exact h
  · rw [show (⟨"directive".length - 1, 1, "directive".length⟩ : Position) =
      (⟨8, 1, 9⟩ : Position) from by decide]
    have h := parse_sdl_keyword_error "directive" 'd' "irective".data rest rfl
      (by decide) (by decide) hrest (by simp)
    rw [show (advPair (advancePos ⟨0, 1, 1⟩ 'd') ⟨0, 1, 1⟩ "irective".data).2 =
      (⟨8, 1, 9⟩ : Position) from by decide] at h
    exact h

/-- Claim C7 witness: the keyword `type` followed by a space. -/
theorem claim_C7_type_system_keywords_error_witness :
    parse ("type".data ++ " X".data) =
      .error (.unexpectedToken ⟨.name "type", ⟨0, 1, 1⟩, ⟨3, 1, 4⟩⟩) :=
  claim_C7_type_system_keywords_error "type" (by simp) " X".data (by decide)

/-- Claim C5: `parse` requires at least one definition.  The empty
input yields `UnexpectedEnding` at exactly position
`{index 0, line 1, column 1}`, and any input of only ignored
characters (whitespace, commas, byte-order marks) contains no
definitions and yields `UnexpectedEnding`. -/
theorem claim_C5_empty_document_rejection :
    parse "".data = .error (.unexpectedEnding ⟨0, 1, 1⟩) ∧
    ∀ cs : List Char, (∀ c ∈ cs, isIgnoredChar c = true) →
      ∃ p, parse cs = .error (.unexpectedEnding p) := by
  constructor
  · rfl
  · intro cs h
    obtain ⟨np2, lp2, hlex⟩ := lexToken_all_ignored cs ⟨0, 1, 1⟩ ⟨0, 1, 1⟩ h
    refine ⟨lp2, ?_⟩
    obtain ⟨n, hn⟩ : ∃ n, fuelFor cs = n + 1 := ⟨16 * cs.length + 63, rfl⟩
    simp only [parse, hn, parseDocument, parseDocumentLoop_succ,
      parseDocumentLoopF, mkLexer, peek_uncached, peekSt, hlex]
    rfl

/-- Claim C5 witness: a concrete all-ignored input. -/
theorem claim_C5_empty_document_rejection_witness :
    ∃ p, parse " \n,\t".data = .error (.unexpectedEnding p) :=
  claim_C5_empty_document_rejection.2 " \n,\t".data (by decide)

/-!
Lemmas for the parallel visitor: threading over an appended visitor
list factors through the two halves, forwards for enter, backwards for
leave.
-/

theorem parallelEnter_append (hook : Visitor → α → α) (vs₁ vs₂ : List Visitor) (x : α) :
    parallelEnter hook (vs₁ ++ vs₂) x =
      parallelEnter hook vs₂ (parallelEnter hook vs₁ x) := by
  simp [parallelEnter, List.foldl_append]

theorem parallelLeave_append (hook : Visitor → α → α) (vs₁ vs₂ : List Visitor) (x : α) :
    parallelLeave hook (vs₁ ++ vs₂) x =
      parallelLeave hook vs₁ (parallelLeave hook vs₂ x) := by
  simp [parallelLeave, List.reverse_append, List.foldl_append]


/-- Claim C6: parallel-visitor ordering.  For every node type, the
composite enter hook of a `ParallelVisitor` threads the node through
the sub-visitors' enter hooks first to last (splitting the visitor
list anywhere shows each later visitor receives the node as rewritten
by the earlier ones), and the composite leave hook threads the node in
exactly the reverse order; for two visitors `A` and `B` this is enter
`A` then `B` and leave `B` then `A`. -/
theorem claim_C6_parallel_visitor_ordering (vs₁ vs₂ : List Visitor) (A B : Visitor) :
    ((∀ x : Name, (parallelVisitor (vs₁ ++ vs₂)).enter_name x =
        (parallelVisitor vs₂).enter_name ((parallelVisitor vs₁).enter_name x)) ∧
     (∀ x : Name, (parallelVisitor (vs₁ ++ vs₂)).leave_name x =
        (parallelVisitor vs₁).leave_name ((parallelVisitor vs₂).leave_name x)) ∧
     (∀ x : Name, (parallelVisitor [A, B]).enter_name x = B.enter_name (A.enter_name x)) ∧
     (∀ x : Name, (parallelVisitor [A, B]).leave_name x = A.leave_name (B.leave_name x))) ∧
    ((∀ x : Document, (parallelVisitor (vs₁ ++ vs₂)).enter_document x =
        (parallelVisitor vs₂).enter_document ((parallelVisitor vs₁).enter_document x)) ∧
     (∀ x : Document, (parallelVisitor (vs₁ ++ vs₂)).leave_document x =
        (parallelVisitor vs₁).leave_document ((parallelVisitor vs₂).leave_document x)) ∧
     (∀ x : Document, (parallelVisitor [A, B]).enter_document x = B.enter_document (A.enter_document x)) ∧
     (∀ x : Document, (parallelVisitor [A, B]).leave_document x = A.leave_document (B.leave_document x))) ∧
    ((∀ x : Definition, (parallelVisitor (vs₁ ++ vs₂)).enter_definition x =
        (parallelVisitor vs₂).enter_definition ((parallelVisitor vs₁).enter_definition x)) ∧
     (∀ x : Definition, (parallelVisitor (vs₁ ++ vs₂)).leave_definition x =
        (parallelVisitor vs₁).leave_definition ((parallelVisitor vs₂).leave_definition x)) ∧
     (∀ x : Definition, (parallelVisitor [A, B]).enter_definition x = B.enter_definition (A.enter_definition x)) ∧
     (∀ x : Definition, (parallelVisitor [A, B]).leave_definition x = A.leave_definition (B.leave_definition x))) ∧
    ((∀ x : OperationDefinition, (parallelVisitor (vs₁ ++ vs₂)).enter_operation_definition x =
        (parallelVisitor vs₂).enter_operation_definition ((parallelVisitor vs₁).enter_operation_definition x)) ∧
     (∀ x : OperationDefinition, (parallelVisitor (vs₁ ++ vs₂)).leave_operation_definition x =
        (parallelVisitor vs₁).leave_operation_definition ((parallelVisitor vs₂).leave_operation_definition x)) ∧
     (∀ x : OperationDefinition, (parallelVisitor [A, B]).enter_operation_definition x = B.enter_operation_definition (A.enter_operation_definition x)) ∧
     (∀ x : OperationDefinition, (parallelVisitor [A, B]).leave_operation_definition x = A.leave_operation_definition (B.leave_operation_definition x))) ∧
    ((∀ x : VariableDefinition, (parallelVisitor (vs₁ ++ vs₂)).enter_variable_definition x =
        (parallelVisitor vs₂).enter_variable_definition ((parallelVisitor vs₁).enter_variable_definition x)) ∧
     (∀ x : VariableDefinition, (parallelVisitor (vs₁ ++ vs₂)).leave_variable_definition x =
        (parallelVisitor vs₁).leave_variable_definition ((parallelVisitor vs₂).leave_variable_definition x)) ∧
     (∀ x : VariableDefinition, (parallelVisitor [A, B]).enter_variable_definition x = B.enter_variable_definition (A.enter_variable_definition x)) ∧
     (∀ x : VariableDefinition, (parallelVisitor [A, B]).leave_variable_definition x = A.leave_variable_definition (B.leave_variable_definition x))) ∧
    ((∀ x : Variable, (parallelVisitor (vs₁ ++ vs₂)).enter_variable x =
        (parallelVisitor vs₂).enter_variable ((parallelVisitor vs₁).enter_variable x)) ∧
     (∀ x : Variable, (parallelVisitor (vs₁ ++ vs₂)).leave_variable x =
        (parallelVisitor vs₁).leave_variable ((parallelVisitor vs₂).leave_variable x)) ∧
     (∀ x : Variable, (parallelVisitor [A, B]).enter_variable x = B.enter_variable (A.enter_variable x)) ∧
     (∀ x : Variable, (parallelVisitor [A, B]).leave_variable x = A.leave_variable (B.leave_variable x))) ∧
    ((∀ x : SelectionSet, (parallelVisitor (vs₁ ++ vs₂)).enter_selection_set x =
        (parallelVisitor vs₂).enter_selection_set ((parallelVisitor vs₁).enter_selection_set x)) ∧
     (∀ x : SelectionSet, (parallelVisitor (vs₁ ++ vs₂)).leave_selection_set x =
        (parallelVisitor vs₁).leave_selection_set ((parallelVisitor vs₂).leave_selection_set x)) ∧
     (∀ x : SelectionSet, (parallelVisitor [A, B]).enter_selection_set x = B.enter_selection_set (A.enter_selection_set x)) ∧
     (∀ x : SelectionSet, (parallelVisitor [A, B]).leave_selection_set x = A.leave_selection_set (B.leave_selection_set x))) ∧
    ((∀ x : Selection, (parallelVisitor (vs₁ ++ vs₂)).enter_selection x =
        (parallelVisitor vs₂).enter_selection ((parallelVisitor vs₁).enter_selection x)) ∧
     (∀ x : Selection, (parallelVisitor (vs₁ ++ vs₂)).leave_selection x =
        (parallelVisitor vs₁).leave_selection ((parallelVisitor vs₂).leave_selection x)) ∧
     (∀ x : Selection, (parallelVisitor [A, B]).enter_selection x = B.enter_selection (A.enter_selection x)) ∧
     (∀ x : Selection, (parallelVisitor [A, B]).leave_selection x = A.leave_selection (B.leave_selection x))) ∧
    ((∀ x : Field, (parallelVisitor (vs₁ ++ vs₂)).enter_field x =
        (parallelVisitor vs₂).enter_field ((parallelVisitor vs₁).enter_field x)) ∧
     (∀ x : Field, (parallelVisitor (vs₁ ++ vs₂)).leave_field x =
        (parallelVisitor vs₁).leave_field ((parallelVisitor vs₂).leave_field x)) ∧
     (∀ x : Field, (parallelVisitor [A, B]).enter_field x = B.enter_field (A.enter_field x)) ∧
     (∀ x : Field, (parallelVisitor [A, B]).leave_field x = A.leave_field (B.leave_field x))) ∧
    ((∀ x : Argument, (parallelVisitor (vs₁ ++ vs₂)).enter_argument x =
        (parallelVisitor vs₂).enter_argument ((parallelVisitor vs₁).enter_argument x)) ∧
     (∀ x : Argument, (parallelVisitor (vs₁ ++ vs₂)).leave_argument x =
        (parallelVisitor vs₁).leave_argument ((parallelVisitor vs₂).leave_argument x)) ∧
     (∀ x : Argument, (parallelVisitor [A, B]).enter_argument x = B.enter_argument (A.enter_argument x)) ∧
     (∀ x : Argument, (parallelVisitor [A, B]).leave_argument x = A.leave_argument (B.leave_argument x))) ∧
    ((∀ x : FragmentSpread, (parallelVisitor (vs₁ ++ vs₂)).enter_fragment_spread x =
        (parallelVisitor vs₂).enter_fragment_spread ((parallelVisitor vs₁).enter_fragment_spread x)) ∧
     (∀ x : FragmentSpread, (parallelVisitor (vs₁ ++ vs₂)).leave_fragment_spread x =
        (parallelVisitor vs₁).leave_fragment_spread ((parallelVisitor vs₂).leave_fragment_spread x)) ∧
     (∀ x : FragmentSpread, (parallelVisitor [A, B]).enter_fragment_spread x = B.enter_fragment_spread (A.enter_fragment_spread x)) ∧
     (∀ x : FragmentSpread, (parallelVisitor [A, B]).leave_fragment_spread x = A.leave_fragment_spread (B.leave_fragment_spread x))) ∧
    ((∀ x : InlineFragment, (parallelVisitor (vs₁ ++ vs₂)).enter_inline_fragment x =
        (parallelVisitor vs₂).enter_inline_fragment ((parallelVisitor vs₁).enter_inline_fragment x)) ∧
     (∀ x : InlineFragment, (parallelVisitor (vs₁ ++ vs₂)).leave_inline_fragment x =
        (parallelVisitor vs₁).leave_inline_fragment ((parallelVisitor vs₂).leave_inline_fragment x)) ∧
     (∀ x : InlineFragment, (parallelVisitor [A, B]).enter_inline_fragment x = B.enter_inline_fragment (A.enter_inline_fragment x)) ∧
     (∀ x : InlineFragment, (parallelVisitor [A, B]).leave_inline_fragment x = A.leave_inline_fragment (B.leave_inline_fragment x))) ∧
    ((∀ x : FragmentDefinition, (parallelVisitor (vs₁ ++ vs₂)).enter_fragment_definition x =
        (parallelVisitor vs₂).enter_fragment_definition ((parallelVisitor vs₁).enter_fragment_definition x)) ∧
     (∀ x : FragmentDefinition, (parallelVisitor (vs₁ ++ vs₂)).leave_fragment_definition x =
        (parallelVisitor vs₁).leave_fragment_definition ((parallelVisitor vs₂).leave_fragment_definition x)) ∧
     (∀ x : FragmentDefinition, (parallelVisitor [A, B]).enter_fragment_definition x = B.enter_fragment_definition (A.enter_fragment_definition x)) ∧
     (∀ x : FragmentDefinition, (parallelVisitor [A, B]).leave_fragment_definition x = A.leave_fragment_definition (B.leave_fragment_definition x))) ∧
    ((∀ x : Value, (parallelVisitor (vs₁ ++ vs₂)).enter_value x =
        (parallelVisitor vs₂).enter_value ((parallelVisitor vs₁).enter_value x)) ∧
     (∀ x : Value, (parallelVisitor (vs₁ ++ vs₂)).leave_value x =
        (parallelVisitor vs₁).leave_value ((parallelVisitor vs₂).leave_value x)) ∧
     (∀ x : Value, (parallelVisitor [A, B]).enter_value x = B.enter_value (A.enter_value x)) ∧
     (∀ x : Value, (parallelVisitor [A, B]).leave_value x = A.leave_value (B.leave_value x))) ∧
    ((∀ x : IntValue, (parallelVisitor (vs₁ ++ vs₂)).enter_int_value x =
        (parallelVisitor vs₂).enter_int_value ((parallelVisitor vs₁).enter_int_value x)) ∧
     (∀ x : IntValue, (parallelVisitor (vs₁ ++ vs₂)).leave_int_value x =
        (parallelVisitor vs₁).leave_int_value ((parallelVisitor vs₂).leave_int_value x)) ∧
     (∀ x : IntValue, (parallelVisitor [A, B]).enter_int_value x = B.enter_int_value (A.enter_int_value x)) ∧
     (∀ x : IntValue, (parallelVisitor [A, B]).leave_int_value x = A.leave_int_value (B.leave_int_value x))) ∧
    ((∀ x : FloatValue, (parallelVisitor (vs₁ ++ vs₂)).enter_float_value x =
        (parallelVisitor vs₂).enter_float_value ((parallelVisitor vs₁).enter_float_value x)) ∧
     (∀ x : FloatValue, (parallelVisitor (vs₁ ++ vs₂)).leave_float_value x =
        (parallelVisitor vs₁).leave_float_value ((parallelVisitor vs₂).leave_float_value x)) ∧
     (∀ x : FloatValue, (parallelVisitor [A, B]).enter_float_value x = B.enter_float_value (A.enter_float_value x)) ∧
     (∀ x : FloatValue, (parallelVisitor [A, B]).leave_float_value x = A.leave_float_value (B.leave_float_value x))) ∧
    ((∀ x : StringValue, (parallelVisitor (vs₁ ++ vs₂)).enter_string_value x =
        (parallelVisitor vs₂).enter_string_value ((parallelVisitor vs₁).enter_string_value x)) ∧
     (∀ x : StringValue, (parallelVisitor (vs₁ ++ vs₂)).leave_string_value x =
        (parallelVisitor vs₁).leave_string_value ((parallelVisitor vs₂).leave_string_value x)) ∧
     (∀ x : StringValue, (parallelVisitor [A, B]).enter_string_value x = B.enter_string_value (A.enter_string_value x)) ∧
     (∀ x : StringValue, (parallelVisitor [A, B]).leave_string_value x = A.leave_string_value (B.leave_string_value x))) ∧
    ((∀ x : BooleanValue, (parallelVisitor (vs₁ ++ vs₂)).enter_boolean_value x =
        (parallelVisitor vs₂).enter_boolean_value ((parallelVisitor vs₁).enter_boolean_value x)) ∧
     (∀ x : BooleanValue, (parallelVisitor (vs₁ ++ vs₂)).leave_boolean_value x =
        (parallelVisitor vs₁).leave_boolean_value ((parallelVisitor vs₂).leave_boolean_value x)) ∧
     (∀ x : BooleanValue, (parallelVisitor [A, B]).enter_boolean_value x = B.enter_boolean_value (A.enter_boolean_value x)) ∧
     (∀ x : BooleanValue, (parallelVisitor [A, B]).leave_boolean_value x = A.leave_boolean_value (B.leave_boolean_value x))) ∧
    ((∀ x : NullValue, (parallelVisitor (vs₁ ++ vs₂)).enter_null_value x =
        (parallelVisitor vs₂).enter_null_value ((parallelVisitor vs₁).enter_null_value x)) ∧
     (∀ x : NullValue, (parallelVisitor (vs₁ ++ vs₂)).leave_null_value x =
        (parallelVisitor vs₁).leave_null_value ((parallelVisitor vs₂).leave_null_value x)) ∧
     (∀ x : NullValue, (parallelVisitor [A, B]).enter_null_value x = B.enter_null_value (A.enter_null_value x)) ∧
     (∀ x : NullValue, (parallelVisitor [A, B]).leave_null_value x = A.leave_null_value (B.leave_null_value x))) ∧
    ((∀ x : EnumValue, (parallelVisitor (vs₁ ++ vs₂)).enter_enum_value x =
        (parallelVisitor vs₂).enter_enum_value ((parallelVisitor vs₁).enter_enum_value x)) ∧
     (∀ x : EnumValue, (parallelVisitor (vs₁ ++ vs₂)).leave_enum_value x =
        (parallelVisitor vs₁).leave_enum_value ((parallelVisitor vs₂).leave_enum_value x)) ∧
     (∀ x : EnumValue, (parallelVisitor [A, B]).enter_enum_value x = B.enter_enum_value (A.enter_enum_value x)) ∧
     (∀ x : EnumValue, (parallelVisitor [A, B]).leave_enum_value x = A.leave_enum_value (B.leave_enum_value x))) ∧
    ((∀ x : ListValue, (parallelVisitor (vs₁ ++ vs₂)).enter_list_value x =
        (parallelVisitor vs₂).enter_list_value ((parallelVisitor vs₁).enter_list_value x)) ∧
     (∀ x : ListValue, (parallelVisitor (vs₁ ++ vs₂)).leave_list_value x =
        (parallelVisitor vs₁).leave_list_value ((parallelVisitor vs₂).leave_list_value x)) ∧
     (∀ x : ListValue, (parallelVisitor [A, B]).enter_list_value x = B.enter_list_value (A.enter_list_value x)) ∧
     (∀ x : ListValue, (parallelVisitor [A, B]).leave_list_value x = A.leave_list_value (B.leave_list_value x))) ∧
    ((∀ x : ObjectValue, (parallelVisitor (vs₁ ++ vs₂)).enter_object_value x =
        (parallelVisitor vs₂).enter_object_value ((parallelVisitor vs₁).enter_object_value x)) ∧
     (∀ x : ObjectValue, (parallelVisitor (vs₁ ++ vs₂)).leave_object_value x =
        (parallelVisitor vs₁).leave_object_value ((parallelVisitor vs₂).leave_object_value x)) ∧
     (∀ x : ObjectValue, (parallelVisitor [A, B]).enter_object_value x = B.enter_object_value (A.enter_object_value x)) ∧
     (∀ x : ObjectValue, (parallelVisitor [A, B]).leave_object_value x = A.leave_object_value (B.leave_object_value x))) ∧
    ((∀ x : ObjectField, (parallelVisitor (vs₁ ++ vs₂)).enter_object_field x =
        (parallelVisitor vs₂).enter_object_field ((parallelVisitor vs₁).enter_object_field x)) ∧
     (∀ x : ObjectField, (parallelVisitor (vs₁ ++ vs₂)).leave_object_field x =
        (parallelVisitor vs₁).leave_object_field ((parallelVisitor vs₂).leave_object_field x)) ∧
     (∀ x : ObjectField, (parallelVisitor [A, B]).enter_object_field x = B.enter_object_field (A.enter_object_field x)) ∧
     (∀ x : ObjectField, (parallelVisitor [A, B]).leave_object_field x = A.leave_object_field (B.leave_object_field x))) ∧
    ((∀ x : Directive, (parallelVisitor (vs₁ ++ vs₂)).enter_directive x =
        (parallelVisitor vs₂).enter_directive ((parallelVisitor vs₁).enter_directive x)) ∧
     (∀ x : Directive, (parallelVisitor (vs₁ ++ vs₂)).leave_directive x =
        (parallelVisitor vs₁).leave_directive ((parallelVisitor vs₂).leave_directive x)) ∧
     (∀ x : Directive, (parallelVisitor [A, B]).enter_directive x = B.enter_directive (A.enter_directive x)) ∧
     (∀ x : Directive, (parallelVisitor [A, B]).leave_directive x = A.leave_directive (B.leave_directive x))) ∧
    ((∀ x : Typ, (parallelVisitor (vs₁ ++ vs₂)).enter_type x =
        (parallelVisitor vs₂).enter_type ((parallelVisitor vs₁).enter_type x)) ∧
     (∀ x : Typ, (parallelVisitor (vs₁ ++ vs₂)).leave_type x =
        (parallelVisitor vs₁).leave_type ((parallelVisitor vs₂).leave_type x)) ∧
     (∀ x : Typ, (parallelVisitor [A, B]).enter_type x = B.enter_type (A.enter_type x)) ∧
     (∀ x : Typ, (parallelVisitor [A, B]).leave_type x = A.leave_type (B.leave_type x))) ∧
    ((∀ x : NullableType, (parallelVisitor (vs₁ ++ vs₂)).enter_nullable_type x =
        (parallelVisitor vs₂).enter_nullable_type ((parallelVisitor vs₁).enter_nullable_type x)) ∧
     (∀ x : NullableType, (parallelVisitor (vs₁ ++ vs₂)).leave_nullable_type x =
        (parallelVisitor vs₁).leave_nullable_type ((parallelVisitor vs₂).leave_nullable_type x)) ∧
     (∀ x : NullableType, (parallelVisitor [A, B]).enter_nullable_type x = B.enter_nullable_type (A.enter_nullable_type x)) ∧
     (∀ x : NullableType, (parallelVisitor [A, B]).leave_nullable_type x = A.leave_nullable_type (B.leave_nullable_type x))) ∧
    ((∀ x : NamedType, (parallelVisitor (vs₁ ++ vs₂)).enter_named_type x =
        (parallelVisitor vs₂).enter_named_type ((parallelVisitor vs₁).enter_named_type x)) ∧
     (∀ x : NamedType, (parallelVisitor (vs₁ ++ vs₂)).leave_named_type x =
        (parallelVisitor vs₁).leave_named_type ((parallelVisitor vs₂).leave_named_type x)) ∧
     (∀ x : NamedType, (parallelVisitor [A, B]).enter_named_type x = B.enter_named_type (A.enter_named_type x)) ∧
     (∀ x : NamedType, (parallelVisitor [A, B]).leave_named_type x = A.leave_named_type (B.leave_named_type x))) ∧
    ((∀ x : ListType, (parallelVisitor (vs₁ ++ vs₂)).enter_list_type x =
        (parallelVisitor vs₂).enter_list_type ((parallelVisitor vs₁).enter_list_type x)) ∧
     (∀ x : ListType, (parallelVisitor (vs₁ ++ vs₂)).leave_list_type x =
        (parallelVisitor vs₁).leave_list_type ((parallelVisitor vs₂).leave_list_type x)) ∧
     (∀ x : ListType, (parallelVisitor [A, B]).enter_list_type x = B.enter_list_type (A.enter_list_type x)) ∧
     (∀ x : ListType, (parallelVisitor [A, B]).leave_list_type x = A.leave_list_type (B.leave_list_type x))) ∧
    ((∀ x : NonNullType, (parallelVisitor (vs₁ ++ vs₂)).enter_non_null_type x =
        (parallelVisitor vs₂).enter_non_null_type ((parallelVisitor vs₁).enter_non_null_type x)) ∧
     (∀ x : NonNullType, (parallelVisitor (vs₁ ++ vs₂)).leave_non_null_type x =
        (parallelVisitor vs₁).leave_non_null_type ((parallelVisitor vs₂).leave_non_null_type x)) ∧
     (∀ x : NonNullType, (parallelVisitor [A, B]).enter_non_null_type x = B.enter_non_null_type (A.enter_non_null_type x)) ∧
     (∀ x : NonNullType, (parallelVisitor [A, B]).leave_non_null_type x = A.leave_non_null_type (B.leave_non_null_type x))) :=
  ⟨⟨fun x => parallelEnter_append (·.enter_name) vs₁ vs₂ x,
    fun x => parallelLeave_append (·.leave_name) vs₁ vs₂ x,
    fun _ => rfl, fun _ => rfl⟩,
   ⟨fun x => parallelEnter_append (·.enter_document) vs₁ vs₂ x,
    fun x => parallelLeave_append (·.leave_document) vs₁ vs₂ x,
    fun _ => rfl, fun _ => rfl⟩,
   ⟨fun x => parallelEnter_append (·.enter_definition) vs₁ vs₂ x,
    fun x => parallelLeave_append (·.leave_definition) vs₁ vs₂ x,
    fun _ => rfl, fun _ => rfl⟩,
   ⟨fun x => parallelEnter_append (·.enter_operation_definition) vs₁ vs₂ x,
    fun x => parallelLeave_append (·.leave_operation_definition) vs₁ vs₂ x,
    fun _ => rfl, fun _ => rfl⟩,
   ⟨fun x => parallelEnter_append (·.enter_variable_definition) vs₁ vs₂ x,
    fun x => parallelLeave_append (·.leave_variable_definition) vs₁ vs₂ x,
    fun _ => rfl, fun _ => rfl⟩,
   ⟨fun x => parallelEnter_append (·.enter_variable) vs₁ vs₂ x,
    fun x => parallelLeave_append (·.leave_variable) vs₁ vs₂ x,
    fun _ => rfl, fun _ => rfl⟩,
   ⟨fun x => parallelEnter_append (·.enter_selection_set) vs₁ vs₂ x,
    fun x => parallelLeave_append (·.leave_selection_set) vs₁ vs₂ x,
    fun _ => rfl, fun _ => rfl⟩,
   ⟨fun x => parallelEnter_append (·.enter_selection) vs₁ vs₂ x,
    fun x => parallelLeave_append (·.leave_selection) vs₁ vs₂ x,
    fun _ => rfl, fun _ => rfl⟩,
   ⟨fun x => parallelEnter_append (·.enter_field) vs₁ vs₂ x,
    fun x => parallelLeave_append (·.leave_field) vs₁ vs₂ x,
    fun _ => rfl, fun _ => rfl⟩,
   ⟨fun x => parallelEnter_append (·.enter_argument) vs₁ vs₂ x,
    fun x => parallelLeave_append (·.leave_argument) vs₁ vs₂ x,
    fun _ => rfl, fun _ => rfl⟩,
   ⟨fun x => parallelEnter_append (·.enter_fragment_spread) vs₁ vs₂ x,
    fun x => parallelLeave_append (·.leave_fragment_spread) vs₁ vs₂ x,
    fun _ => rfl, fun _ => rfl⟩,
   ⟨fun x => parallelEnter_append (·.enter_inline_fragment) vs₁ vs₂ x,
    fun x => parallelLeave_append (·.leave_inline_fragment) vs₁ vs₂ x,
    fun _ => rfl, fun _ => rfl⟩,
   ⟨fun x => parallelEnter_append (·.enter_fragment_definition) vs₁ vs₂ x,
    fun x => parallelLeave_append (·.leave_fragment_definition) vs₁ vs₂ x,
    fun _ => rfl, fun _ => rfl⟩,
   ⟨fun x => parallelEnter_append (·.enter_value) vs₁ vs₂ x,
    fun x => parallelLeave_append (·.leave_value) vs₁ vs₂ x,
    fun _ => rfl, fun _ => rfl⟩,
   ⟨fun x => parallelEnter_append (·.enter_int_value) vs₁ vs₂ x,
    fun x => parallelLeave_append (·.leave_int_value) vs₁ vs₂ x,
    fun _ => rfl, fun _ => rfl⟩,
   ⟨fun x => parallelEnter_append (·.enter_float_value) vs₁ vs₂ x,
    fun x => parallelLeave_append (·.leave_float_value) vs₁ vs₂ x,
    fun _ => rfl, fun _ => rfl⟩,
   ⟨fun x => parallelEnter_append (·.enter_string_value) vs₁ vs₂ x,
    fun x => parallelLeave_append (·.leave_string_value) vs₁ vs₂ x,
    fun _ => rfl, fun _ => rfl⟩,
   ⟨fun x => parallelEnter_append (·.enter_boolean_value) vs₁ vs₂ x,
    fun x => parallelLeave_append (·.leave_boolean_value) vs₁ vs₂ x,
    fun _ => rfl, fun _ => rfl⟩,
   ⟨fun x => parallelEnter_append (·.enter_null_value) vs₁ vs₂ x,
    fun x => parallelLeave_append (·.leave_null_value) vs₁ vs₂ x,
    fun _ => rfl, fun _ => rfl⟩,
   ⟨fun x => parallelEnter_append (·.enter_enum_value) vs₁ vs₂ x,
    fun x => parallelLeave_append (·.leave_enum_value) vs₁ vs₂ x,
    fun _ => rfl, fun _ => rfl⟩,
   ⟨fun x => parallelEnter_append (·.enter_list_value) vs₁ vs₂ x,
    fun x => parallelLeave_append (·.leave_list_value) vs₁ vs₂ x,
    fun _ => rfl, fun _ => rfl⟩,
   ⟨fun x => parallelEnter_append (·.enter_object_value) vs₁ vs₂ x,
    fun x => parallelLeave_append (·.leave_object_value) vs₁ vs₂ x,
    fun _ => rfl, fun _ => rfl⟩,
   ⟨fun x => parallelEnter_append (·.enter_object_field) vs₁ vs₂ x,
    fun x => parallelLeave_append (·.leave_object_field) vs₁ vs₂ x,
    fun _ => rfl, fun _ => rfl⟩,
   ⟨fun x => parallelEnter_append (·.enter_directive) vs₁ vs₂ x,
    fun x => parallelLeave_append (·.leave_directive) vs₁ vs₂ x,
    fun _ => rfl, fun _ => rfl⟩,
   ⟨fun x => parallelEnter_append (·.enter_type) vs₁ vs₂ x,
    fun x => parallelLeave_append (·.leave_type) vs₁ vs₂ x,
    fun _ => rfl, fun _ => rfl⟩,
   ⟨fun x => parallelEnter_append (·.enter_nullable_type) vs₁ vs₂ x,
    fun x => parallelLeave_append (·.leave_nullable_type) vs₁ vs₂ x,
    fun _ => rfl, fun _ => rfl⟩,
   ⟨fun x => parallelEnter_append (·.enter_named_type) vs₁ vs₂ x,
    fun x => parallelLeave_append (·.leave_named_type) vs₁ vs₂ x,
    fun _ => rfl, fun _ => rfl⟩,
   ⟨fun x => parallelEnter_append (·.enter_list_type) vs₁ vs₂ x,
    fun x => parallelLeave_append (·.leave_list_type) vs₁ vs₂ x,
    fun _ => rfl, fun _ => rfl⟩,
   ⟨fun x => parallelEnter_append (·.enter_non_null_type) vs₁ vs₂ x,
    fun x => parallelLeave_append (·.leave_non_null_type) vs₁ vs₂ x,
    fun _ => rfl, fun _ => rfl⟩⟩

/-- `Parser::check` when the next token is anything but the requested
kind (a different token, a lexer error, or end of input): `false`, and
only the peek cache changes. -/
theorem check_no (kind : TokenKind) (s : LexerState)
    (h : ∀ t, (Lexer.peek s).1 = some (.ok t) → t.kind ≠ kind) :
    check kind s = (false, (Lexer.peek s).2) := by
  rw [check]
  rcases hp : Lexer.peek s with ⟨r, s1⟩
  rcases r with _ | r2
  · rfl
  rcases r2 with e | t
  · rfl
  · have ht := h t (by rw [hp])
    simp [ht]

/-- `Parser::parse_directives` when the next token is not `@`: no
error, the empty list, and only the peek cache changes. -/
theorem parseDirectives_no_at (il : Bool) (n : Nat) (s : LexerState)
    (h : ∀ t, (Lexer.peek s).1 = some (.ok t) → t.kind ≠ .atSign) :
    parseDirectives il (n + 1) s = .ok ([], (Lexer.peek s).2) := by
  simp [parseDirectives_succ, parseDirectivesF, check_no .atSign s h]

/-- `Parser::parse_directives` led by `@`: one directive
(`@ Name Arguments?`, by `parse_directive`) followed by the remaining
directives. -/
theorem parseDirectives_at_cons (il : Bool) (n : Nat) (s : LexerState) (t : Token)
    (hpk : (Lexer.peek s).1 = some (.ok t)) (hk : t.kind = .atSign) :
    parseDirectives il (n + 1) s =
      match parseDirective il n (Lexer.peek s).2 with
      | .ok (d, s2) =>
        (match parseDirectives il n s2 with
         | .ok (ds, s3) => .ok (d :: ds, s3)
         | .error e => .error e)
      | .error e => .error e := by
  rcases hd : parseDirective il n (Lexer.peek s).2 with e | ⟨d, s2⟩
  · simp [parseDirectives_succ, parseDirectivesF, check_ok .atSign s t hpk, hk,
      parseDirective_proj, hd]
  · rcases hds : parseDirectives il n s2 with e2 | ⟨ds, s3⟩ <;>
      simp [parseDirectives_succ, parseDirectivesF, check_ok .atSign s t hpk, hk,
        parseDirective_proj, parseDirectives_proj, hd, hds]

/-- Claim C4: every delimited list production that `many` runs with
`allow_none = false` rejects an empty list with `unexpectedToken`
carrying the *closing* punctuator's token — not the opening one and
not end-of-input — whenever the closing token immediately follows the
opening token; concretely, the non-empty list positions (selection
sets, variable-definition lists, argument lists) make the inputs
`{}`, `query ()` and `{ foo() }` fail this way, each reporting the
closing token at the closing character's position. -/
theorem claim_C4_empty_list_rejection :
    (∀ (α : Type) (parseFn : LexerState → Except Error (α × LexerState))
       (start stop : TokenKind) (fuel : Nat) (s s1 : LexerState) (t : Token),
       expect start s = .ok s1 →
       (Lexer.peek s1).1 = some (.ok t) → t.kind = stop →
       many parseFn start stop false (fuel + 1) s = .error (.unexpectedToken t)) ∧
    parse "\x7b\x7d".data =
      .error (.unexpectedToken ⟨.rightBrace, ⟨1, 1, 2⟩, ⟨1, 1, 2⟩⟩) ∧
    parse "query ()".data =
      .error (.unexpectedToken ⟨.rightParen, ⟨7, 1, 8⟩, ⟨7, 1, 8⟩⟩) ∧
    parse "\x7b foo() \x7d".data =
      .error (.unexpectedToken ⟨.rightParen, ⟨6, 1, 7⟩, ⟨6, 1, 7⟩⟩) :=
  ⟨fun _ parseFn start stop fuel s s1 t hex hpk ht =>
    many_empty_stop parseFn start stop fuel s s1 t hex hpk ht,
   by rfl, by rfl, by rfl⟩

/-- Claim C4 witness: the general `many` statement instantiated on the
selection-set production over the input `{}`. -/
theorem claim_C4_empty_list_rejection_witness :
    many (fun s => parseName true s) .leftBrace .rightBrace false 5
        (mkLexer "\x7b\x7d".data) =
      .error (.unexpectedToken ⟨.rightBrace, ⟨1, 1, 2⟩, ⟨1, 1, 2⟩⟩) :=
  claim_C4_empty_list_rejection.1 Name (fun s => parseName true s)
    .leftBrace .rightBrace 4 (mkLexer "\x7b\x7d".data)
    ⟨⟨"\x7d".data, ⟨1, 1, 2⟩, ⟨0, 1, 1⟩⟩, none⟩
    ⟨.rightBrace, ⟨1, 1, 2⟩, ⟨1, 1, 2⟩⟩ (by rfl) (by rfl) rfl

/-- Claim C3: the non-null typing invariant.  A `NonNullType`'s inner
type is by construction a `NullableType` — a named or a list type,
never another non-null type — and for every valid name `Foo` (a
name-start character followed by name characters), parsing a document
containing the type reference `Foo!!` fails with `UnexpectedToken`
carrying the second `!` Bang token. -/
theorem claim_C3_non_null_invariant :
    (∀ nn : NonNullType,
      (∃ loc nt, nn = .mk loc (.named nt)) ∨ (∃ loc lt, nn = .mk loc (.list lt))) ∧
    (∀ (c : Char) (body tail : List Char),
      isNameStart c = true → (∀ x ∈ body, isNameChar x = true) →
      parse ("query($a:".data ++ (c :: body) ++ '!' :: '!' :: tail) =
        .error (.unexpectedToken ⟨.bang,
          ⟨11 + body.length, 1, 12 + body.length⟩,
          ⟨11 + body.length, 1, 12 + body.length⟩⟩)) := by
  constructor
  · intro nn
    rcases nn with ⟨loc, nt | lt⟩
    · exact Or.inl ⟨loc, nt, rfl⟩
    · exact Or.inr ⟨loc, lt, rfl⟩
  · intro c body tail hc hb
    exact parse_double_bang_error c body tail hc hb

/-- Claim C3 witness: the type reference `Foo!!` inside a concrete
document, failing at the second `!`. -/
theorem claim_C3_non_null_invariant_witness :
    parse ("query($a:".data ++ ('F' :: "oo".data) ++ '!' :: '!' :: "){b}".data) =
      .error (.unexpectedToken ⟨.bang, ⟨13, 1, 14⟩, ⟨13, 1, 14⟩⟩) :=
  claim_C3_non_null_invariant.2 'F' "oo".data "){b}".data (by decide) (by decide)

/-- Claim C9: directive lists are zero-or-more everywhere.  When the
next token is not `@` (or is a lexer error or end of input),
`parse_directives` returns `Ok` with the empty list without consuming
anything (only the peek cache changes); when the next token is `@` it
parses one `@ Name Arguments?` directive and then the remaining
directives; concretely, a document with a non-empty directive list
parses into the consecutive directive nodes, and a document exercising
every directive position (operation, field, fragment spread, inline
fragment, fragment definition) with no directives at all parses
successfully with empty directive lists everywhere. -/
theorem claim_C9_directives_zero_or_more :
    (∀ (il : Bool) (n : Nat) (s : LexerState),
      (∀ t, (Lexer.peek s).1 = some (.ok t) → t.kind ≠ .atSign) →
      parseDirectives il (n + 1) s = .ok ([], (Lexer.peek s).2)) ∧
    (∀ (il : Bool) (n : Nat) (s : LexerState) (t : Token),
      (Lexer.peek s).1 = some (.ok t) → t.kind = .atSign →
      parseDirectives il (n + 1) s =
        match parseDirective il n (Lexer.peek s).2 with
        | .ok (d, s2) =>
          (match parseDirectives il n s2 with
           | .ok (ds, s3) => .ok (d :: ds, s3)
           | .error e => .error e)
        | .error e => .error e) ∧
    parse "query @x @y(a:1) \x7b b \x7d".data =
    .ok (⟨(some ⟨⟨0, 1, 1⟩, ⟨21, 1, 22⟩⟩), [(.operation ⟨(some ⟨⟨4, 1, 5⟩, ⟨21, 1, 22⟩⟩), .query, none, [], [⟨(some ⟨⟨6, 1, 7⟩, ⟨9, 1, 10⟩⟩), ⟨(some ⟨⟨6, 1, 7⟩, ⟨7, 1, 8⟩⟩), "x"⟩, []⟩, ⟨(some ⟨⟨9, 1, 10⟩, ⟨15, 1, 16⟩⟩), ⟨(some ⟨⟨9, 1, 10⟩, ⟨10, 1, 11⟩⟩), "y"⟩, [⟨(some ⟨⟨12, 1, 13⟩, ⟨14, 1, 15⟩⟩), ⟨(some ⟨⟨12, 1, 13⟩, ⟨12, 1, 13⟩⟩), "a"⟩, (.int ⟨(some ⟨⟨13, 1, 14⟩, ⟨14, 1, 15⟩⟩), (1 : Int)⟩)⟩]⟩], (.mk (some ⟨⟨17, 1, 18⟩, ⟨21, 1, 22⟩⟩) [(.field (.mk (some ⟨⟨19, 1, 20⟩, ⟨21, 1, 22⟩⟩) none ⟨(some ⟨⟨19, 1, 20⟩, ⟨19, 1, 20⟩⟩), "b"⟩ [] [] none))])⟩)]⟩ : Document) ∧
    parse "query q\x7ba ...on T\x7bb\x7d ...f\x7d fragment f on T\x7bc\x7d".data =
    .ok (⟨(some ⟨⟨0, 1, 1⟩, ⟨44, 1, 45⟩⟩), [(.operation ⟨(some ⟨⟨4, 1, 5⟩, ⟨25, 1, 26⟩⟩), .query, (some ⟨(some ⟨⟨4, 1, 5⟩, ⟨6, 1, 7⟩⟩), "q"⟩), [], [], (.mk (some ⟨⟨7, 1, 8⟩, ⟨25, 1, 26⟩⟩) [(.field (.mk (some ⟨⟨8, 1, 9⟩, ⟨12, 1, 13⟩⟩) none ⟨(some ⟨⟨8, 1, 9⟩, ⟨8, 1, 9⟩⟩), "a"⟩ [] [] none)), (.inlineFragment (.mk (some ⟨⟨12, 1, 13⟩, ⟨19, 1, 20⟩⟩) (some ⟨(some ⟨⟨14, 1, 15⟩, ⟨16, 1, 17⟩⟩), ⟨(some ⟨⟨14, 1, 15⟩, ⟨16, 1, 17⟩⟩), "T"⟩⟩) [] (.mk (some ⟨⟨17, 1, 18⟩, ⟨19, 1, 20⟩⟩) [(.field (.mk (some ⟨⟨18, 1, 19⟩, ⟨19, 1, 20⟩⟩) none ⟨(some ⟨⟨18, 1, 19⟩, ⟨18, 1, 19⟩⟩), "b"⟩ [] [] none))]))), (.fragmentSpread ⟨(some ⟨⟨23, 1, 24⟩, ⟨25, 1, 26⟩⟩), ⟨(some ⟨⟨23, 1, 24⟩, ⟨24, 1, 25⟩⟩), "f"⟩, []⟩)])⟩), (.fragment ⟨(some ⟨⟨34, 1, 35⟩, ⟨44, 1, 45⟩⟩), ⟨(some ⟨⟨36, 1, 37⟩, ⟨36, 1, 37⟩⟩), "f"⟩, ⟨(some ⟨⟨39, 1, 40⟩, ⟨41, 1, 42⟩⟩), ⟨(some ⟨⟨39, 1, 40⟩, ⟨41, 1, 42⟩⟩), "T"⟩⟩, [], (.mk (some ⟨⟨42, 1, 43⟩, ⟨44, 1, 45⟩⟩) [(.field (.mk (some ⟨⟨43, 1, 44⟩, ⟨44, 1, 45⟩⟩) none ⟨(some ⟨⟨43, 1, 44⟩, ⟨43, 1, 44⟩⟩), "c"⟩ [] [] none))])⟩)]⟩ : Document) :=
  ⟨fun il n s h => parseDirectives_no_at il n s h,
   fun il n s t hpk hk => parseDirectives_at_cons il n s t hpk hk,
   by rfl, by rfl⟩

/-- Claim C9 witness: a state whose next token is a plain name — no
directives are parsed and no token is consumed. -/
theorem claim_C9_directives_zero_or_more_witness :
    parseDirectives true 1 (mkLexer "x".data) =
      .ok ([], (Lexer.peek (mkLexer "x".data)).2) :=
  claim_C9_directives_zero_or_more.1 true 0 (mkLexer "x".data)
    (fun t hpk => by
      have h3 := hpk
      rw [show (Lexer.peek (mkLexer "x".data)).1 =
        some (.ok (⟨.name "x", ⟨0, 1, 1⟩, ⟨0, 1, 1⟩⟩ : Token)) from rfl] at h3
      have h4 := Except.ok.inj (Option.some.inj h3)
      rw [← h4]
      decide)

end Graphql
